import Mathlib

/-!
Verification development for the SimpleTelegramBot protocol client
(`src/TelegramComms.cpp`, `src/TelegramHelper.cpp`).

The C++ code is shallowly embedded: `QHash` becomes an association list
with overwrite-on-insert semantics, JSON values become an inductive type,
Qt signal emissions and log messages are collected in explicit lists, the
SQL persistence layer becomes a list of rows (the storage engine is
modelled as reliable: `QSqlQuery::exec` succeeds), and the local file
system is a list of file names.  Recursive parsers take an explicit fuel
argument (every recursive call decreases it) so that all definitions
compute by kernel reduction; the C++ recursion is over finite JSON trees,
so any fuel larger than the tree size gives the source behaviour.
-/

/-! ## Association lists: the model of QHash -/

/-- Lookup in an association list; models `QHash::operator[]` (const) /
`QHash::value` returning `none` when the key is absent. -/
def alGet {κ α : Type} [DecidableEq κ] : List (κ × α) → κ → Option α
  | [], _ => none
  | (k, v) :: rest, key => if k = key then some v else alGet rest key

/-- Lookup with a default value; models `const QHash<QString,QString>`
`operator[]` which returns a default-constructed value (the empty string)
for a missing key. -/
def alGetD {κ : Type} [DecidableEq κ] (m : List (κ × String)) (k : κ) : String :=
  (alGet m k).getD ""

/-- Membership test; models `QHash::contains`. -/
def alContains {κ α : Type} [DecidableEq κ] (m : List (κ × α)) (k : κ) : Bool :=
  (alGet m k).isSome

/-- Insert-or-overwrite; models `QHash::operator[] = value`. The key keeps
its original position when already present, otherwise it is appended. -/
def alSet {κ α : Type} [DecidableEq κ] : List (κ × α) → κ → α → List (κ × α)
  | [], k, v => [(k, v)]
  | (k', v') :: rest, k, v =>
    if k' = k then (k', v) :: rest else (k', v') :: alSet rest k v

/-- Remove a key; models `QHash::remove`. -/
def alRemove {κ α : Type} [DecidableEq κ] : List (κ × α) → κ → List (κ × α)
  | [], _ => []
  | (k', v') :: rest, k =>
    if k' = k then alRemove rest k else (k', v') :: alRemove rest k

/-- A flat string-to-string record; models `QHash<QString,QString>`. -/
abbrev SMap := List (String × String)

/-- Insert into a list acting as a set; models `QSet::operator+=` /
`QSet::insert` (no duplicates). -/
def setInsert {α : Type} [DecidableEq α] (s : List α) (x : α) : List α :=
  if x ∈ s then s else s ++ [x]

/-- Remove from a list acting as a set; models `QSet::operator-=`. -/
def setRemove {α : Type} [DecidableEq α] (s : List α) (x : α) : List α :=
  s.filter (fun y => y ≠ x)

/-! ## Decimal rendering and parsing

Models `QString::number(qint64)` and `QString::toLongLong`.  The C++
functions render and parse decimal numerals (with a leading minus sign for
negatives; `toLongLong` yields 0 on a malformed numeral or the empty
string).  All recursion is fueled so the definitions compute by kernel
reduction. -/

/-- Little-endian decimal digits of a natural number; fuel bounds the
number of divisions (any fuel at least the digit count is enough). -/
def natDigitsRev : Nat → Nat → List Nat
  | 0, _ => []
  | fuel+1, n => if n = 0 then [] else (n % 10) :: natDigitsRev fuel (n / 10)

/-- Character for a single decimal digit. -/
def digitChar (d : Nat) : Char :=
  match d with
  | 0 => '0' | 1 => '1' | 2 => '2' | 3 => '3' | 4 => '4'
  | 5 => '5' | 6 => '6' | 7 => '7' | 8 => '8' | _ => '9'

/-- Character list of the decimal rendering of a natural number. -/
def natToStrChars (n : Nat) : List Char :=
  if n = 0 then ['0']
  else ((natDigitsRev n n).reverse).map digitChar

/-- Decimal rendering of a natural number. -/
def natToStr (n : Nat) : String :=
  String.mk (natToStrChars n)

/-- Decimal rendering of a signed integer; models `QString::number`. -/
def intToStr (n : Int) : String :=
  if n < 0 then "-" ++ natToStr (-n).toNat else natToStr n.toNat

/-- Numeric value of a big-endian digit list. -/
def digitsVal (ds : List Nat) : Nat :=
  ds.foldl (fun acc d => acc * 10 + d) 0

/-- Parse a non-empty all-digit character list; any other input yields 0,
as `QString::toLongLong` does. -/
def parseNatChars (cs : List Char) : Nat :=
  if cs ≠ [] ∧ cs.all (fun c => c.isDigit) then
    digitsVal (cs.map (fun c => c.toNat - 48))
  else 0

/-- Parse a signed decimal string; models `QString::toLongLong` (which
returns 0 for the empty or malformed string). -/
def strToInt (s : String) : Int :=
  match s.data with
  | [] => 0
  | c :: rest =>
    if c = '-' then -(parseNatChars rest : Int) else (parseNatChars (c :: rest) : Int)

/-! ## JSON values

Models `QJsonValue` / `QJsonObject` / `QJsonArray`.  Accessors follow the
Qt conversion rules: a conversion applied to a value of the wrong kind (or
to the `undefined` value returned by `operator[]` for a missing key)
yields the default for the target type. -/

/-- A JSON value. -/
inductive Json where
  | null
  | jbool (b : Bool)
  | jnum (n : Int)
  | jstr (s : String)
  | jarr (elems : List Json)
  | jobj (fields : List (String × Json))
  deriving Repr

/-- Fields of an object; any other value has none (this also models
`QJsonValue::toObject` returning the empty object). -/
def Json.objFields : Json → List (String × Json)
  | .jobj fs => fs
  | _ => []

/-- Models `QJsonObject::operator[]`; a missing key yields `undefined`,
here `null` (the conversions below treat them alike). -/
def Json.getKey (j : Json) (k : String) : Json :=
  (alGet j.objFields k).getD .null

/-- Models `QJsonObject::keys()`.  `QJsonObject` keys are unique; the
theorems that need this take a `Nodup` hypothesis. -/
def Json.keys (j : Json) : List String :=
  j.objFields.map Prod.fst

/-- Models `QJsonObject::contains`. -/
def Json.containsKey (j : Json) (k : String) : Bool :=
  alContains j.objFields k

/-- Models `QJsonValue::toInteger` (and `toInt`; the 32-bit truncation of
`toInt` is irrelevant for the values handled here). -/
def Json.toInteger : Json → Int
  | .jnum n => n
  | _ => 0

/-- Models `QJsonValue::toString`. -/
def Json.toStr : Json → String
  | .jstr s => s
  | _ => ""

/-- Models `QJsonValue::toBool`. -/
def Json.toBoolV : Json → Bool
  | .jbool b => b
  | _ => false

/-- Models `QJsonValue::toArray`. -/
def Json.toArr : Json → List Json
  | .jarr xs => xs
  | _ => []

/-- Models `QJsonObject::isEmpty` after a `toObject` conversion. -/
def Json.isObjEmpty (j : Json) : Bool :=
  j.objFields.isEmpty

/-- Models `QJsonValue::isArray`. -/
def Json.isArrV : Json → Bool
  | .jarr _ => true
  | _ => false

/-- Models `QDateTime::fromSecsSinceEpoch(s).toString("yyyy-MM-dd hh:mm:ss")`.
The calendar rendering itself is irrelevant to every property proved in
this file; the model keeps the defining property of the source expression:
the rendered text is a function of (and determined by) the epoch value. -/
def formatDateTime (secs : Int) : String :=
  "epoch:" ++ intToStr secs

/-! ## Signals, network requests, database rows -/

/-- Qt signals emitted by `TelegramComms` (prefix-free constructors) and by
`TelegramHelper` (prefixed with `H`). -/
inductive Event where
  | UpdateReceived (chatId updateId : Int)
  | MessageReceived (chatId messageId : Int)
  | ChannelPostReceived (chatId messageId : Int)
  | StickerSetInfoFailed (name : String)
  | StickerSetInfoReceived (name : String)
  | FileDownloaded (fileId : String)
  | HMessageReceived (chatId messageId : Int)
  | HFileDownloaded (fileId : String)
  | HStickerSetInfoReceived (name : String)
  | HStickerSetReceived (name : String)
  deriving Repr, DecidableEq

/-- Network requests issued through `m_NetworkAccessManager->get` /
`->post`, by the Telegram API method they address. -/
inductive Request where
  | getUpdates (offsetParam : Option Int)
  | getStickerSet (name : String)
  | getFile (fileId : String)
  | fileDownload (path : String)
  deriving Repr, DecidableEq

/-- A row of the relational store: `(table, id, key, value)` plus the
`sequence` column that only the sticker-set table has (0 elsewhere). -/
structure DbRow where
  table : String
  id : String
  key : String
  value : String
  seq : Int
  deriving Repr, DecidableEq

/-! ## The state touched by the JSON normalizers

`ParseState` holds exactly the `TelegramComms` members read or written by
the `Parse_*` entity normalizers below `Parse_Response` (entity stores,
synthetic ID counters, the active-chat set, the database mirror, and the
emitted signals and log lines).  The sticker-set download bookkeeping and
the network side live in `CommsState`, which embeds a `ParseState`; that
split mirrors the fact, visible in the source, that the entity
normalizers never touch those members. -/
structure ParseState where
  updateIDToInfo : List (Int × SMap)
  messageIDToInfo : List (Int × SMap)
  userIDToInfo : List (Int × SMap)
  chatIDToInfo : List (Int × SMap)
  myChatMemberIDToInfo : List (Int × SMap)
  fileIDToInfo : List (String × SMap)
  channelPostIDToInfo : List (Int × SMap)
  buttonListIDToInfo : List (Int × SMap)
  buttonIDToInfo : List (Int × SMap)
  nextButtonListID : Int
  nextButtonID : Int
  activeChats : List Int
  db : List DbRow
  events : List Event
  logs : List String
  deriving Repr

/-- The empty parse state (fresh `TelegramComms` instance). -/
def initParseState : ParseState :=
  ⟨[], [], [], [], [], [], [], [], [], 0, 0, [], [], [], []⟩

/-- Append a log line; models `MessageLogger::Error` and `qDebug`. -/
def psLog (ps : ParseState) (msg : String) : ParseState :=
  { ps with logs := ps.logs ++ [msg] }

/-- Emit a Qt signal. -/
def psEmit (ps : ParseState) (e : Event) : ParseState :=
  { ps with events := ps.events ++ [e] }

/-- Models `TelegramComms::SaveInfoData` (src/TelegramComms.cpp:655-725):
delete all rows of this record id from the table, then insert one
`(id, key, value)` row per field.  `idIsText` selects the `"text"` id
binding; `"bigint"` renders `info["id"].toLongLong()`.  The storage engine
is modelled as reliable, so the `bool` result of the source is constant
and omitted. -/
def saveInfoData (ps : ParseState) (table : String) (info : SMap) (idIsText : Bool) :
    ParseState :=
  let idStr := if idIsText then alGetD info "id" else intToStr (strToInt (alGetD info "id"))
  { ps with
    db := ps.db.filter (fun r => !(r.table = table && r.id = idStr))
      ++ info.map (fun kv => DbRow.mk table idStr kv.1 kv.2 0) }

/-- Renders a `QJsonValue` boolean the way every `Parse_*` function does:
`value.toBool() ? "true" : "false"`. -/
def boolStr (j : Json) : String :=
  if j.toBoolV then "true" else "false"

/-! ## Leaf normalizers (no recursion) -/

/-- Key loop of `TelegramComms::Parse_User` (src/TelegramComms.cpp:2284-2330). -/
def parseUserKeys (j : Json) : List String → SMap → ParseState → SMap × ParseState
  | [], acc, ps => (acc, ps)
  | k :: ks, acc, ps =>
    if k = "first_name" then
      parseUserKeys j ks (alSet acc "first_name" (j.getKey k).toStr) ps
    else if k = "id" then
      parseUserKeys j ks (alSet acc "id" (intToStr (j.getKey k).toInteger)) ps
    else if k = "is_bot" then
      parseUserKeys j ks (alSet acc "is_bot" (boolStr (j.getKey k))) ps
    else if k = "is_premium" then
      parseUserKeys j ks (alSet acc "is_premium" (boolStr (j.getKey k))) ps
    else if k = "language_code" then
      parseUserKeys j ks (alSet acc "language_code" (j.getKey k).toStr) ps
    else if k = "last_name" then
      parseUserKeys j ks (alSet acc "last_name" (j.getKey k).toStr) ps
    else if k = "username" then
      parseUserKeys j ks (alSet acc "username" (j.getKey k).toStr) ps
    else
      parseUserKeys j ks acc (psLog ps ("Unknown key \"" ++ k ++ "\" in user"))

/-- Models `TelegramComms::Parse_User` (src/TelegramComms.cpp:2256-2345).
An empty result map signals failure, as in the source. -/
def parseUser (ps : ParseState) (j : Json) : SMap × ParseState :=
  let userId := (j.getKey "id").toInteger
  if alContains ps.userIDToInfo userId then
    ((alGet ps.userIDToInfo userId).getD [], ps)
  else
    let r := parseUserKeys j j.keys [] ps
    let info := r.1
    let ps := r.2
    if !(alContains info "id") then
      ([], psLog ps "User is missing an ID")
    else
      let ps := { ps with userIDToInfo := alSet ps.userIDToInfo userId info }
      let ps := saveInfoData ps "user_info" info false
      (info, ps)

/-- Key loop of `TelegramComms::Parse_Chat` (src/TelegramComms.cpp:2425-2478).
The `is_bot` branch writes `first_name`, as the source does. -/
def parseChatKeys (j : Json) : List String → SMap → ParseState → SMap × ParseState
  | [], acc, ps => (acc, ps)
  | k :: ks, acc, ps =>
    if k = "all_members_are_administrators" then
      parseChatKeys j ks (alSet acc "all_members_are_administrators" (boolStr (j.getKey k))) ps
    else if k = "first_name" then
      parseChatKeys j ks (alSet acc "first_name" (j.getKey k).toStr) ps
    else if k = "id" then
      parseChatKeys j ks (alSet acc "id" (intToStr (j.getKey k).toInteger)) ps
    else if k = "title" then
      parseChatKeys j ks (alSet acc "title" (j.getKey k).toStr) ps
    else if k = "type" then
      parseChatKeys j ks (alSet acc "type" (j.getKey k).toStr) ps
    else if k = "is_bot" then
      parseChatKeys j ks (alSet acc "first_name" (boolStr (j.getKey k))) ps
    else if k = "last_name" then
      parseChatKeys j ks (alSet acc "last_name" (j.getKey k).toStr) ps
    else if k = "username" then
      parseChatKeys j ks (alSet acc "username" (j.getKey k).toStr) ps
    else
      parseChatKeys j ks acc (psLog ps ("Unknown key \"" ++ k ++ "\" in chat"))

/-- Models `TelegramComms::Parse_Chat` (src/TelegramComms.cpp:2389-2493). -/
def parseChat (ps : ParseState) (j : Json) : SMap × ParseState :=
  let chatId := (j.getKey "id").toInteger
  if alContains ps.chatIDToInfo chatId then
    ((alGet ps.chatIDToInfo chatId).getD [], ps)
  else
    let r := parseChatKeys j j.keys [] ps
    let info := r.1
    let ps := r.2
    if !(alContains info "id") then
      ([], psLog ps "Chat is missing an id")
    else
      let ps := { ps with chatIDToInfo := alSet ps.chatIDToInfo chatId info }
      let ps := saveInfoData ps "chat_info" info false
      (info, ps)

/-- Key loop of `TelegramComms::Parse_Button` (src/TelegramComms.cpp:3279-3299). -/
def parseButtonKeys (j : Json) : List String → SMap → ParseState → SMap × ParseState
  | [], acc, ps => (acc, ps)
  | k :: ks, acc, ps =>
    if k = "callback_data" then
      parseButtonKeys j ks (alSet acc "callback_data" (j.getKey k).toStr) ps
    else if k = "text" then
      parseButtonKeys j ks (alSet acc "text" (j.getKey k).toStr) ps
    else
      parseButtonKeys j ks acc (psLog ps ("Unknown key \"" ++ k ++ "\" in button"))

/-- Models `TelegramComms::Parse_Button` (src/TelegramComms.cpp:3267-3309):
no deduplication, a fresh synthetic id on every call. -/
def parseButton (ps : ParseState) (j : Json) : SMap × ParseState :=
  let r := parseButtonKeys j j.keys [] ps
  let buttonId := r.2.nextButtonID
  let info := alSet r.1 "id" (intToStr buttonId)
  let ps := { r.2 with nextButtonID := buttonId + 1 }
  let ps := { ps with buttonIDToInfo := alSet ps.buttonIDToInfo buttonId info }
  let ps := saveInfoData ps "button_info" info false
  (info, ps)

/-- Column loop of `TelegramComms::Parse_ButtonList`
(src/TelegramComms.cpp:3190-3211); `none` is the early error return. -/
def parseButtonListCols (rowName : String) :
    List Json → Nat → Nat → SMap → ParseState → Option SMap × ParseState
  | [], _, _, acc, ps => (some acc, ps)
  | cell :: rest, rowIdx, colIdx, acc, ps =>
    if cell.isObjEmpty then
      (none, psLog ps ("Row " ++ natToStr rowIdx ++ ", column " ++ natToStr colIdx
        ++ " is empty."))
    else
      let r := parseButton ps cell
      let colName := "col_" ++ natToStr colIdx
      let acc := alSet acc (rowName ++ "_" ++ colName ++ "_button_id") (alGetD r.1 "id")
      parseButtonListCols rowName rest rowIdx (colIdx + 1) acc r.2

/-- Row loop of `TelegramComms::Parse_ButtonList`
(src/TelegramComms.cpp:3170-3212). -/
def parseButtonListRows :
    List Json → Nat → SMap → ParseState → Option SMap × ParseState
  | [], _, acc, ps => (some acc, ps)
  | row :: rest, rowIdx, acc, ps =>
    let thisRow := row.toArr
    if thisRow.isEmpty then
      (none, psLog ps ("Row " ++ natToStr rowIdx ++ " is empty."))
    else
      let rowName := "row_" ++ natToStr rowIdx
      let acc := alSet acc (rowName ++ "_num_cols") (natToStr thisRow.length)
      match parseButtonListCols rowName thisRow rowIdx 0 acc ps with
      | (none, ps) => (none, ps)
      | (some acc, ps) => parseButtonListRows rest (rowIdx + 1) acc ps

/-- Models `TelegramComms::Parse_ButtonList` (src/TelegramComms.cpp:3132-3222). -/
def parseButtonList (ps : ParseState) (j : Json) : SMap × ParseState :=
  let rows := (j.getKey "inline_keyboard").toArr
  if rows.isEmpty then
    ([], psLog ps "reply_markup did not have a \"inline_keyboard\" member.")
  else
    let acc : SMap := alSet [] "num_rows" (natToStr rows.length)
    match parseButtonListRows rows 0 acc ps with
    | (none, ps) => ([], ps)
    | (some acc, ps) =>
      let listId := ps.nextButtonListID
      let info := alSet acc "id" (intToStr listId)
      let ps := { ps with nextButtonListID := listId + 1 }
      let ps := { ps with buttonListIDToInfo := alSet ps.buttonListIDToInfo listId info }
      let ps := saveInfoData ps "button_list_info" info false
      (info, ps)

/-! ## File-record merging

The merge step of `TelegramComms::Parse_File` (src/TelegramComms.cpp:3049-3079):
each field of the newly parsed payload is checked against the stored
record; a field already present is never overwritten (a differing value is
logged as a data-integrity mismatch), an unseen field is added. -/

/-- The merge fold: iterates the fields of the new payload over the
current stored record, returning the updated record and the mismatch log
lines in iteration order. -/
def mergeFileFields (fileId : String) : List (String × String) → SMap → SMap × List String
  | [], cur => (cur, [])
  | (k, v) :: rest, cur =>
    if alContains cur k then
      if alGetD cur k ≠ v then
        let warn := "File ID " ++ fileId ++ " has data mismatch for key \"" ++ k
          ++ "\": old: \"" ++ alGetD cur k ++ "\", new: \"" ++ v ++ "\""
        let r := mergeFileFields fileId rest cur
        (r.1, warn :: r.2)
      else
        mergeFileFields fileId rest cur
    else
      mergeFileFields fileId rest (alSet cur k v)

/-! ## Recursive normalizers: files and messages

`Parse_File` recurses through `premium_animation` and `Parse_Message`
through `reply_to_message`, so both live in one fueled mutual block; every
recursive call decreases the fuel, which keeps the recursion structural
(all definitions compute by kernel reduction).  Exhausted fuel returns the
failure value; all theorems either supply ample fuel or condition on a
successful parse. -/

mutual

/-- Key loop of `TelegramComms::Parse_File` (src/TelegramComms.cpp:2933-3047). -/
def parseFileKeys : Nat → Json → List String → SMap → ParseState → SMap × ParseState
  | 0, _, _, _, ps => ([], ps)
  | fuel+1, j, keys, acc, ps =>
    match keys with
    | [] => (acc, ps)
    | k :: ks =>
      if k = "duration" then
        parseFileKeys fuel j ks (alSet acc "duration" (intToStr (j.getKey k).toInteger)) ps
      else if k = "emoji" then
        parseFileKeys fuel j ks (alSet acc "emoji" (j.getKey k).toStr) ps
      else if k = "file_id" then
        let acc := alSet acc "file_id" (j.getKey k).toStr
        parseFileKeys fuel j ks (alSet acc "id" (j.getKey k).toStr) ps
      else if k = "file_name" then
        parseFileKeys fuel j ks (alSet acc "file_name" (j.getKey k).toStr) ps
      else if k = "file_path" then
        parseFileKeys fuel j ks (alSet acc "file_path" (j.getKey k).toStr) ps
      else if k = "file_size" then
        parseFileKeys fuel j ks (alSet acc "file_size" (intToStr (j.getKey k).toInteger)) ps
      else if k = "file_unique_id" then
        parseFileKeys fuel j ks (alSet acc "file_unique_id" (j.getKey k).toStr) ps
      else if k = "height" then
        parseFileKeys fuel j ks (alSet acc "height" (intToStr (j.getKey k).toInteger)) ps
      else if k = "is_animated" then
        parseFileKeys fuel j ks (alSet acc "is_animated" (boolStr (j.getKey k))) ps
      else if k = "is_video" then
        parseFileKeys fuel j ks (alSet acc "is_video" (boolStr (j.getKey k))) ps
      else if k = "mime_type" then
        parseFileKeys fuel j ks (alSet acc "mime_type" (j.getKey k).toStr) ps
      else if k = "premium_animation" then
        let r := parseFile fuel ps (j.getKey k)
        parseFileKeys fuel j ks (alSet acc "premium_animation_file_id" (alGetD r.1 "id")) r.2
      else if k = "set_name" then
        parseFileKeys fuel j ks (alSet acc "set_name" (j.getKey k).toStr) ps
      else if k = "thumb" then
        parseFileKeys fuel j ks acc ps
      else if k = "thumbnail" then
        parseFileKeys fuel j ks acc ps
      else if k = "type" then
        parseFileKeys fuel j ks (alSet acc "type" (j.getKey k).toStr) ps
      else if k = "width" then
        parseFileKeys fuel j ks (alSet acc "width" (intToStr (j.getKey k).toInteger)) ps
      else
        parseFileKeys fuel j ks acc (psLog ps ("Unknown key \"" ++ k ++ "\" in file"))

/-- Models `TelegramComms::Parse_File` (src/TelegramComms.cpp:2870-3086).
File records are not deduplicated: the new payload is merged field-wise
into the stored record (`mergeFileFields`), existing values win.  The
source reads `file_info["id"]` through the non-const `operator[]`, which
inserts an empty `id` field when the payload had no `file_id`; the
`alSet` below reproduces that. -/
def parseFile : Nat → ParseState → Json → SMap × ParseState
  | 0, ps, _ => ([], ps)
  | fuel+1, ps, j =>
    let r := parseFileKeys fuel j j.keys [] ps
    let ps := r.2
    let fileId := alGetD r.1 "id"
    let fileInfo := if alContains r.1 "id" then r.1 else alSet r.1 "id" ""
    let cur := (alGet ps.fileIDToInfo fileId).getD []
    let m := mergeFileFields fileId fileInfo cur
    let ps := { ps with logs := ps.logs ++ m.2 }
    let ps := { ps with fileIDToInfo := alSet ps.fileIDToInfo fileId m.1 }
    let ps := saveInfoData ps "file_info" m.1 true
    (m.1, ps)

/-- Key loop of `TelegramComms::Parse_Message`
(src/TelegramComms.cpp:1800-2192); `none` is the early error return. -/
def parseMessageKeys : Nat → Json → List String → SMap → ParseState →
    Option SMap × ParseState
  | 0, _, _, _, ps => (none, ps)
  | fuel+1, j, keys, acc, ps =>
    match keys with
    | [] => (some acc, ps)
    | k :: ks =>
      if k = "animation" then
        let r := parseFile fuel ps (j.getKey k)
        parseMessageKeys fuel j ks (alSet acc "animation_file_id" (alGetD r.1 "id")) r.2
      else if k = "caption" then
        parseMessageKeys fuel j ks (alSet acc "caption" (j.getKey k).toStr) ps
      else if k = "chat" then
        let r := parseChat ps (j.getKey k)
        if r.1.isEmpty then
          (none, psLog r.2 "Error parsing chat info")
        else
          let acc := alSet acc "chat_id" (alGetD r.1 "id")
          let ps := { r.2 with
            activeChats := setInsert r.2.activeChats (strToInt (alGetD r.1 "id")) }
          parseMessageKeys fuel j ks acc ps
      else if k = "date" then
        parseMessageKeys fuel j ks
          (alSet acc "date_time" (formatDateTime (j.getKey k).toInteger)) ps
      else if k = "document" then
        let r := parseFile fuel ps (j.getKey k)
        if r.1.isEmpty then
          (none, psLog r.2 "Error parsing document info")
        else
          parseMessageKeys fuel j ks (alSet acc "document_id" (alGetD r.1 "id")) r.2
      else if k = "edit_date" then
        parseMessageKeys fuel j ks
          (alSet acc "edit_date_time" (formatDateTime (j.getKey k).toInteger)) ps
      else if k = "entities" then
        parseMessageKeys fuel j ks acc ps
      else if k = "forward_date" then
        parseMessageKeys fuel j ks
          (alSet acc "forward_date_time" (formatDateTime (j.getKey k).toInteger)) ps
      else if k = "forward_from" then
        let r := parseUser ps (j.getKey k)
        if r.1.isEmpty then
          (none, psLog r.2 "Error parsing user info (forward_from)")
        else
          parseMessageKeys fuel j ks (alSet acc "forward_from_id" (alGetD r.1 "id")) r.2
      else if k = "forward_from_chat" then
        let r := parseChat ps (j.getKey k)
        if r.1.isEmpty then
          (none, psLog r.2 "Error parsing chat info (forward_from_chat)")
        else
          parseMessageKeys fuel j ks
            (alSet acc "forward_from_chat_id" (alGetD r.1 "id")) r.2
      else if k = "forward_from_message_id" then
        parseMessageKeys fuel j ks
          (alSet acc "forward_from_message_id" (intToStr (j.getKey k).toInteger)) ps
      else if k = "forward_origin" then
        parseMessageKeys fuel j ks acc ps
      else if k = "forward_sender_name" then
        parseMessageKeys fuel j ks (alSet acc "forward_sender_name" (j.getKey k).toStr) ps
      else if k = "forward_signature" then
        parseMessageKeys fuel j ks (alSet acc "forward_singature" (j.getKey k).toStr) ps
      else if k = "from" then
        let r := parseUser ps (j.getKey k)
        if r.1.isEmpty then
          (none, psLog r.2 "Error parsing user info (from)")
        else
          parseMessageKeys fuel j ks (alSet acc "from_id" (alGetD r.1 "id")) r.2
      else if k = "link_preview_options" then
        parseMessageKeys fuel j ks acc (psLog ps "link_preview_options [ignored]")
      else if k = "message_id" then
        parseMessageKeys fuel j ks (alSet acc "id" (intToStr (j.getKey k).toInteger)) ps
      else if k = "message_thread_id" then
        parseMessageKeys fuel j ks
          (alSet acc "message_thread_id" (intToStr (j.getKey k).toInteger)) ps
      else if k = "new_chat_member" then
        let r := parseUser ps (j.getKey k)
        if r.1.isEmpty then
          (none, psLog r.2 "Error parsing user info (new_chat_member)")
        else
          parseMessageKeys fuel j ks (alSet acc "new_chat_member_id" (alGetD r.1 "id")) r.2
      else if k = "new_chat_photo" then
        let lastPhoto := (((j.getKey k).toArr).getLast?).getD .null
        if lastPhoto.isObjEmpty then
          (none, psLog ps "New channel photo array did not have a last entry.")
        else
          let r := parseFile fuel ps lastPhoto
          if r.1.isEmpty then
            (none, psLog r.2 "Error parsing in picture list (new channel photo)")
          else
            parseMessageKeys fuel j ks (alSet acc "new_chat_photo_id" (alGetD r.1 "id")) r.2
      else if k = "new_chat_members" then
        parseMessageKeys fuel j ks acc ps
      else if k = "new_chat_participant" then
        parseMessageKeys fuel j ks acc ps
      else if k = "new_chat_title" then
        parseMessageKeys fuel j ks (alSet acc "new_chat_title" (j.getKey k).toStr) ps
      else if k = "photo" then
        let lastPhoto := (((j.getKey k).toArr).getLast?).getD .null
        if lastPhoto.isObjEmpty then
          (none, psLog ps "photo array did not have a last entry.")
        else
          let r := parseFile fuel ps lastPhoto
          if r.1.isEmpty then
            (none, psLog r.2 "Error parsing in photos list (photo)")
          else
            parseMessageKeys fuel j ks (alSet acc "photo_file_id" (alGetD r.1 "id")) r.2
      else if k = "reply_markup" then
        let r := parseButtonList ps (j.getKey k)
        parseMessageKeys fuel j ks (alSet acc "button_list_id" (alGetD r.1 "id")) r.2
      else if k = "reply_to_message" then
        let r := parseMessage fuel ps (j.getKey k)
        if r.1.isEmpty then
          (none, psLog r.2 "Error parsing message info (reply_to)")
        else
          parseMessageKeys fuel j ks (alSet acc "reply_to_message_id" (alGetD r.1 "id")) r.2
      else if k = "sender_chat" then
        let r := parseChat ps (j.getKey k)
        if r.1.isEmpty then
          (none, psLog r.2 "Error parsing sender_chat info")
        else
          parseMessageKeys fuel j ks (alSet acc "sender_chat_id" (alGetD r.1 "id")) r.2
      else if k = "sticker" then
        let r := parseFile fuel ps (j.getKey k)
        if r.1.isEmpty then
          (none, psLog r.2 "Error parsing sticker info")
        else
          parseMessageKeys fuel j ks (alSet acc "sticker_id" (alGetD r.1 "id")) r.2
      else if k = "text" then
        parseMessageKeys fuel j ks (alSet acc "text" (j.getKey k).toStr) ps
      else
        parseMessageKeys fuel j ks acc (psLog ps ("Unknown key \"" ++ k ++ "\" in message"))

/-- Models `TelegramComms::Parse_Message` (src/TelegramComms.cpp:1718-2211):
dedupe on `message_id` (an already-known id returns the stored record and
does nothing else), parse, require an `id` field, store, persist, then
emit `MessageReceived` exactly once. -/
def parseMessage : Nat → ParseState → Json → SMap × ParseState
  | 0, ps, _ => ([], ps)
  | fuel+1, ps, j =>
    let messageId := (j.getKey "message_id").toInteger
    if alContains ps.messageIDToInfo messageId then
      ((alGet ps.messageIDToInfo messageId).getD [], ps)
    else
      match parseMessageKeys fuel j j.keys [] ps with
      | (none, ps) => ([], ps)
      | (some info, ps) =>
        if !(alContains info "id") then
          ([], psLog ps "Message is missing an ID")
        else
          let ps := { ps with messageIDToInfo := alSet ps.messageIDToInfo messageId info }
          let ps := saveInfoData ps "message_info" info false
          let chatId := strToInt (alGetD info "chat_id")
          let ps := psEmit ps (.MessageReceived chatId messageId)
          (info, ps)

end

/-! ## Membership changes, channel posts, updates -/

/-- Merge a sub-record into a record under a key prefix, as the
`old_chat_member` / `new_chat_member` branches of `Parse_MyChatMember` do. -/
def alSetPrefixed (acc : SMap) (pre : String) (entries : SMap) : SMap :=
  entries.foldl (fun a kv => alSet a (pre ++ kv.1) kv.2) acc

/-- Key loop of `TelegramComms::Parse_MyChatMember_OldChatMember`
(src/TelegramComms.cpp:2688-2717). -/
def parseOldChatMemberKeys (j : Json) :
    List String → SMap → ParseState → Option SMap × ParseState
  | [], acc, ps => (some acc, ps)
  | k :: ks, acc, ps =>
    if k = "user" then
      let r := parseUser ps (j.getKey k)
      if r.1.isEmpty then
        (none, psLog r.2 "Error parsing user info")
      else
        parseOldChatMemberKeys j ks (alSet acc "user_id" (alGetD r.1 "id")) r.2
    else if k = "status" then
      parseOldChatMemberKeys j ks (alSet acc "status" (j.getKey k).toStr) ps
    else
      parseOldChatMemberKeys j ks acc
        (psLog ps ("Unknown key \"" ++ k ++ "\" in old_chat_member"))

/-- Models `TelegramComms::Parse_MyChatMember_OldChatMember`
(src/TelegramComms.cpp:2676-2721). -/
def parseOldChatMember (ps : ParseState) (j : Json) : SMap × ParseState :=
  match parseOldChatMemberKeys j j.keys [] ps with
  | (none, ps) => ([], ps)
  | (some acc, ps) => (acc, ps)

/-- The permission-flag keys recognized by
`Parse_MyChatMember_NewChatMember` (src/TelegramComms.cpp:2760-2767). -/
def newChatMemberFlagKeys : List String :=
  ["can_be_edited", "can_manage_chat", "can_change_info", "can_delete_messages",
   "can_invite_users", "can_restrict_members", "can_pin_messages",
   "can_manage_topics", "can_promote_members", "can_manage_video_chats",
   "can_post_stories", "can_edit_stories", "can_delete_stories", "is_anonymous",
   "can_manage_voice_chats", "can_post_messages", "can_edit_messages"]

/-- Key loop of `TelegramComms::Parse_MyChatMember_NewChatMember`
(src/TelegramComms.cpp:2771-2823). -/
def parseNewChatMemberKeys (j : Json) :
    List String → SMap → ParseState → Option SMap × ParseState
  | [], acc, ps => (some acc, ps)
  | k :: ks, acc, ps =>
    if k = "user" then
      let r := parseUser ps (j.getKey k)
      if r.1.isEmpty then
        (none, psLog r.2 "Error parsing user info")
      else
        parseNewChatMemberKeys j ks (alSet acc "user_id" (alGetD r.1 "id")) r.2
    else if k = "status" then
      parseNewChatMemberKeys j ks (alSet acc "status" (j.getKey k).toStr) ps
    else if k = "until_date" then
      let sinceEpoch := (j.getKey k).toInteger
      let v := if sinceEpoch = 0 then "" else formatDateTime sinceEpoch
      parseNewChatMemberKeys j ks (alSet acc "until_date" v) ps
    else if k ∈ newChatMemberFlagKeys then
      parseNewChatMemberKeys j ks (alSet acc k (boolStr (j.getKey k))) ps
    else
      parseNewChatMemberKeys j ks acc
        (psLog ps ("Unknown key \"" ++ k ++ "\" in new_chat_member"))

/-- Models `TelegramComms::Parse_MyChatMember_NewChatMember`
(src/TelegramComms.cpp:2727-2827). -/
def parseNewChatMember (ps : ParseState) (j : Json) : SMap × ParseState :=
  match parseNewChatMemberKeys j j.keys [] ps with
  | (none, ps) => ([], ps)
  | (some acc, ps) => (acc, ps)

/-- Key loop of `TelegramComms::Parse_MyChatMember`
(src/TelegramComms.cpp:2552-2654).  The `date` branch stores the formatted
time and uses the raw epoch value as the record id — there is no
protocol-supplied id for membership changes. -/
def parseMyChatMemberKeys (j : Json) :
    List String → SMap → ParseState → Option SMap × ParseState
  | [], acc, ps => (some acc, ps)
  | k :: ks, acc, ps =>
    if k = "chat" then
      let r := parseChat ps (j.getKey k)
      if r.1.isEmpty then
        (none, psLog r.2 "Error parsing chat info")
      else
        parseMyChatMemberKeys j ks (alSet acc "chat_id" (alGetD r.1 "id")) r.2
    else if k = "date" then
      let acc := alSet acc "date_time" (formatDateTime (j.getKey k).toInteger)
      parseMyChatMemberKeys j ks (alSet acc "id" (intToStr (j.getKey k).toInteger)) ps
    else if k = "from" then
      let r := parseUser ps (j.getKey k)
      if r.1.isEmpty then
        (none, psLog r.2 "Error parsing in my_chat_member info (from)")
      else
        parseMyChatMemberKeys j ks (alSet acc "from_id" (alGetD r.1 "id")) r.2
    else if k = "old_chat_member" then
      let r := parseOldChatMember ps (j.getKey "old_chat_member")
      if r.1.isEmpty then
        (none, psLog r.2 "Error parsing in my_chat_member info (old_chat_member)")
      else
        parseMyChatMemberKeys j ks (alSetPrefixed acc "old_chat_member_" r.1) r.2
    else if k = "new_chat_member" then
      let r := parseNewChatMember ps (j.getKey "new_chat_member")
      if r.1.isEmpty then
        (none, psLog r.2 "Error parsing in my_chat_member info (new_chat_member)")
      else
        parseMyChatMemberKeys j ks (alSetPrefixed acc "new_chat_member_" r.1) r.2
    else
      parseMyChatMemberKeys j ks acc
        (psLog ps ("Unknown key \"" ++ k ++ "\" in my_chat_member"))

/-- Models `TelegramComms::Parse_MyChatMember`
(src/TelegramComms.cpp:2537-2670).  Note the absence of a dedupe check:
membership changes are stored keyed by their `date` epoch value, and a
later record with the same date overwrites the earlier one in the store
and (via `SaveInfoData`) in the database.  No signal is emitted. -/
def parseMyChatMember (ps : ParseState) (j : Json) : SMap × ParseState :=
  match parseMyChatMemberKeys j j.keys [] ps with
  | (none, ps) => ([], ps)
  | (some info, ps) =>
    if !(alContains info "id") then
      ([], psLog ps "MyChatMember is missing an ID")
    else
      let myChatMemberId := strToInt (alGetD info "id")
      let ps := { ps with
        myChatMemberIDToInfo := alSet ps.myChatMemberIDToInfo myChatMemberId info }
      let ps := saveInfoData ps "my_chat_member_info" info false
      (info, ps)

/-- Key loop of `TelegramComms::Parse_ChannelPost`
(src/TelegramComms.cpp:3710-3818).  The `chat` and `sender_chat` branches
both normalize `mcrChannelPost["chat"]`, and neither checks for failure,
exactly as the source does. -/
def parseChannelPostKeys (fuel : Nat) (j : Json) :
    List String → SMap → ParseState → Option SMap × ParseState
  | [], acc, ps => (some acc, ps)
  | k :: ks, acc, ps =>
    if k = "caption" then
      parseChannelPostKeys fuel j ks (alSet acc "caption" (j.getKey k).toStr) ps
    else if k = "caption_entities" then
      parseChannelPostKeys fuel j ks acc ps
    else if k = "chat" then
      let r := parseChat ps (j.getKey "chat")
      parseChannelPostKeys fuel j ks (alSet acc "chat_id" (alGetD r.1 "id")) r.2
    else if k = "date" then
      parseChannelPostKeys fuel j ks
        (alSet acc "date_time" (formatDateTime (j.getKey k).toInteger)) ps
    else if k = "document" then
      let r := parseFile fuel ps (j.getKey "document")
      parseChannelPostKeys fuel j ks (alSet acc "document_file_id" (alGetD r.1 "id")) r.2
    else if k = "entities" then
      parseChannelPostKeys fuel j ks acc ps
    else if k = "media_group_id" then
      parseChannelPostKeys fuel j ks (alSet acc "media_group_id" (j.getKey k).toStr) ps
    else if k = "message_id" then
      let acc := alSet acc "message_id" (intToStr (j.getKey k).toInteger)
      parseChannelPostKeys fuel j ks (alSet acc "id" (intToStr (j.getKey k).toInteger)) ps
    else if k = "photo" then
      let lastPhoto := (((j.getKey k).toArr).getLast?).getD .null
      if lastPhoto.isObjEmpty then
        (none, psLog ps "photo array did not have a last entry.")
      else
        let r := parseFile fuel ps lastPhoto
        if r.1.isEmpty then
          (none, psLog r.2 "Error parsing in photos list (photo)")
        else
          parseChannelPostKeys fuel j ks (alSet acc "photo_file_id" (alGetD r.1 "id")) r.2
    else if k = "sender_chat" then
      let r := parseChat ps (j.getKey "chat")
      parseChannelPostKeys fuel j ks (alSet acc "sender_chat_id" (alGetD r.1 "id")) r.2
    else if k = "text" then
      parseChannelPostKeys fuel j ks (alSet acc "text" (j.getKey k).toStr) ps
    else
      parseChannelPostKeys fuel j ks acc
        (psLog ps ("Unknown key \"" ++ k ++ "\" in channel post set"))

/-- Models `TelegramComms::Parse_ChannelPost` (src/TelegramComms.cpp:3644-3837):
dedupe on `message_id`, parse, require an id, store, persist, emit
`ChannelPostReceived` once. -/
def parseChannelPost (fuel : Nat) (ps : ParseState) (j : Json) : SMap × ParseState :=
  let messageId := (j.getKey "message_id").toInteger
  if alContains ps.channelPostIDToInfo messageId then
    ((alGet ps.channelPostIDToInfo messageId).getD [], ps)
  else
    match parseChannelPostKeys fuel j j.keys [] ps with
    | (none, ps) => ([], ps)
    | (some info, ps) =>
      if !(alContains info "id") then
        ([], psLog ps "Channel Post Message is missing an ID")
      else
        let ps := { ps with
          channelPostIDToInfo := alSet ps.channelPostIDToInfo messageId info }
        let ps := saveInfoData ps "channel_post_info" info false
        let chatId := strToInt (alGetD info "chat_id")
        let ps := psEmit ps (.ChannelPostReceived chatId messageId)
        (info, ps)

/-- Key loop of `TelegramComms::Parse_Update` (src/TelegramComms.cpp:1544-1648). -/
def parseUpdateKeys (fuel : Nat) (j : Json) :
    List String → SMap → ParseState → Option SMap × ParseState
  | [], acc, ps => (some acc, ps)
  | k :: ks, acc, ps =>
    if k = "channel_post" then
      let r := parseChannelPost fuel ps (j.getKey k)
      if r.1.isEmpty then
        (none, psLog r.2 "Error parsing update (channel post)")
      else
        let acc := alSet acc "type" "channel post"
        let acc := alSet acc "message_id" (alGetD r.1 "id")
        parseUpdateKeys fuel j ks (alSet acc "chat_id" (alGetD r.1 "chat_id")) r.2
    else if k = "edited_channel_post" then
      let r := parseChannelPost fuel ps (j.getKey k)
      if r.1.isEmpty then
        (none, psLog r.2 "Error parsing update (channel post)")
      else
        let acc := alSet acc "type" "channel post"
        let acc := alSet acc "message_id" (alGetD r.1 "id")
        parseUpdateKeys fuel j ks (alSet acc "chat_id" (alGetD r.1 "chat_id")) r.2
    else if k = "edited_message" then
      let r := parseMessage fuel ps (j.getKey k)
      if r.1.isEmpty then
        (none, psLog r.2 "Error parsing update (edited message)")
      else
        let acc := alSet acc "type" "message"
        let acc := alSet acc "message_id" (alGetD r.1 "id")
        parseUpdateKeys fuel j ks (alSet acc "chat_id" (alGetD r.1 "chat_id")) r.2
    else if k = "message" then
      let r := parseMessage fuel ps (j.getKey k)
      if r.1.isEmpty then
        (none, psLog r.2 "Error parsing update (message)")
      else
        let acc := alSet acc "type" "message"
        let acc := alSet acc "message_id" (alGetD r.1 "id")
        parseUpdateKeys fuel j ks (alSet acc "chat_id" (alGetD r.1 "chat_id")) r.2
    else if k = "my_chat_member" then
      let r := parseMyChatMember ps (j.getKey k)
      if r.1.isEmpty then
        (none, psLog r.2 "Error parsing update (my_chat_member)")
      else
        let acc := alSet acc "type" "my_chat_member"
        let acc := alSet acc "my_chat_member_id" (alGetD r.1 "id")
        parseUpdateKeys fuel j ks (alSet acc "chat_id" (alGetD r.1 "chat_id")) r.2
    else if k = "update_id" then
      parseUpdateKeys fuel j ks (alSet acc "id" (intToStr (j.getKey k).toInteger)) ps
    else
      parseUpdateKeys fuel j ks acc (psLog ps ("Unknown key \"" ++ k ++ "\" in update"))

/-- Models `TelegramComms::Parse_Update` (src/TelegramComms.cpp:1511-1663):
dedupe on `update_id`, parse, require an id, store, persist.  The
`UpdateReceived` signal is emitted by `Parse_UpdateArray`, not here. -/
def parseUpdate (fuel : Nat) (ps : ParseState) (j : Json) : SMap × ParseState :=
  let updateId := (j.getKey "update_id").toInteger
  if alContains ps.updateIDToInfo updateId then
    ((alGet ps.updateIDToInfo updateId).getD [], ps)
  else
    match parseUpdateKeys fuel j j.keys [] ps with
    | (none, ps) => ([], ps)
    | (some info, ps) =>
      if !(alContains info "id") then
        ([], psLog ps "Update is missing an ID")
      else
        let ps := { ps with updateIDToInfo := alSet ps.updateIDToInfo updateId info }
        let ps := saveInfoData ps "update_info" info false
        (info, ps)

/-! ## The full communications state

`CommsState` embeds the normalizer state and adds the members of
`TelegramComms` that the normalizers below `Parse_Response` never touch:
the poller gate and offset, the sticker-set stores and the sticker-set
info download bookkeeping, the file download queue, preferences, the
on-disk file set (`BOT_FILES`, by file-id), and the issued network
requests.  The `inflightStickerSetInfo` counter is network-model
bookkeeping: the number of issued `getStickerSet` requests whose response
has not yet been delivered. -/
structure CommsState where
  ps : ParseState
  isRunning : Bool
  offsetSet : Bool
  offset : Int
  stickerSetNameToInfo : List (String × SMap)
  stickerSetNameToFileIDs : List (String × List String)
  stickerSetInfoDownloadQueue : List String
  stickerSetInfoBeingDownloaded : String
  downloadQueue : List String
  filePathToFileID : List (String × String)
  userIDToPreferences : List (Int × SMap)
  prefRows : List (Int × String × String)
  botFiles : List String
  requests : List Request
  inflightStickerSetInfo : Nat
  deriving Repr

/-- Fresh `TelegramComms` instance (src/TelegramComms.cpp:51-99): not
running, no offset seen, everything empty.  `m_Offset` itself is left
uninitialized by the constructor and guarded by `m_OffsetSet`; it is
modelled as 0. -/
def initComms : CommsState :=
  ⟨initParseState, false, false, 0, [], [], [], "", [], [], [], [], [], [], 0⟩

/-- Emit a Qt signal from `TelegramComms`. -/
def csEmit (st : CommsState) (e : Event) : CommsState :=
  { st with ps := psEmit st.ps e }

/-- Append a log line at the comms level. -/
def csLog (st : CommsState) (msg : String) : CommsState :=
  { st with ps := psLog st.ps msg }

/-- Issue a network request (`m_NetworkAccessManager->get`). -/
def csRequest (st : CommsState) (r : Request) : CommsState :=
  { st with requests := st.requests ++ [r] }

/-- The fixed default preferences, which also define the closed set of
valid preference tags (src/TelegramComms.cpp:56-58). -/
def defaultPreferences : SMap :=
  [("greedy", "no"), ("provide_sticker_set", "always"), ("silent", "no")]

/-- Models `TelegramComms::SetPreferenceValue`
(src/TelegramComms.cpp:1100-1160): an unrecognized tag is rejected before
any in-memory or database write; a recognized tag is written in memory and
written through by deleting then reinserting the single `(user, key)` row. -/
def setPreferenceValue (st : CommsState) (userId : Int) (key newValue : String) :
    CommsState :=
  if !(alContains defaultPreferences key) then
    csLog st ("Unknown preferences tag \"" ++ key ++ "\".")
  else
    let sub := (alGet st.userIDToPreferences userId).getD []
    let st := { st with
      userIDToPreferences := alSet st.userIDToPreferences userId (alSet sub key newValue) }
    { st with
      prefRows := st.prefRows.filter (fun r => !(r.1 = userId && r.2.1 = key))
        ++ [(userId, key, newValue)] }

/-- Models `TelegramComms::Parse_UpdateArray` (src/TelegramComms.cpp:1473-1505):
normalize each update in array order; on each success set the offset to
that update's id plus one and emit `UpdateReceived`; abort on the first
failure. -/
def parseUpdateArray (fuel : Nat) : CommsState → List Json → Bool × CommsState
  | st, [] => (true, st)
  | st, u :: rest =>
    let r := parseUpdate fuel st.ps u
    let st := { st with ps := r.2 }
    if r.1.isEmpty then
      (false, csLog st "Update could not be parsed.")
    else
      let updateId := strToInt (alGetD r.1 "id")
      let st := { st with offset := updateId + 1, offsetSet := true }
      let chatId := strToInt (alGetD r.1 "chat_id")
      let st := csEmit st (.UpdateReceived chatId updateId)
      parseUpdateArray fuel st rest

/-- Append a member file id to a sticker set's ordered file-id list,
creating the list on first use (`m_StickerSetNameToFileIDs[name] << id`). -/
def ssAppendFileID (m : List (String × List String)) (name id : String) :
    List (String × List String) :=
  alSet m name (((alGet m name).getD []) ++ [id])

/-- Sticker loop of the `stickers` branch of `Parse_StickerSet`
(src/TelegramComms.cpp:3411-3420). -/
def parseStickerSetStickers (fuel : Nat) (name : String) :
    List Json → CommsState → CommsState
  | [], st => st
  | sticker :: rest, st =>
    let r := parseFile fuel st.ps sticker
    let st := { st with ps := r.2 }
    let st := { st with
      stickerSetNameToFileIDs := ssAppendFileID st.stickerSetNameToFileIDs name
        (alGetD r.1 "id") }
    parseStickerSetStickers fuel name rest st

/-- Key loop of `TelegramComms::Parse_StickerSet`
(src/TelegramComms.cpp:3386-3446). -/
def parseStickerSetKeys (fuel : Nat) (name : String) (j : Json) :
    List String → SMap → CommsState → SMap × CommsState
  | [], acc, st => (acc, st)
  | k :: ks, acc, st =>
    if k = "contains_masks" then
      parseStickerSetKeys fuel name j ks (alSet acc "contains_masks" (boolStr (j.getKey k))) st
    else if k = "name" then
      let acc := alSet acc "name" (j.getKey k).toStr
      parseStickerSetKeys fuel name j ks (alSet acc "id" (j.getKey k).toStr) st
    else if k = "sticker_type" then
      parseStickerSetKeys fuel name j ks (alSet acc "sticker_type" (j.getKey k).toStr) st
    else if k = "stickers" then
      parseStickerSetKeys fuel name j ks acc
        (parseStickerSetStickers fuel name (j.getKey k).toArr st)
    else if k = "thumb" then
      parseStickerSetKeys fuel name j ks acc st
    else if k = "thumbnail" then
      parseStickerSetKeys fuel name j ks acc st
    else if k = "title" then
      parseStickerSetKeys fuel name j ks (alSet acc "title" (j.getKey k).toStr) st
    else
      parseStickerSetKeys fuel name j ks acc
        (csLog st ("Unknown key \"" ++ k ++ "\" in sticker set"))

/-- Models `TelegramComms::SaveInfoData_StickerSet`
(src/TelegramComms.cpp:731-815): full replace of the set's rows; info rows
carry sequence 0, the ordered member file ids are stored under the key
`sticker_file_id` with sequence 1, 2, …. -/
def saveInfoDataStickerSet (st : CommsState) (table name : String) : CommsState :=
  let infoRows := ((alGet st.stickerSetNameToInfo name).getD []).map
    (fun kv => DbRow.mk table name kv.1 kv.2 0)
  let fileIds := (alGet st.stickerSetNameToFileIDs name).getD []
  let fileRows := (List.range fileIds.length).map
    (fun i => DbRow.mk table name "sticker_file_id" (fileIds.getD i "") (Int.ofNat i + 1))
  { st with ps := { st.ps with
      db := st.ps.db.filter (fun r => !(r.table = table && r.id = name))
        ++ infoRows ++ fileRows } }

/-- Models `TelegramComms::Parse_StickerSet` (src/TelegramComms.cpp:3358-3460).
A name already present in the store returns the stored record at once:
no parsing, no `StickerSetInfoReceived` signal, and — unlike the fresh
path — no clearing of `m_StickerSetInfoBeingDownloaded`. -/
def parseStickerSet (fuel : Nat) (st : CommsState) (j : Json) : SMap × CommsState :=
  let name := (j.getKey "name").toStr
  if alContains st.stickerSetNameToInfo name then
    ((alGet st.stickerSetNameToInfo name).getD [], st)
  else
    let r := parseStickerSetKeys fuel name j j.keys [] st
    let st := r.2
    let st := { st with stickerSetNameToInfo := alSet st.stickerSetNameToInfo name r.1 }
    let st := saveInfoDataStickerSet st "sticker_set_info" name
    let st := csEmit st (.StickerSetInfoReceived name)
    let st := { st with stickerSetInfoBeingDownloaded := "" }
    (r.1, st)

/-- Models `TelegramComms::DownloadStickerSetInfo`
(src/TelegramComms.cpp:3580-3589): enqueue only. -/
def downloadStickerSetInfo (st : CommsState) (name : String) : CommsState :=
  { st with stickerSetInfoDownloadQueue := st.stickerSetInfoDownloadQueue ++ [name] }

/-- Models `TelegramComms::Periodic_DownloadStickerSetInfo`
(src/TelegramComms.cpp:3595-3622): when no info download is in flight and
the queue is nonempty, pop one name, issue its `getStickerSet` request and
mark it in flight; the returned flag records that the next tick is always
scheduled. -/
def periodicDownloadStickerSetInfo (st : CommsState) : CommsState × Bool :=
  let st :=
    if st.stickerSetInfoBeingDownloaded = "" && !st.stickerSetInfoDownloadQueue.isEmpty then
      match st.stickerSetInfoDownloadQueue with
      | [] => st
      | name :: rest =>
        let st := { st with stickerSetInfoDownloadQueue := rest }
        let st := csRequest st (.getStickerSet name)
        let st := { st with inflightStickerSetInfo := st.inflightStickerSetInfo + 1 }
        { st with stickerSetInfoBeingDownloaded := name }
    else st
  (st, true)

/-- Models `TelegramComms::Error_StickerSetInvalid`
(src/TelegramComms.cpp:3627-3638): emit the typed failure for the name in
flight, then clear the in-flight marker. -/
def errorStickerSetInvalid (st : CommsState) : CommsState :=
  let st := csEmit st (.StickerSetInfoFailed st.stickerSetInfoBeingDownloaded)
  { st with stickerSetInfoBeingDownloaded := "" }

/-- Models `TelegramComms::HasFileBeenDownloaded`
(src/TelegramComms.cpp:3976-3986): presence of the file-id in the
`BOT_FILES` directory. -/
def hasFileBeenDownloaded (st : CommsState) (fileId : String) : Bool :=
  fileId ∈ st.botFiles

/-- Models `TelegramComms::DownloadFile` (src/TelegramComms.cpp:3843-3861):
a file already on disk short-circuits to an immediate `FileDownloaded`
signal; otherwise the id is appended to the pending download queue. -/
def downloadFile (st : CommsState) (fileId : String) : CommsState :=
  if hasFileBeenDownloaded st fileId then
    csEmit st (.FileDownloaded fileId)
  else
    { st with downloadQueue := st.downloadQueue ++ [fileId] }

/-- Models `TelegramComms::GetDownloadWorkListSize`
(src/TelegramComms.cpp:3867-3875). -/
def getDownloadWorkListSize (st : CommsState) : Nat :=
  st.downloadQueue.length

/-- Models `TelegramComms::Periodic_DownloadFiles`
(src/TelegramComms.cpp:3882-3904): pop at most one queued id per tick and
issue its `getFile` request; the next tick is always scheduled. -/
def periodicDownloadFiles (st : CommsState) : CommsState × Bool :=
  let st :=
    match st.downloadQueue with
    | [] => st
    | fileId :: rest =>
      let st := { st with downloadQueue := rest }
      csRequest st (.getFile fileId)
  (st, true)

/-- Models `TelegramComms::Download_FilePath` (src/TelegramComms.cpp:3910-3932):
remember the path-to-id binding and issue the binary fetch. -/
def downloadFilePath (st : CommsState) (fileId filePath : String) : Bool × CommsState :=
  let st := { st with filePathToFileID := alSet st.filePathToFileID filePath fileId }
  (true, csRequest st (.fileDownload filePath))

/-- Models `TelegramComms::SaveFile` (src/TelegramComms.cpp:3938-3970): an
empty payload is rejected; otherwise the bytes are stored under the
file-id bound to the path, the binding is dropped, and `FileDownloaded` is
emitted. -/
def saveFile (st : CommsState) (filePath : String) (hasData : Bool) :
    Bool × CommsState :=
  if !hasData then
    (false, csLog st "No data received.")
  else
    let fileId := alGetD st.filePathToFileID filePath
    let st := { st with filePathToFileID := alRemove st.filePathToFileID filePath }
    let st := { st with botFiles := setInsert st.botFiles fileId }
    (true, csEmit st (.FileDownloaded fileId))

/-- Models `TelegramComms::CheckForUpdates` (src/TelegramComms.cpp:1190-1214):
no request while the bot is not running; otherwise one `getUpdates`
request carrying the offset as a query parameter exactly when the offset
has been set. -/
def checkForUpdates (st : CommsState) : CommsState :=
  if !st.isRunning then
    csLog st "Bot is not running."
  else
    csRequest st (.getUpdates (if st.offsetSet then some st.offset else none))

/-- Models `TelegramComms::Periodic_WatchForUpdates`
(src/TelegramComms.cpp:1170-1184): poll only when running; the returned
flag records that the next tick is scheduled unconditionally. -/
def periodicWatchForUpdates (st : CommsState) : CommsState × Bool :=
  let st := if st.isRunning then checkForUpdates st else st
  (st, true)

/-- Models `TelegramComms::DoesStickerSetInfoExist`
(src/TelegramComms.cpp:3466-3476). -/
def doesStickerSetInfoExist (st : CommsState) (name : String) : Bool :=
  alContains st.stickerSetNameToInfo name

/-- Models `TelegramComms::GetStickerSetFileIDs`
(src/TelegramComms.cpp:3552-3574). -/
def getStickerSetFileIDs (st : CommsState) (name : String) : List String × CommsState :=
  if !(alContains st.stickerSetNameToFileIDs name) then
    ([], csLog st ("Unknown sticker set \"" ++ name ++ "\"."))
  else
    ((alGet st.stickerSetNameToFileIDs name).getD [], st)

/-- Models `TelegramComms::GetFileInfo` (src/TelegramComms.cpp:3108-3126). -/
def getFileInfo (st : CommsState) (fileId : String) : SMap × CommsState :=
  if !(alContains st.ps.fileIDToInfo fileId) then
    ([], csLog st ("File ID " ++ fileId ++ " does not exist"))
  else
    ((alGet st.ps.fileIDToInfo fileId).getD [], st)

/-- Key fold of `TelegramComms::Parse_Response`
(src/TelegramComms.cpp:1309-1342), split into its two effects: the built
`response_info` map and the unknown-key log lines, both in key order. -/
def parseResponseKeys (j : Json) : List String → SMap → SMap × List String
  | [], acc => (acc, [])
  | k :: ks, acc =>
    if k = "description" then
      parseResponseKeys j ks (alSet acc "description" (j.getKey k).toStr)
    else if k = "error_code" then
      parseResponseKeys j ks (alSet acc "error_code" (intToStr (j.getKey k).toInteger))
    else if k = "ok" then
      parseResponseKeys j ks (alSet acc "ok" (if (j.getKey k).toBoolV then "true" else "false"))
    else if k = "result" then
      parseResponseKeys j ks acc
    else
      let r := parseResponseKeys j ks acc
      (r.1, ("Unknown key \"" ++ k ++ "\" in response [ignored]") :: r.2)

/-- Models `TelegramComms::Parse_Response` (src/TelegramComms.cpp:1296-1467):
check the `ok` status (translating the recognized
`400 / Bad Request: STICKERSET_INVALID` error into
`Error_StickerSetInvalid` and logging any other failure), then dispatch
the `result` by shape: update array, single message, file info (which also
triggers the binary fetch), sticker-set info, or the empty
acknowledgement. -/
def parseResponse (fuel : Nat) (st : CommsState) (j : Json) : Bool × CommsState :=
  let rk := parseResponseKeys j j.keys []
  let info := rk.1
  let st := { st with ps := { st.ps with logs := st.ps.logs ++ rk.2 } }
  if !(alContains info "ok") then
    (false, csLog st "Response does not have an \"ok\" status.")
  else if alGetD info "ok" ≠ "true" then
    let description := alGetD info "description"
    let errorCode := alGetD info "error_code"
    if errorCode = "400" && description = "Bad Request: STICKERSET_INVALID" then
      (false, errorStickerSetInvalid st)
    else
      (false, csLog st ("Receiving an update was unsuccessful: " ++ description
        ++ " (error " ++ errorCode ++ ")"))
  else if !(j.containsKey "result") then
    (false, csLog st "Response does not have results (\"result\")")
  else if (j.getKey "result").isArrV then
    parseUpdateArray fuel st (j.getKey "result").toArr
  else
    let res := j.getKey "result"
    if res.containsKey "chat" && res.containsKey "date" && res.containsKey "from"
        && res.containsKey "message_id" then
      let r := parseMessage fuel st.ps res
      (!r.1.isEmpty, { st with ps := r.2 })
    else if res.containsKey "file_path" && res.containsKey "file_unique_id"
        && res.containsKey "file_size" then
      let r := parseFile fuel st.ps res
      let st := { st with ps := r.2 }
      if alContains r.1 "file_path" then
        let fileId := alGetD r.1 "id"
        let filePath := alGetD r.1 "file_path"
        let d := downloadFilePath st fileId filePath
        let fileInfo := alRemove r.1 "file_path"
        let st := { d.2 with ps := saveInfoData d.2.ps "file_info" fileInfo true }
        (d.1, st)
      else
        (true, st)
    else if res.containsKey "name" && res.containsKey "title"
        && res.containsKey "sticker_type" && res.containsKey "stickers" then
      let r := parseStickerSet fuel st res
      (!r.1.isEmpty, r.2)
    else if res.isObjEmpty then
      (true, st)
    else
      (false, csLog st "Unknown JSON object in response")

/-! ## The sticker-set assembly pipeline (`TelegramHelper`)

`TelegramHelper` drives the five-stage per-collection pipeline.  Qt signal
connections are direct, so an `emit` inside `TelegramComms` runs the
connected helper slots synchronously before the emitting call returns;
the `World` functions below reproduce that by dispatching the events a
comms call appended.  Helper-emitted signals (`H…`) have no modelled
listeners (their consumer is the excluded presentation layer).  The
helper slot for `MessageReceived` only does command-text bookkeeping and
never touches the pipeline state, so it is not modelled. -/

/-- State of `TelegramHelper` (src/TelegramHelper.h). -/
structure HelperState where
  stickerSetIsDownloading : List String
  stickerSetToRemainingFileIDs : List (String × List String)
  fileIDToStickerSetNames : List (String × List String)
  deriving Repr

/-- The combined system: comms, helper, the sticker-set area of the disk
(existing archives, the log of archive builds, written member files), and
the helper's emitted signals. -/
structure World where
  comms : CommsState
  helper : HelperState
  zipFiles : List String
  archiveBuilds : List String
  stickerWrites : List String
  hEvents : List Event
  deriving Repr

/-- Fresh system: fresh comms, empty helper state, empty disk. -/
def initWorld : World :=
  ⟨initComms, ⟨[], [], []⟩, [], [], [], []⟩

/-- Emit a `TelegramHelper` signal. -/
def hEmit (w : World) (e : Event) : World :=
  { w with hEvents := w.hEvents ++ [e] }

/-- The comms events appended between two comms states (the new signals a
call emitted, to be dispatched to the connected slots). -/
def evDelta (old new : CommsState) : List Event :=
  new.ps.events.drop old.ps.events.length

/-- Directory for assembled sticker sets (`USER_STICKERSETS`, Config.h). -/
def userStickerSetsDir : String :=
  "/Users/shimaron/TelegramBot/Download/Sticker Sets/"

/-- Models `TelegramHelper::GetStickerSetZIPFilename`
(src/TelegramHelper.cpp:558-568). -/
def stickerSetZIPFilename (name : String) : String :=
  userStickerSetsDir ++ name ++ ".zip"

/-- Models `TelegramHelper::DoesStickerSetZIPFileExist`
(src/TelegramHelper.cpp:541-552). -/
def doesStickerSetZIPFileExist (w : World) (name : String) : Bool :=
  stickerSetZIPFilename name ∈ w.zipFiles

/-- Models `QString("00" + number).right(3)` (src/TelegramHelper.cpp:486-487). -/
def qRight (s : String) (n : Nat) : String :=
  String.mk (s.data.drop (s.data.length - n))

/-- Models `TelegramComms::GetFile` (src/TelegramComms.cpp:3992-4014); the
payload itself is irrelevant here, only its availability and the error
log for a file that was never downloaded. -/
def getFileBytes (st : CommsState) (fileId : String) : Bool × CommsState :=
  if !(hasFileBeenDownloaded st fileId) then
    (false, csLog st ("File ID \"" ++ fileId ++ "\" has not been downloaded."))
  else
    (true, st)

/-- Member-file write loop of `TelegramHelper::SaveStickerSetZIPFile`
(src/TelegramHelper.cpp:476-502): one sequentially numbered file per
member id, extension `webp` exactly when `is_animated` is the string
`"false"` (a missing flag selects `tgs`), written even when the bytes were
never downloaded (the source writes whatever `GetFile` returned). -/
def saveStickerSetMembers (name : String) :
    List String → Nat → World → World
  | [], _, w => w
  | fileId :: rest, count, w =>
    let fi := getFileInfo w.comms fileId
    let w := { w with comms := fi.2 }
    let ext := if alGetD fi.1 "is_animated" = "false" then "webp" else "tgs"
    let number := qRight ("00" ++ natToStr count) 3
    let filename := userStickerSetsDir ++ name ++ "/Sticker_" ++ number ++ "." ++ ext
    let g := getFileBytes w.comms fileId
    let w := { w with comms := g.2 }
    let w := { w with stickerWrites := w.stickerWrites ++ [filename] }
    saveStickerSetMembers name rest (count + 1) w

/-- Models `TelegramHelper::SaveStickerSetZIPFile`
(src/TelegramHelper.cpp:458-536): write the member files, archive the
directory, then emit `StickerSetReceived`.  The external `zip` process is
modelled as exiting normally; `archiveBuilds` logs each build. -/
def saveStickerSetZIPFile (w : World) (name : String) : World :=
  let g := getStickerSetFileIDs w.comms name
  let w := { w with comms := g.2 }
  let w := saveStickerSetMembers name g.1 1 w
  let w := { w with
    zipFiles := setInsert w.zipFiles (stickerSetZIPFilename name),
    archiveBuilds := w.archiveBuilds ++ [name] }
  hEmit w (.HStickerSetReceived name)

mutual

/-- Dispatch freshly emitted comms signals to the connected helper slots,
in emission order (direct Qt connections run synchronously). -/
def dispatchEvents : Nat → World → List Event → World
  | 0, w, _ => w
  | _+1, w, [] => w
  | fuel+1, w, e :: rest =>
    let w := match e with
      | .FileDownloaded fid => serverFileDownloaded fuel w fid
      | .StickerSetInfoReceived name => serverStickerSetInfoReceived fuel w name
      | _ => w
    dispatchEvents fuel w rest

/-- Models `TelegramHelper::Server_FileDownloaded`
(src/TelegramHelper.cpp:283-298): re-emit, then run the sticker
bookkeeping when the file belongs to a tracked set. -/
def serverFileDownloaded : Nat → World → String → World
  | 0, w, _ => w
  | fuel+1, w, fileId =>
    let w := hEmit w (.HFileDownloaded fileId)
    if alContains w.helper.fileIDToStickerSetNames fileId then
      stickerFileReceived fuel w fileId
    else w

/-- Models `TelegramHelper::StickerFileReceived`
(src/TelegramHelper.cpp:427-452): for each set waiting on this file,
remove it from the set's remaining-files set and, when that set becomes
empty, re-enter the pipeline; finally drop the file's tracking entry. -/
def stickerFileReceived : Nat → World → String → World
  | 0, w, _ => w
  | fuel+1, w, fileId =>
    let names := (alGet w.helper.fileIDToStickerSetNames fileId).getD []
    let w := stickerFileSets fuel names w fileId
    { w with helper := { w.helper with
        fileIDToStickerSetNames := alRemove w.helper.fileIDToStickerSetNames fileId } }

/-- Per-set body of the loop in `TelegramHelper::StickerFileReceived`
(src/TelegramHelper.cpp:433-447). -/
def stickerFileSets : Nat → List String → World → String → World
  | 0, _, w, _ => w
  | _+1, [], w, _ => w
  | fuel+1, name :: rest, w, fileId =>
    let remaining :=
      setRemove ((alGet w.helper.stickerSetToRemainingFileIDs name).getD []) fileId
    let w := { w with helper := { w.helper with
        stickerSetToRemainingFileIDs :=
          alSet w.helper.stickerSetToRemainingFileIDs name remaining } }
    let w := if remaining.isEmpty then downloadStickerSet fuel w name else w
    stickerFileSets fuel rest w fileId

/-- Models `TelegramHelper::Server_StickerSetInfoReceived`
(src/TelegramHelper.cpp:405-421): re-emit, then re-enter the pipeline when
this set is being downloaded. -/
def serverStickerSetInfoReceived : Nat → World → String → World
  | 0, w, _ => w
  | fuel+1, w, name =>
    let w := hEmit w (.HStickerSetInfoReceived name)
    if name ∈ w.helper.stickerSetIsDownloading then
      downloadStickerSet fuel w name
    else w

/-- Models `TelegramHelper::DownloadStickerSet`
(src/TelegramHelper.cpp:325-399), steps (1)-(3): mark the set as being
downloaded; fetch the info when absent and return; on the first entry
with info present create the remaining-files set and enqueue every member
(each enqueue may synchronously re-enter this pipeline when the file is
already on disk); fall through to packaging when nothing remains — and
also, on any later entry, fall through regardless of what remains. -/
def downloadStickerSet : Nat → World → String → World
  | 0, w, _ => w
  | fuel+1, w, name =>
    let h := w.helper
    let h := if name ∈ h.stickerSetIsDownloading then h
      else { h with stickerSetIsDownloading := h.stickerSetIsDownloading ++ [name] }
    let w := { w with helper := h }
    if !(doesStickerSetInfoExist w.comms name) then
      { w with comms := downloadStickerSetInfo w.comms name }
    else
      let g := getStickerSetFileIDs w.comms name
      let w := { w with comms := g.2 }
      if !(alContains w.helper.stickerSetToRemainingFileIDs name) then
        let w := { w with helper := { w.helper with
            stickerSetToRemainingFileIDs :=
              alSet w.helper.stickerSetToRemainingFileIDs name [] } }
        let w := enqueueStickerFiles fuel name g.1 w
        if !((alGet w.helper.stickerSetToRemainingFileIDs name).getD []).isEmpty then
          w
        else
          downloadStickerSetFinish fuel w name
      else
        downloadStickerSetFinish fuel w name

/-- Steps (4)-(5) of `TelegramHelper::DownloadStickerSet`
(src/TelegramHelper.cpp:387-398): build the archive when it does not
exist, clear the in-progress flag, emit `StickerSetReceived`. -/
def downloadStickerSetFinish : Nat → World → String → World
  | 0, w, _ => w
  | _+1, w, name =>
    let w := if !(doesStickerSetZIPFileExist w name) then saveStickerSetZIPFile w name
      else w
    let w := { w with helper := { w.helper with
        stickerSetIsDownloading := setRemove w.helper.stickerSetIsDownloading name } }
    hEmit w (.HStickerSetReceived name)

/-- Per-member body of the enqueue loop in step (3) of
`TelegramHelper::DownloadStickerSet` (src/TelegramHelper.cpp:368-379):
track the file, then hand it to the download queue manager — whose
`FileDownloaded` short-circuit signal is dispatched synchronously. -/
def enqueueStickerFiles : Nat → String → List String → World → World
  | 0, _, _, w => w
  | _+1, _, [], w => w
  | fuel+1, name, fileId :: rest, w =>
    let h := w.helper
    let rem := setInsert ((alGet h.stickerSetToRemainingFileIDs name).getD []) fileId
    let h := { h with
      stickerSetToRemainingFileIDs := alSet h.stickerSetToRemainingFileIDs name rem }
    let sets := setInsert ((alGet h.fileIDToStickerSetNames fileId).getD []) name
    let h := { h with
      fileIDToStickerSetNames := alSet h.fileIDToStickerSetNames fileId sets }
    let w := { w with helper := h }
    let c0 := w.comms
    let c1 := downloadFile c0 fileId
    let w := { w with comms := c1 }
    let w := dispatchEvents fuel w (evDelta c0 c1)
    enqueueStickerFiles fuel name rest w

end

/-! ## System runs -/

/-- External stimuli of the combined system: a sticker-set download
request (from the presentation layer), the two comms timer ticks involved
in the pipeline, a JSON network response, and an arriving binary file
payload. -/
inductive WEvent where
  | reqStickerSet (name : String)
  | tickStickerSetInfo
  | tickDownloadFiles
  | response (j : Json)
  | binary (path : String) (hasData : Bool)
  deriving Repr

/-- One system step; comms signals emitted by the step are dispatched to
the helper slots synchronously. -/
def wstep (fuel : Nat) (w : World) : WEvent → World
  | .reqStickerSet name => downloadStickerSet fuel w name
  | .tickStickerSetInfo => { w with comms := (periodicDownloadStickerSetInfo w.comms).1 }
  | .tickDownloadFiles => { w with comms := (periodicDownloadFiles w.comms).1 }
  | .response j =>
    let c0 := w.comms
    let r := parseResponse fuel c0 j
    let w := { w with comms := r.2 }
    dispatchEvents fuel w (evDelta c0 r.2)
  | .binary path hasData =>
    let c0 := w.comms
    let r := saveFile c0 path hasData
    let w := { w with comms := r.2 }
    dispatchEvents fuel w (evDelta c0 r.2)

/-- Run a list of system events. -/
def runW (fuel : Nat) : World → List WEvent → World
  | w, [] => w
  | w, e :: rest => runW fuel (wstep fuel w e) rest

/-! ## Comms-level event traces

For properties about the sticker-set info download subsystem the comms
layer is driven by its own event alphabet: its three timer ticks, the two
public calls that feed its queues, JSON responses, and binary payloads.
The network is modelled by the `inflightStickerSetInfo` counter: a
response that `Parse_Response` would route into the sticker-set machinery
(`Parse_StickerSet` or `Error_StickerSetInvalid`) can only be delivered
while a `getStickerSet` request is in flight, because only that request
produces such responses. -/

/-- Comms-level events. -/
inductive CEvent where
  | tickStickerSetInfo
  | tickDownloadFiles
  | tickWatchUpdates
  | reqStickerSetInfo (name : String)
  | reqDownloadFile (fileId : String)
  | response (j : Json)
  | binary (path : String) (hasData : Bool)
  deriving Repr

/-- Whether `Parse_Response` routes this response into the sticker-set
machinery: either the recognized `400 / Bad Request: STICKERSET_INVALID`
failure, or an `ok` response whose `result` object reaches the
sticker-set shape check (mirroring the dispatch order of
src/TelegramComms.cpp:1345-1449). -/
def respStickerRelated (j : Json) : Bool :=
  let info := (parseResponseKeys j j.keys []).1
  if !(alContains info "ok") then false
  else if alGetD info "ok" ≠ "true" then
    alGetD info "error_code" = "400"
      && alGetD info "description" = "Bad Request: STICKERSET_INVALID"
  else if !(j.containsKey "result") then false
  else if (j.getKey "result").isArrV then false
  else
    let res := j.getKey "result"
    if res.containsKey "chat" && res.containsKey "date" && res.containsKey "from"
        && res.containsKey "message_id" then false
    else if res.containsKey "file_path" && res.containsKey "file_unique_id"
        && res.containsKey "file_size" then false
    else
      res.containsKey "name" && res.containsKey "title"
        && res.containsKey "sticker_type" && res.containsKey "stickers"

/-- One comms-level step.  Delivering a sticker-related response consumes
the in-flight `getStickerSet` request it answers. -/
def cstep (fuel : Nat) (st : CommsState) : CEvent → CommsState
  | .tickStickerSetInfo => (periodicDownloadStickerSetInfo st).1
  | .tickDownloadFiles => (periodicDownloadFiles st).1
  | .tickWatchUpdates => (periodicWatchForUpdates st).1
  | .reqStickerSetInfo name => downloadStickerSetInfo st name
  | .reqDownloadFile fileId => downloadFile st fileId
  | .response j =>
    let st := if respStickerRelated j then
        { st with inflightStickerSetInfo := st.inflightStickerSetInfo - 1 }
      else st
    (parseResponse fuel st j).2
  | .binary path hasData => (saveFile st path hasData).2

/-- Validity of delivering an event: sticker-related responses require an
in-flight `getStickerSet` request; everything else is unconstrained. -/
def cValid (st : CommsState) : CEvent → Prop
  | .response j => respStickerRelated j = true → 0 < st.inflightStickerSetInfo
  | _ => True

/-- Run a comms-level trace. -/
def crun (fuel : Nat) : CommsState → List CEvent → CommsState
  | st, [] => st
  | st, e :: rest => crun fuel (cstep fuel st e) rest

/-- A trace whose every event is valid at the state it is delivered in. -/
def cValidTrace (fuel : Nat) : CommsState → List CEvent → Prop
  | _, [] => True
  | st, e :: rest => cValid st e ∧ cValidTrace fuel (cstep fuel st e) rest

/-- Number of `getStickerSet` requests among the issued requests. -/
def countStickerSetRequests (rs : List Request) : Nat :=
  (rs.filter (fun r => match r with | .getStickerSet _ => true | _ => false)).length

/-! ## Statement helpers and concrete scenario inputs -/

/-- Union of two field sets with first-seen values winning: the left
record followed by the right record's fields whose keys are unseen. -/
def alUnion (a b : SMap) : SMap :=
  a ++ b.filter (fun kv => !(alContains a kv.1))

/-- The rows a table holds for one record id. -/
def dbRowsFor (rows : List DbRow) (table id : String) : List DbRow :=
  rows.filter (fun r => r.table = table && r.id = id)

/-- Occurrences of one event in an emission list. -/
def countEvent (evs : List Event) (e : Event) : Nat :=
  (evs.filter (fun x => x = e)).length

/-- Occurrences of `MessageReceived` events carrying a given message id. -/
def countMsgReceived (evs : List Event) (mid : Int) : Nat :=
  (evs.filter (fun x => match x with
    | .MessageReceived _ m => m = mid
    | _ => false)).length

/-- Update payload with id 5 (spec batch example). -/
def jUpd5 : Json := .jobj [("update_id", .jnum 5)]

/-- Update payload with id 6 (spec batch example). -/
def jUpd6 : Json := .jobj [("update_id", .jnum 6)]

/-- Update payload with id 9 (spec batch example). -/
def jUpd9 : Json := .jobj [("update_id", .jnum 9)]

/-- Sticker-set info payload for the collection `foo` with one member
file `f1`, as `getStickerSet` returns it. -/
def jSetFoo : Json := .jobj [
  ("name", .jstr "foo"),
  ("title", .jstr "Foo Set"),
  ("sticker_type", .jstr "regular"),
  ("stickers", .jarr [ .jobj [
    ("file_id", .jstr "f1"),
    ("file_unique_id", .jstr "u1"),
    ("file_size", .jnum 10),
    ("is_animated", .jbool false),
    ("is_video", .jbool false),
    ("type", .jstr "regular"),
    ("width", .jnum 512),
    ("height", .jnum 512)]])]

/-- Protocol response carrying `jSetFoo`. -/
def respSetFoo : Json := .jobj [("ok", .jbool true), ("result", jSetFoo)]

/-- Protocol response carrying the downloadable file info for `f1`
(the `getFile` result shape). -/
def respFileF1 : Json := .jobj [("ok", .jbool true), ("result", .jobj [
  ("file_id", .jstr "f1"),
  ("file_path", .jstr "p/f1"),
  ("file_size", .jnum 10),
  ("file_unique_id", .jstr "u1")])]

/-- The not-ok response carrying the recognized unknown-collection error. -/
def respInvalid : Json := .jobj [
  ("ok", .jbool false),
  ("error_code", .jnum 400),
  ("description", .jstr "Bad Request: STICKERSET_INVALID")]

/-- The C2 scenario: two back-to-back download requests for `foo` while it
is mid-pipeline, then the natural completion of the run (info tick and
response, the duplicate tick and response, one file tick, the file info
response and the binary payload). -/
def c2trace : List WEvent :=
  [ .reqStickerSet "foo", .reqStickerSet "foo",
    .tickStickerSetInfo, .response respSetFoo,
    .tickStickerSetInfo, .response respSetFoo,
    .tickDownloadFiles, .response respFileF1,
    .binary "p/f1" true ]

/-- Final state of the C2 scenario run. -/
def c2World : World := runW 100 initWorld c2trace

/-- A user payload (for idempotence runs). -/
def jUserAlice : Json := .jobj [
  ("first_name", .jstr "Alice"),
  ("id", .jnum 7),
  ("is_bot", .jbool false),
  ("username", .jstr "alice")]

/-- A chat payload (for idempotence runs). -/
def jChatMain : Json := .jobj [
  ("first_name", .jstr "Alice"),
  ("id", .jnum 7),
  ("type", .jstr "private"),
  ("username", .jstr "alice")]

/-- A message payload (for idempotence runs). -/
def jMsgHello : Json := .jobj [
  ("chat", jChatMain),
  ("date", .jnum 1737146691),
  ("from", jUserAlice),
  ("message_id", .jnum 1),
  ("text", .jstr "hello")]

/-- First file payload for the merge law: the sticker-list shape. -/
def jFileA : Json := .jobj [
  ("file_id", .jstr "f1"),
  ("file_size", .jnum 10),
  ("file_unique_id", .jstr "u1"),
  ("is_animated", .jbool false)]

/-- Second file payload with the same file-id and disjoint extra fields:
the `getFile` result shape. -/
def jFileB : Json := .jobj [
  ("file_id", .jstr "f1"),
  ("file_path", .jstr "p/f1"),
  ("file_size", .jnum 10),
  ("file_unique_id", .jstr "u1")]

/-- Third file payload with the same file-id but a conflicting size. -/
def jFileC : Json := .jobj [
  ("file_id", .jstr "f1"),
  ("file_size", .jnum 11),
  ("file_unique_id", .jstr "u1")]

/-- Membership-change payloads sharing the same `date` (and hence, having
no protocol-supplied id, the same synthetic record id). -/
def jMember1 : Json := .jobj [
  ("chat", jChatMain),
  ("date", .jnum 1737146726),
  ("from", jUserAlice),
  ("old_chat_member", .jobj [("status", .jstr "member"), ("user", jUserAlice)]),
  ("new_chat_member", .jobj [("status", .jstr "administrator"), ("user", jUserAlice)])]

/-- Second membership change with the same date but a different new
status. -/
def jMember2 : Json := .jobj [
  ("chat", jChatMain),
  ("date", .jnum 1737146726),
  ("from", jUserAlice),
  ("old_chat_member", .jobj [("status", .jstr "administrator"), ("user", jUserAlice)]),
  ("new_chat_member", .jobj [("status", .jstr "member"), ("user", jUserAlice)])]

/-- A comms state with the bytes of `f1` already on local storage. -/
def stWithF1 : CommsState := { initComms with botFiles := ["f1"] }

/-- A comms state whose sticker-set info marker is stuck at `foo` with no
request in flight — the state C9 describes after an early-returned
sticker-set info response. -/
def stStuck : CommsState :=
  { initComms with
    stickerSetInfoBeingDownloaded := "foo",
    stickerSetInfoDownloadQueue := ["bar"] }

/-- A comms trace probing the stuck state: ticks, a new queued request,
more ticks, an unrelated response and a binary payload. -/
def c9trace : List CEvent :=
  [ .tickStickerSetInfo, .reqStickerSetInfo "baz", .tickStickerSetInfo,
    .tickDownloadFiles, .tickWatchUpdates, .response respFileF1,
    .binary "p/f1" true, .tickStickerSetInfo ]

/-- A running comms state with the offset set (poller witness). -/
def stRunning : CommsState :=
  { initComms with isRunning := true, offsetSet := true, offset := 17 }

/-- Invariant of the update store: every stored update record carries its
own store key as its `id` field (established by `Parse_Update`, which
stores each record under the `update_id` it renders into the record). -/
def UpdateStoreInv (ps : ParseState) : Prop :=
  ∀ k info, alGet ps.updateIDToInfo k = some info → alGet info "id" = some (intToStr k)

/-- A comms state in the C9 scenario: the info for `foo` is already in the
entity store while the marker still says `foo` is being downloaded and the
answering response has been consumed (nothing in flight), with another
name queued behind it. -/
def stFooKnown : CommsState :=
  { initComms with
    stickerSetNameToInfo := [("foo", [("name", "foo"), ("id", "foo"), ("title", "Foo Set")])],
    stickerSetInfoBeingDownloaded := "foo",
    stickerSetInfoDownloadQueue := ["bar"] }

/-! ## General lemmas about the basic models -/

theorem alGet_alSet_eq {κ α : Type} [DecidableEq κ] (m : List (κ × α)) (k : κ) (v : α) :
    alGet (alSet m k v) k = some v := by
  induction m with
  | nil => simp [alSet, alGet]
  | cons hd tl ih =>
    obtain ⟨k', v'⟩ := hd
    by_cases h : k' = k <;> simp [alSet, alGet, h, ih]

theorem alGet_alSet_ne {κ α : Type} [DecidableEq κ] (m : List (κ × α)) (k k' : κ) (v : α)
    (h : k ≠ k') : alGet (alSet m k v) k' = alGet m k' := by
  induction m with
  | nil => simp [alSet, alGet, h]
  | cons hd tl ih =>
    obtain ⟨k₀, v₀⟩ := hd
    by_cases h0 : k₀ = k
    · subst h0
      simp [alSet, alGet, h]
    · simp only [alSet, if_neg h0, alGet]
      by_cases h1 : k₀ = k' <;> simp [h1, ih]

theorem alContains_alSet_eq {κ α : Type} [DecidableEq κ] (m : List (κ × α)) (k : κ) (v : α) :
    alContains (alSet m k v) k = true := by
  simp [alContains, alGet_alSet_eq]

theorem digitChar_toNat {d : Nat} (h : d < 10) : (digitChar d).toNat = 48 + d := by
  interval_cases d <;> decide

theorem digitChar_isDigit {d : Nat} (h : d < 10) : (digitChar d).isDigit = true := by
  interval_cases d <;> decide

theorem natDigitsRev_lt_ten (fuel n : Nat) : ∀ d ∈ natDigitsRev fuel n, d < 10 := by
  induction fuel generalizing n with
  | zero => simp [natDigitsRev]
  | succ fuel ih =>
    intro d hd
    simp only [natDigitsRev] at hd
    by_cases h : n = 0
    · simp [h] at hd
    · simp only [if_neg h, List.mem_cons] at hd
      rcases hd with h1 | h1
      · subst h1
        exact Nat.mod_lt n (by norm_num)
      · exact ih (n / 10) d h1

theorem digitsVal_append (xs : List Nat) (d : Nat) :
    digitsVal (xs ++ [d]) = digitsVal xs * 10 + d := by
  simp [digitsVal, List.foldl_append]

theorem natDigitsRev_spec (fuel n : Nat) (h : n ≤ fuel) :
    digitsVal ((natDigitsRev fuel n).reverse) = n := by
  induction fuel generalizing n with
  | zero =>
    interval_cases n
    simp [natDigitsRev, digitsVal]
  | succ fuel ih =>
    by_cases h0 : n = 0
    · simp [natDigitsRev, h0, digitsVal]
    · have hdiv : n / 10 ≤ fuel := by
        have := Nat.div_lt_self (Nat.pos_of_ne_zero h0) (by norm_num : (1:Nat) < 10)
        omega
      have := ih (n / 10) hdiv
      simp only [natDigitsRev, if_neg h0, List.reverse_cons]
      rw [digitsVal_append, this]
      omega

theorem parseNatChars_map_digitChar (ds : List Nat) (hds : ∀ d ∈ ds, d < 10)
    (hne : ds ≠ []) :
    parseNatChars (ds.map digitChar) = digitsVal ds := by
  have hall : (ds.map digitChar).all (fun c => c.isDigit) = true := by
    rw [List.all_eq_true]
    intro c hc
    obtain ⟨d, hd, rfl⟩ := List.mem_map.mp hc
    exact digitChar_isDigit (hds d hd)
  have hmap : (ds.map digitChar).map (fun c => c.toNat - 48) = ds := by
    rw [List.map_map]
    conv_rhs => rw [show ds = ds.map id from (List.map_id ds).symm]
    apply List.map_congr_left
    intro d hd
    simp [Function.comp, digitChar_toNat (hds d hd)]
  rw [parseNatChars, if_pos]
  · rw [hmap]
  · exact ⟨by simpa using hne, hall⟩

theorem parseNatChars_natToStrChars (n : Nat) : parseNatChars (natToStrChars n) = n := by
  by_cases h0 : n = 0
  · subst h0
    decide
  · have hne : natDigitsRev n n ≠ [] := by
      cases hn : natDigitsRev n n with
      | nil =>
        cases n with
        | zero => exact absurd rfl h0
        | succ m =>
          rw [natDigitsRev, if_neg h0] at hn
          exact absurd hn (by simp)
      | cons a l => simp
    simp only [natToStrChars, if_neg h0]
    rw [parseNatChars_map_digitChar]
    · exact natDigitsRev_spec n n (le_refl n)
    · intro d hd
      exact natDigitsRev_lt_ten n n d (List.mem_reverse.mp hd)
    · simpa using hne

theorem natToStrChars_isDigit (n : Nat) :
    ∀ c ∈ natToStrChars n, c.isDigit = true := by
  intro c hc
  by_cases h0 : n = 0
  · subst h0
    rw [show natToStrChars 0 = ['0'] from rfl, List.mem_singleton] at hc
    subst hc
    decide
  · simp only [natToStrChars, if_neg h0] at hc
    obtain ⟨d, hd, rfl⟩ := List.mem_map.mp hc
    exact digitChar_isDigit (natDigitsRev_lt_ten n n d (List.mem_reverse.mp hd))

theorem strToInt_mk (cs : List Char) :
    strToInt (String.mk cs)
      = (match cs with
         | [] => (0 : Int)
         | c :: rest =>
           if c = '-' then -(parseNatChars rest : Int)
           else (parseNatChars (c :: rest) : Int)) := rfl

theorem minusAppend_natToStr (m : Nat) :
    "-" ++ natToStr m = String.mk ('-' :: natToStrChars m) := rfl

/-- Round trip: parsing a rendered integer recovers the integer
(`QString::number` then `QString::toLongLong`). -/
theorem strToInt_intToStr (n : Int) : strToInt (intToStr n) = n := by
  by_cases hneg : n < 0
  · simp only [intToStr, if_pos hneg, minusAppend_natToStr, strToInt_mk]
    simp only [if_pos, parseNatChars_natToStrChars, ite_true]
    omega
  · simp only [intToStr, if_neg hneg, natToStr]
    rw [strToInt_mk]
    have hd := natToStrChars_isDigit n.toNat
    have hparse := parseNatChars_natToStrChars n.toNat
    cases hcs : natToStrChars n.toNat with
    | nil =>
      exfalso
      by_cases hz : n.toNat = 0
      · rw [hz] at hcs
        exact absurd hcs (by decide)
      · rw [hcs] at hparse
        rw [show parseNatChars [] = 0 from by decide] at hparse
        omega
    | cons c rest =>
      have hcdigit : c.isDigit = true := by
        apply hd
        rw [hcs]
        exact List.mem_cons_self c rest
      have hcne : ¬(c = '-') := by
        intro hEq
        rw [hEq] at hcdigit
        exact absurd hcdigit (by decide)
      rw [hcs] at hparse
      simp only [if_neg hcne, hparse]
      omega

/-! ## Claim theorems -/

/-- C5: enqueueing a file-id whose bytes already exist on local storage
emits `FileDownloaded` synchronously and leaves the pending download
queue unchanged (`Size()` unchanged, nothing appended); a file-id not on
local storage is appended to the queue (and nothing is emitted). -/
theorem C5_download_queue_short_circuit (st : CommsState) (fileId : String) :
    (hasFileBeenDownloaded st fileId = true →
      (downloadFile st fileId).downloadQueue = st.downloadQueue
      ∧ getDownloadWorkListSize (downloadFile st fileId) = getDownloadWorkListSize st
      ∧ (downloadFile st fileId).ps.events = st.ps.events ++ [Event.FileDownloaded fileId])
    ∧ (hasFileBeenDownloaded st fileId = false →
      (downloadFile st fileId).downloadQueue = st.downloadQueue ++ [fileId]
      ∧ (downloadFile st fileId).ps.events = st.ps.events) := by
  constructor
  · intro h
    simp [downloadFile, h, csEmit, psEmit, getDownloadWorkListSize]
  · intro h
    simp [downloadFile, h]

/-- C5 witness: `f1` is on disk in `stWithF1`, so enqueueing it emits and
leaves the queue alone; `f2` is not on disk in `initComms`, so it is
queued. -/
theorem C5_download_queue_short_circuit_witness :
    (hasFileBeenDownloaded stWithF1 "f1" = true
      ∧ (downloadFile stWithF1 "f1").downloadQueue = stWithF1.downloadQueue
      ∧ getDownloadWorkListSize (downloadFile stWithF1 "f1")
          = getDownloadWorkListSize stWithF1
      ∧ (downloadFile stWithF1 "f1").ps.events
          = stWithF1.ps.events ++ [Event.FileDownloaded "f1"])
    ∧ (hasFileBeenDownloaded initComms "f2" = false
      ∧ (downloadFile initComms "f2").downloadQueue = initComms.downloadQueue ++ ["f2"]
      ∧ (downloadFile initComms "f2").ps.events = initComms.ps.events) := by
  constructor
  · exact ⟨by decide, (C5_download_queue_short_circuit stWithF1 "f1").1 (by decide)⟩
  · exact ⟨by decide, (C5_download_queue_short_circuit initComms "f2").2 (by decide)⟩

/-- C7: every poller tick reschedules the next tick regardless of
outcome; with the running flag false no network call is issued (the state
is untouched); with it true exactly one update-fetch request is issued,
carrying the offset as a query parameter exactly when the offset is set. -/
theorem C7_poller_tick (st : CommsState) :
    ((periodicWatchForUpdates st).2 = true)
    ∧ (st.isRunning = false → periodicWatchForUpdates st = (st, true))
    ∧ (st.isRunning = true →
        (periodicWatchForUpdates st).1.requests
          = st.requests
            ++ [Request.getUpdates (if st.offsetSet then some st.offset else none)]) := by
  refine ⟨rfl, ?_, ?_⟩
  · intro h
    simp [periodicWatchForUpdates, h]
  · intro h
    simp [periodicWatchForUpdates, h, checkForUpdates, csRequest]

/-- C7 witness: a stopped fresh instance issues nothing; a running
instance with offset 17 issues the update fetch with that offset. -/
theorem C7_poller_tick_witness :
    (initComms.isRunning = false ∧ periodicWatchForUpdates initComms = (initComms, true))
    ∧ (stRunning.isRunning = true
      ∧ (periodicWatchForUpdates stRunning).1.requests
          = stRunning.requests
            ++ [Request.getUpdates (if stRunning.offsetSet then some stRunning.offset
                else none)]) := by
  constructor
  · exact ⟨rfl, (C7_poller_tick initComms).2.1 rfl⟩
  · exact ⟨rfl, (C7_poller_tick stRunning).2.2 rfl⟩

/-- C8: `SetPreferenceValue` with a key outside the closed recognized set
is rejected synchronously: the only effect is the validation error log;
the in-memory preference state, the preference rows and the whole
database mirror are untouched. -/
theorem C8_preference_set_rejects_unknown_key (st : CommsState) (userId : Int)
    (key v : String) (h : alContains defaultPreferences key = false) :
    (setPreferenceValue st userId key v).userIDToPreferences = st.userIDToPreferences
    ∧ (setPreferenceValue st userId key v).prefRows = st.prefRows
    ∧ (setPreferenceValue st userId key v).ps.db = st.ps.db
    ∧ setPreferenceValue st userId key v
        = csLog st ("Unknown preferences tag \"" ++ key ++ "\".") := by
  simp [setPreferenceValue, h, csLog, psLog]

/-- C8 witness: the spec scenario `Set(42, "unknown_key", "x")`. -/
theorem C8_preference_set_rejects_unknown_key_witness :
    alContains defaultPreferences "unknown_key" = false
    ∧ ((setPreferenceValue initComms 42 "unknown_key" "x").userIDToPreferences
        = initComms.userIDToPreferences
      ∧ (setPreferenceValue initComms 42 "unknown_key" "x").prefRows = initComms.prefRows
      ∧ (setPreferenceValue initComms 42 "unknown_key" "x").ps.db = initComms.ps.db
      ∧ setPreferenceValue initComms 42 "unknown_key" "x"
          = csLog initComms "Unknown preferences tag \"unknown_key\".") := by
  exact ⟨by decide,
    C8_preference_set_rejects_unknown_key initComms 42 "unknown_key" "x" (by decide)⟩

/-- C6: a not-ok response recognized as `400 / Bad Request:
STICKERSET_INVALID` makes `Parse_Response` emit the typed
`StickerSetInfoFailed` event for exactly the collection name whose info
request is in flight, clear the in-flight marker, store no sticker-set
info, enqueue no retry and issue no request; the response is reported as
unsuccessful. -/
theorem C6_stickerset_invalid_failure (fuel : Nat) (st : CommsState) (j : Json)
    (name : String)
    (hmarker : st.stickerSetInfoBeingDownloaded = name)
    (hok : alContains ((parseResponseKeys j j.keys []).1) "ok" = true)
    (hnotok : alGetD ((parseResponseKeys j j.keys []).1) "ok" ≠ "true")
    (hcode : alGetD ((parseResponseKeys j j.keys []).1) "error_code" = "400")
    (hdesc : alGetD ((parseResponseKeys j j.keys []).1) "description"
        = "Bad Request: STICKERSET_INVALID") :
    (parseResponse fuel st j).1 = false
    ∧ (parseResponse fuel st j).2.ps.events
        = st.ps.events ++ [Event.StickerSetInfoFailed name]
    ∧ (parseResponse fuel st j).2.stickerSetInfoBeingDownloaded = ""
    ∧ (parseResponse fuel st j).2.stickerSetNameToInfo = st.stickerSetNameToInfo
    ∧ (parseResponse fuel st j).2.stickerSetInfoDownloadQueue
        = st.stickerSetInfoDownloadQueue
    ∧ (parseResponse fuel st j).2.requests = st.requests := by
  simp [parseResponse, hok, hnotok, hcode, hdesc, errorStickerSetInvalid, csEmit,
    psEmit, csLog, psLog, hmarker]

/-- C6 witness: the canonical invalid-set response delivered while the
info request for `foo` is in flight (the `stStuck` state has marker
`foo`). -/
theorem C6_stickerset_invalid_failure_witness :
    stStuck.stickerSetInfoBeingDownloaded = "foo"
    ∧ alContains ((parseResponseKeys respInvalid respInvalid.keys []).1) "ok" = true
    ∧ alGetD ((parseResponseKeys respInvalid respInvalid.keys []).1) "ok" ≠ "true"
    ∧ alGetD ((parseResponseKeys respInvalid respInvalid.keys []).1) "error_code" = "400"
    ∧ alGetD ((parseResponseKeys respInvalid respInvalid.keys []).1) "description"
        = "Bad Request: STICKERSET_INVALID"
    ∧ ((parseResponse 100 stStuck respInvalid).1 = false
      ∧ (parseResponse 100 stStuck respInvalid).2.ps.events
          = stStuck.ps.events ++ [Event.StickerSetInfoFailed "foo"]
      ∧ (parseResponse 100 stStuck respInvalid).2.stickerSetInfoBeingDownloaded = ""
      ∧ (parseResponse 100 stStuck respInvalid).2.stickerSetNameToInfo
          = stStuck.stickerSetNameToInfo
      ∧ (parseResponse 100 stStuck respInvalid).2.stickerSetInfoDownloadQueue
          = stStuck.stickerSetInfoDownloadQueue
      ∧ (parseResponse 100 stStuck respInvalid).2.requests = stStuck.requests) := by
  refine ⟨rfl, by decide, by decide, by decide, by decide, ?_⟩
  exact C6_stickerset_invalid_failure 100 stStuck respInvalid "foo" rfl (by decide)
    (by decide) (by decide) (by decide)

/-- C1 counterexample: the batch `[9, 5]` is normalized successfully, but
the final offset is 6 (last update id plus one), not `max + 1 = 10`: the
offset after a batch is not independent of the order of the updates in
the batch. -/
theorem C1_counterexample :
    (parseUpdateArray 100 initComms [jUpd9, jUpd5]).1 = true
    ∧ (parseUpdateArray 100 initComms [jUpd9, jUpd5]).2.offset = 6
    ∧ (parseUpdateArray 100 initComms [jUpd9, jUpd5]).2.offset ≠ 9 + 1 := by
  refine ⟨rfl, rfl, by decide⟩

/-- C2 counterexample: in the scenario of the claim (two back-to-back
requests for `foo` while `foo` is mid-pipeline, then a normal completion)
exactly one archive is built, but the collection-ready event
`StickerSetReceived("foo")` is emitted twice, not once. -/
theorem C2_counterexample :
    c2World.archiveBuilds.length = 1
    ∧ countEvent c2World.hEvents (Event.HStickerSetReceived "foo") = 2
    ∧ countEvent c2World.hEvents (Event.HStickerSetReceived "foo") ≠ 1 := by
  refine ⟨rfl, rfl, by decide⟩

/-- C2 amended: the same run produces exactly one completed archive
(`foo` is built once), and the collection-ready event is emitted exactly
twice when the archive is freshly built — once by the packaging routine
`SaveStickerSetZIPFile` and once by the final stage of
`DownloadStickerSet`. -/
theorem C2_amended_run :
    c2World.archiveBuilds = ["foo"]
    ∧ countEvent c2World.hEvents (Event.HStickerSetReceived "foo") = 2 := by
  exact ⟨rfl, rfl⟩
/-! ## Idempotence of the non-file normalizers (C4) -/

theorem psLog_events (ps : ParseState) (m : String) : (psLog ps m).events = ps.events := rfl

theorem saveInfoData_events (ps : ParseState) (t : String) (i : SMap) (b : Bool) :
    (saveInfoData ps t i b).events = ps.events := rfl

theorem parseUserKeys_events (j : Json) (keys : List String) (acc : SMap)
    (ps : ParseState) : ((parseUserKeys j keys acc ps).2).events = ps.events := by
  induction keys generalizing acc ps with
  | nil => rfl
  | cons k ks ih =>
    simp only [parseUserKeys]
    repeat' split
    all_goals simp [ih, psLog]

/-- `Parse_User` emits no Qt signal, on any input and in any state. -/
theorem parseUser_no_events (ps : ParseState) (j : Json) :
    (parseUser ps j).2.events = ps.events := by
  cases hc : alContains ps.userIDToInfo ((j.getKey "id").toInteger) with
  | true => simp [parseUser, hc]
  | false =>
    rcases hr : parseUserKeys j j.keys [] ps with ⟨acc, ps₁⟩
    have he : ps₁.events = ps.events := by
      have hx := parseUserKeys_events j j.keys [] ps
      rw [hr] at hx
      exact hx
    cases hid : alContains acc "id" with
    | false => simp [parseUser, hc, hr, hid, psLog, he]
    | true => simp [parseUser, hc, hr, hid, saveInfoData, he]

theorem parseChatKeys_events (j : Json) (keys : List String) (acc : SMap)
    (ps : ParseState) : ((parseChatKeys j keys acc ps).2).events = ps.events := by
  induction keys generalizing acc ps with
  | nil => rfl
  | cons k ks ih =>
    simp only [parseChatKeys]
    repeat' split
    all_goals simp [ih, psLog]

/-- `Parse_Chat` emits no Qt signal, on any input and in any state. -/
theorem parseChat_no_events (ps : ParseState) (j : Json) :
    (parseChat ps j).2.events = ps.events := by
  cases hc : alContains ps.chatIDToInfo ((j.getKey "id").toInteger) with
  | true => simp [parseChat, hc]
  | false =>
    rcases hr : parseChatKeys j j.keys [] ps with ⟨acc, ps₁⟩
    have he : ps₁.events = ps.events := by
      have hx := parseChatKeys_events j j.keys [] ps
      rw [hr] at hx
      exact hx
    cases hid : alContains acc "id" with
    | false => simp [parseChat, hc, hr, hid, psLog, he]
    | true => simp [parseChat, hc, hr, hid, saveInfoData, he]

/-- A second `Parse_User` call on the same payload returns the stored
record and leaves the state untouched. -/
theorem parseUser_idempotent (ps : ParseState) (j : Json) (info : SMap)
    (ps' : ParseState) (h : parseUser ps j = (info, ps')) (hne : info ≠ []) :
    parseUser ps' j = (info, ps') := by
  cases hc : alContains ps.userIDToInfo ((j.getKey "id").toInteger) with
  | true =>
    have heval : parseUser ps j
        = ((alGet ps.userIDToInfo ((j.getKey "id").toInteger)).getD [], ps) := by
      simp [parseUser, hc]
    have h' := heval.symm.trans h
    rw [Prod.mk.injEq] at h'
    obtain ⟨h1, h2⟩ := h'
    rw [← h2] at h ⊢
    exact h
  | false =>
    rcases hr : parseUserKeys j j.keys [] ps with ⟨acc, ps₁⟩
    cases hid : alContains acc "id" with
    | false =>
      exfalso
      have heval : parseUser ps j = ([], psLog ps₁ "User is missing an ID") := by
        simp [parseUser, hc, hr, hid]
      have h' := heval.symm.trans h
      rw [Prod.mk.injEq] at h'
      exact hne h'.1.symm
    | true =>
      have heval : parseUser ps j = (acc, saveInfoData { ps₁ with userIDToInfo := alSet ps₁.userIDToInfo ((j.getKey "id").toInteger) acc } "user_info" acc false) := by
        simp [parseUser, hc, hr, hid]
      have h' := heval.symm.trans h
      rw [Prod.mk.injEq] at h'
      obtain ⟨h1, h2⟩ := h'
      rw [← h2, ← h1]
      simp [parseUser, saveInfoData, alContains_alSet_eq, alGet_alSet_eq]

/-- A second `Parse_Chat` call on the same payload returns the stored
record and leaves the state untouched. -/
theorem parseChat_idempotent (ps : ParseState) (j : Json) (info : SMap)
    (ps' : ParseState) (h : parseChat ps j = (info, ps')) (hne : info ≠ []) :
    parseChat ps' j = (info, ps') := by
  cases hc : alContains ps.chatIDToInfo ((j.getKey "id").toInteger) with
  | true =>
    have heval : parseChat ps j
        = ((alGet ps.chatIDToInfo ((j.getKey "id").toInteger)).getD [], ps) := by
      simp [parseChat, hc]
    have h' := heval.symm.trans h
    rw [Prod.mk.injEq] at h'
    obtain ⟨h1, h2⟩ := h'
    rw [← h2] at h ⊢
    exact h
  | false =>
    rcases hr : parseChatKeys j j.keys [] ps with ⟨acc, ps₁⟩
    cases hid : alContains acc "id" with
    | false =>
      exfalso
      have heval : parseChat ps j = ([], psLog ps₁ "Chat is missing an id") := by
        simp [parseChat, hc, hr, hid]
      have h' := heval.symm.trans h
      rw [Prod.mk.injEq] at h'
      exact hne h'.1.symm
    | true =>
      have heval : parseChat ps j = (acc, saveInfoData { ps₁ with chatIDToInfo := alSet ps₁.chatIDToInfo ((j.getKey "id").toInteger) acc } "chat_info" acc false) := by
        simp [parseChat, hc, hr, hid]
      have h' := heval.symm.trans h
      rw [Prod.mk.injEq] at h'
      obtain ⟨h1, h2⟩ := h'
      rw [← h2, ← h1]
      simp [parseChat, saveInfoData, alContains_alSet_eq, alGet_alSet_eq]

/-- A second `Parse_Message` call on the same payload (with any fuel)
returns the stored record and leaves the state untouched: nothing is
re-emitted, re-stored or re-persisted. -/
theorem parseMessage_idempotent (fuel fuel' : Nat) (ps : ParseState) (j : Json)
    (info : SMap) (ps' : ParseState) (h : parseMessage (fuel+1) ps j = (info, ps'))
    (hne : info ≠ []) : parseMessage (fuel'+1) ps' j = (info, ps') := by
  cases hc : alContains ps.messageIDToInfo ((j.getKey "message_id").toInteger) with
  | true =>
    have heval : parseMessage (fuel+1) ps j
        = ((alGet ps.messageIDToInfo ((j.getKey "message_id").toInteger)).getD [], ps) := by
      simp [parseMessage, hc]
    have h' := heval.symm.trans h
    rw [Prod.mk.injEq] at h'
    obtain ⟨h1, h2⟩ := h'
    rw [← h2] at h ⊢
    have heval' : parseMessage (fuel'+1) ps j
        = ((alGet ps.messageIDToInfo ((j.getKey "message_id").toInteger)).getD [], ps) := by
      simp [parseMessage, hc]
    exact heval'.trans (heval.symm.trans h)
  | false =>
    rcases hr : parseMessageKeys fuel j j.keys [] ps with ⟨o, ps₁⟩
    cases o with
    | none =>
      exfalso
      have heval : parseMessage (fuel+1) ps j = ([], ps₁) := by
        simp [parseMessage, hc, hr]
      have h' := heval.symm.trans h
      rw [Prod.mk.injEq] at h'
      exact hne h'.1.symm
    | some acc =>
      cases hid : alContains acc "id" with
      | false =>
        exfalso
        have heval : parseMessage (fuel+1) ps j
            = ([], psLog ps₁ "Message is missing an ID") := by
          simp [parseMessage, hc, hr, hid]
        have h' := heval.symm.trans h
        rw [Prod.mk.injEq] at h'
        exact hne h'.1.symm
      | true =>
        have heval : parseMessage (fuel+1) ps j
            = (acc, psEmit (saveInfoData { ps₁ with messageIDToInfo := alSet ps₁.messageIDToInfo ((j.getKey "message_id").toInteger) acc } "message_info" acc false) (.MessageReceived (strToInt (alGetD acc "chat_id")) ((j.getKey "message_id").toInteger))) := by
          simp [parseMessage, hc, hr, hid]
        have h' := heval.symm.trans h
        rw [Prod.mk.injEq] at h'
        obtain ⟨h1, h2⟩ := h'
        rw [← h2, ← h1]
        simp [parseMessage, psEmit, saveInfoData, alContains_alSet_eq, alGet_alSet_eq]

/-- A successful fresh `Parse_Message` appends exactly one
`MessageReceived` event for the payload's message id after whatever the
normalization of the nested sub-objects emitted. -/
theorem parseMessage_emits_once (fuel : Nat) (ps : ParseState) (j : Json)
    (info : SMap) (ps' : ParseState)
    (hc : alContains ps.messageIDToInfo ((j.getKey "message_id").toInteger) = false)
    (h : parseMessage (fuel+1) ps j = (info, ps')) (hne : info ≠ []) :
    ps'.events = (parseMessageKeys fuel j j.keys [] ps).2.events
      ++ [Event.MessageReceived (strToInt (alGetD info "chat_id"))
            ((j.getKey "message_id").toInteger)] := by
  rcases hr : parseMessageKeys fuel j j.keys [] ps with ⟨o, ps₁⟩
  cases o with
  | none =>
    exfalso
    have heval : parseMessage (fuel+1) ps j = ([], ps₁) := by
      simp [parseMessage, hc, hr]
    have h' := heval.symm.trans h
    rw [Prod.mk.injEq] at h'
    exact hne h'.1.symm
  | some acc =>
    cases hid : alContains acc "id" with
    | false =>
      exfalso
      have heval : parseMessage (fuel+1) ps j
          = ([], psLog ps₁ "Message is missing an ID") := by
        simp [parseMessage, hc, hr, hid]
      have h' := heval.symm.trans h
      rw [Prod.mk.injEq] at h'
      exact hne h'.1.symm
    | true =>
      have heval : parseMessage (fuel+1) ps j
          = (acc, psEmit (saveInfoData { ps₁ with messageIDToInfo := alSet ps₁.messageIDToInfo ((j.getKey "message_id").toInteger) acc } "message_info" acc false) (.MessageReceived (strToInt (alGetD acc "chat_id")) ((j.getKey "message_id").toInteger))) := by
        simp [parseMessage, hc, hr, hid]
      have h' := heval.symm.trans h
      rw [Prod.mk.injEq] at h'
      obtain ⟨h1, h2⟩ := h'
      rw [← h2, ← h1]
      simp [psEmit, saveInfoData]

/-- C4 counterexample: normalizing a fresh user payload (twice) emits no
event at all — the code defines no arrived signal for users (or chats),
so the claim that the arrived event for the id is emitted exactly once
fails for user (and chat) normalization. -/
theorem C4_counterexample :
    (parseUser initParseState jUserAlice).1 ≠ []
    ∧ (parseUser (parseUser initParseState jUserAlice).2 jUserAlice).1
        = (parseUser initParseState jUserAlice).1
    ∧ (parseUser initParseState jUserAlice).2.events = []
    ∧ (parseUser (parseUser initParseState jUserAlice).2 jUserAlice).2.events = [] := by
  refine ⟨by decide, by decide, by decide, by decide⟩

/-- C4 amended: normalization of messages, users and chats is idempotent
— a second normalization of the same payload returns the stored record
and leaves the state untouched (so nothing is re-emitted).  A successful
fresh message normalization emits `MessageReceived` for its id exactly
once beyond what the nested sub-object normalizations emitted; user and
chat normalization emit no arrived event at all (no such signal exists). -/
theorem C4_amended_idempotent_ingestion :
    (∀ fuel fuel' : Nat, ∀ ps : ParseState, ∀ j : Json, ∀ info : SMap, ∀ ps' : ParseState,
      parseMessage (fuel+1) ps j = (info, ps') → info ≠ [] →
      parseMessage (fuel'+1) ps' j = (info, ps'))
    ∧ (∀ ps j info ps', parseUser ps j = (info, ps') → info ≠ [] →
        parseUser ps' j = (info, ps'))
    ∧ (∀ ps j, (parseUser ps j).2.events = ps.events)
    ∧ (∀ ps j info ps', parseChat ps j = (info, ps') → info ≠ [] →
        parseChat ps' j = (info, ps'))
    ∧ (∀ ps j, (parseChat ps j).2.events = ps.events)
    ∧ (∀ fuel ps j info ps',
        alContains ps.messageIDToInfo ((j.getKey "message_id").toInteger) = false →
        parseMessage (fuel+1) ps j = (info, ps') → info ≠ [] →
        countMsgReceived ps'.events ((j.getKey "message_id").toInteger)
          = countMsgReceived ((parseMessageKeys fuel j j.keys [] ps).2).events
              ((j.getKey "message_id").toInteger) + 1) := by
  refine ⟨parseMessage_idempotent, parseUser_idempotent, parseUser_no_events,
    parseChat_idempotent, parseChat_no_events, ?_⟩
  intro fuel ps j info ps' hc h hne
  rw [parseMessage_emits_once fuel ps j info ps' hc h hne]
  simp [countMsgReceived, List.filter_append]

/-- C4 witness: the amended claim at concrete message, user and chat
payloads from a fresh state. -/
theorem C4_amended_idempotent_ingestion_witness :
    ((parseMessage 100 initParseState jMsgHello).1 ≠ []
      ∧ parseMessage 100 (parseMessage 100 initParseState jMsgHello).2 jMsgHello
          = parseMessage 100 initParseState jMsgHello)
    ∧ ((parseUser initParseState jUserAlice).1 ≠ []
      ∧ parseUser (parseUser initParseState jUserAlice).2 jUserAlice
          = parseUser initParseState jUserAlice)
    ∧ (parseUser initParseState jUserAlice).2.events = initParseState.events
    ∧ ((parseChat initParseState jChatMain).1 ≠ []
      ∧ parseChat (parseChat initParseState jChatMain).2 jChatMain
          = parseChat initParseState jChatMain)
    ∧ (parseChat initParseState jChatMain).2.events = initParseState.events
    ∧ (alContains initParseState.messageIDToInfo
          ((jMsgHello.getKey "message_id").toInteger) = false
      ∧ countMsgReceived (parseMessage 100 initParseState jMsgHello).2.events
            ((jMsgHello.getKey "message_id").toInteger)
          = countMsgReceived
              ((parseMessageKeys 99 jMsgHello jMsgHello.keys [] initParseState).2).events
              ((jMsgHello.getKey "message_id").toInteger) + 1) := by
  refine ⟨⟨by decide, ?_⟩, ⟨by decide, ?_⟩, ?_, ⟨by decide, ?_⟩, ?_, by decide, ?_⟩
  · exact C4_amended_idempotent_ingestion.1 99 99 initParseState jMsgHello
      (parseMessage 100 initParseState jMsgHello).1
      (parseMessage 100 initParseState jMsgHello).2 rfl (by decide)
  · exact C4_amended_idempotent_ingestion.2.1 initParseState jUserAlice
      (parseUser initParseState jUserAlice).1
      (parseUser initParseState jUserAlice).2 rfl (by decide)
  · exact C4_amended_idempotent_ingestion.2.2.1 initParseState jUserAlice
  · exact C4_amended_idempotent_ingestion.2.2.2.1 initParseState jChatMain
      (parseChat initParseState jChatMain).1
      (parseChat initParseState jChatMain).2 rfl (by decide)
  · exact C4_amended_idempotent_ingestion.2.2.2.2.1 initParseState jChatMain
  · exact C4_amended_idempotent_ingestion.2.2.2.2.2 99 initParseState jMsgHello
      (parseMessage 100 initParseState jMsgHello).1
      (parseMessage 100 initParseState jMsgHello).2 (by decide) rfl (by decide)

/-! ## The file merge law (C3) -/

theorem alGet_append {κ α : Type} [DecidableEq κ] (a b : List (κ × α)) (k : κ) :
    alGet (a ++ b) k = match alGet a k with
      | some v => some v
      | none => alGet b k := by
  induction a with
  | nil => simp [alGet]
  | cons hd tl ih =>
    obtain ⟨k', v'⟩ := hd
    by_cases h : k' = k <;> simp [alGet, h, ih]

theorem alContains_alSet_ne {κ α : Type} [DecidableEq κ] (m : List (κ × α)) (k k' : κ)
    (v : α) (h : k ≠ k') : alContains (alSet m k v) k' = alContains m k' := by
  simp [alContains, alGet_alSet_ne m k k' v h]

theorem alSet_not_contains {κ α : Type} [DecidableEq κ] (m : List (κ × α)) (k : κ)
    (v : α) (h : alContains m k = false) : alSet m k v = m ++ [(k, v)] := by
  induction m with
  | nil => simp [alSet]
  | cons hd tl ih =>
    obtain ⟨k', v'⟩ := hd
    by_cases hk : k' = k
    · exfalso
      subst hk
      simp [alContains, alGet] at h
    · simp only [alSet, if_neg hk, List.cons_append, List.cons.injEq, true_and]
      apply ih
      simpa [alContains, alGet, hk] using h

/-- Fields already present in the stored record are never overwritten by
the merge. -/
theorem mergeFileFields_keeps (fid : String) (entries : List (String × String))
    (cur : SMap) (k : String) (hk : alContains cur k = true) :
    alGet (mergeFileFields fid entries cur).1 k = alGet cur k := by
  induction entries generalizing cur with
  | nil => rfl
  | cons hd rest ih =>
    obtain ⟨k', v'⟩ := hd
    by_cases hc : alContains cur k' = true
    · by_cases hv : alGetD cur k' ≠ v'
      · simp only [mergeFileFields, hc, if_true, if_pos hv]
        exact ih cur hk
      · simp only [mergeFileFields, hc, if_true, if_neg hv]
        exact ih cur hk
    · have hc' : alContains cur k' = false := by
        cases h : alContains cur k'
        · rfl
        · exact absurd h hc
      have hne : k' ≠ k := by
        intro hEq
        rw [hEq] at hc'
        rw [hc'] at hk
        exact absurd hk (by decide)
      simp only [mergeFileFields, hc', Bool.false_eq_true, if_false]
      rw [ih (alSet cur k' v') (by rw [alContains_alSet_ne cur k' k v' hne]; exact hk)]
      exact alGet_alSet_ne cur k' k v' hne

/-- When every field shared between the new payload and the stored record
agrees in value, the merge produces exactly the union of the two field
sets (stored values first) and logs nothing. -/
theorem mergeFileFields_union (fid : String) (entries : List (String × String))
    (cur : SMap) (hnodup : (entries.map Prod.fst).Nodup)
    (hagree : ∀ kv ∈ entries, alContains cur kv.1 = true → alGet cur kv.1 = some kv.2) :
    mergeFileFields fid entries cur = (alUnion cur entries, []) := by
  induction entries generalizing cur with
  | nil => simp [mergeFileFields, alUnion]
  | cons hd rest ih =>
    obtain ⟨k, v⟩ := hd
    simp only [List.map_cons, List.nodup_cons] at hnodup
    obtain ⟨hknotin, hnodup'⟩ := hnodup
    by_cases hc : alContains cur k = true
    · have hget : alGet cur k = some v := hagree (k, v) (List.mem_cons_self _ _) hc
      have hgd : ¬(alGetD cur k ≠ v) := by simp [alGetD, hget]
      simp only [mergeFileFields, hc, if_true, if_neg hgd]
      rw [ih cur hnodup' (fun kv hkv h => hagree kv (List.mem_cons_of_mem _ hkv) h)]
      simp only [alUnion, List.filter_cons]
      rw [show (!alContains cur (k, v).1) = false by simp [hc]]
      simp
    · have hc' : alContains cur k = false := by
        cases h : alContains cur k
        · rfl
        · exact absurd h hc
      simp only [mergeFileFields, hc', Bool.false_eq_true, if_false]
      rw [alSet_not_contains cur k v hc']
      rw [ih (cur ++ [(k, v)]) hnodup' ?_]
      · simp only [alUnion, List.filter_cons]
        rw [show (!alContains cur (k, v).1) = true by simp [hc']]
        rw [if_pos rfl]
        rw [List.append_assoc]
        simp only [List.singleton_append]
        congr 2
        congr 1
        apply List.filter_congr
        intro kv hkv
        have hne : kv.1 ≠ k := by
          intro hEq
          exact hknotin (hEq ▸ List.mem_map_of_mem Prod.fst hkv)
        congr 1
        simp only [alContains, alGet_append]
        cases hg : alGet cur kv.1 with
        | some w => rfl
        | none => simp [alGet, Ne.symm hne]
      · intro kv hkv hcont
        have hne : kv.1 ≠ k := by
          intro hEq
          exact hknotin (hEq ▸ List.mem_map_of_mem Prod.fst hkv)
        have hcont' : alContains cur kv.1 = true := by
          simp only [alContains, alGet_append] at hcont
          cases hg : alGet cur kv.1 with
          | some w => simp [alContains, hg]
          | none =>
            exfalso
            rw [hg] at hcont
            simp only [alGet, if_neg (Ne.symm hne)] at hcont
            simp [alContains, alGet] at hcont
        have := hagree kv (List.mem_cons_of_mem _ hkv) hcont'
        rw [alGet_append]
        rw [this]
  
/-- A field with a conflicting value keeps its first-seen value and makes
the merge log at least one mismatch line. -/
theorem mergeFileFields_conflict (fid : String) (entries : List (String × String))
    (cur : SMap) (k v1 v2 : String) (hcur : alGet cur k = some v1)
    (hmem : (k, v2) ∈ entries) (hne : v1 ≠ v2) :
    alGet (mergeFileFields fid entries cur).1 k = some v1
    ∧ (mergeFileFields fid entries cur).2 ≠ [] := by
  constructor
  · rw [mergeFileFields_keeps fid entries cur k (by simp [alContains, hcur])]
    exact hcur
  · induction entries generalizing cur with
    | nil => exact absurd hmem (List.not_mem_nil _)
    | cons hd rest ih =>
      obtain ⟨k', v'⟩ := hd
      rcases List.mem_cons.mp hmem with hhd | htl
      · obtain ⟨hk, hv⟩ := Prod.mk.injEq .. ▸ hhd
        subst hk hv
        have hc : alContains cur k = true := by simp [alContains, hcur]
        have hgd : alGetD cur k ≠ v2 := by simp [alGetD, hcur, hne]
        simp [mergeFileFields, hc, hgd]
      · by_cases hc : alContains cur k' = true
        · by_cases hv : alGetD cur k' ≠ v'
          · simp [mergeFileFields, hc, hv]
          · simp only [mergeFileFields, hc, if_true, if_neg hv]
            exact ih cur hcur htl
        · have hc' : alContains cur k' = false := by
            cases h : alContains cur k'
            · rfl
            · exact absurd h hc
          have hkne : k' ≠ k := by
            intro hEq
            rw [hEq] at hc'
            simp [alContains, hcur] at hc'
          simp only [mergeFileFields, hc', Bool.false_eq_true, if_false]
          exact ih (alSet cur k' v') (by rw [alGet_alSet_ne cur k' k v' hkne]; exact hcur) htl

theorem alGet_mem {κ α : Type} [DecidableEq κ] (m : List (κ × α)) (k : κ) (v : α)
    (h : alGet m k = some v) : (k, v) ∈ m := by
  induction m with
  | nil => exact absurd h (by simp [alGet])
  | cons hd tl ih =>
    obtain ⟨k', v'⟩ := hd
    by_cases hk : k' = k
    · subst hk
      rw [alGet, if_pos rfl] at h
      obtain h := Option.some.inj h
      subst h
      exact List.mem_cons_self _ _
    · rw [alGet, if_neg hk] at h
      exact List.mem_cons_of_mem _ (ih h)

/-- C3: the file merge law of `Parse_File`.  For two payloads sharing a
file-id (the first normalized into the stored record `R1`, the second
contributing the field set `F2`): when every shared field agrees — in
particular when the contributed fields are disjoint apart from the
necessarily shared id fields — the second normalization stores exactly
the union of the two field sets and logs no mismatch; a field contributed
with a different value keeps the first-seen value (stored values are
never overwritten) and the mismatch warning log is nonempty, appended to
the log stream. -/
theorem C3_file_merge_law (fuel₁ fuel₂ : Nat) (ps : ParseState) (p1 p2 : Json)
    (R1 F2 : SMap) (ps₂ ps₁ : ParseState) (fid : String)
    (h1 : parseFile fuel₁ ps p1 = (R1, ps₂))
    (hstored : alGet ps₂.fileIDToInfo fid = some R1)
    (hF2 : parseFileKeys fuel₂ p2 p2.keys [] ps₂ = (F2, ps₁))
    (hframe : alGet ps₁.fileIDToInfo fid = alGet ps₂.fileIDToInfo fid)
    (hfid2 : alGet F2 "id" = some fid)
    (hnodup : (F2.map Prod.fst).Nodup) :
    ((∀ kv ∈ F2, alContains R1 kv.1 = true → alGet R1 kv.1 = some kv.2) →
      (parseFile (fuel₂+1) ps₂ p2).1 = alUnion R1 F2
      ∧ alGet ((parseFile (fuel₂+1) ps₂ p2).2).fileIDToInfo fid = some (alUnion R1 F2)
      ∧ (mergeFileFields fid F2 R1).2 = [])
    ∧ (∀ k v1 v2, alGet R1 k = some v1 → alGet F2 k = some v2 → v1 ≠ v2 →
      alGet ((parseFile (fuel₂+1) ps₂ p2).2).fileIDToInfo fid
        = some (mergeFileFields fid F2 R1).1
      ∧ alGet (mergeFileFields fid F2 R1).1 k = some v1
      ∧ (mergeFileFields fid F2 R1).2 ≠ []
      ∧ ((parseFile (fuel₂+1) ps₂ p2).2).logs
          = ps₁.logs ++ (mergeFileFields fid F2 R1).2) := by
  have hcid : alContains F2 "id" = true := by simp [alContains, hfid2]
  have hgd : alGetD F2 "id" = fid := by simp [alGetD, hfid2]
  have hret : (parseFile (fuel₂+1) ps₂ p2).1 = (mergeFileFields fid F2 R1).1 := by
    simp [parseFile, hF2, hcid, hgd, hframe, hstored]
  have hstate : ((parseFile (fuel₂+1) ps₂ p2).2).fileIDToInfo
      = alSet ps₁.fileIDToInfo fid (mergeFileFields fid F2 R1).1 := by
    simp [parseFile, hF2, hcid, hgd, hframe, hstored, saveInfoData]
  have hlogs : ((parseFile (fuel₂+1) ps₂ p2).2).logs
      = ps₁.logs ++ (mergeFileFields fid F2 R1).2 := by
    simp [parseFile, hF2, hcid, hgd, hframe, hstored, saveInfoData]
  constructor
  · intro hagree
    have hmerge := mergeFileFields_union fid F2 R1 hnodup hagree
    refine ⟨?_, ?_, ?_⟩
    · rw [hret, hmerge]
    · rw [hstate, alGet_alSet_eq, hmerge]
    · rw [hmerge]
  · intro k v1 v2 hv1 hv2 hvne
    have hmem : (k, v2) ∈ F2 := alGet_mem F2 k v2 hv2
    have hconf := mergeFileFields_conflict fid F2 R1 k v1 v2 hv1 hmem hvne
    refine ⟨?_, hconf.1, hconf.2, hlogs⟩
    rw [hstate, alGet_alSet_eq]

/-- C3 witness: `jFileA` normalized first (stored record for `f1`), then
`jFileB` (same file-id, agreeing shared fields, new `file_path`) merges to
the union with no warning, and `jFileC` (conflicting `file_size`) keeps
the first-seen value and logs a mismatch. -/
theorem C3_file_merge_law_witness :
    ((parseFile 100 (parseFile 100 initParseState jFileA).2 jFileB).1
        = alUnion (parseFile 100 initParseState jFileA).1
            (parseFileKeys 99 jFileB jFileB.keys []
              (parseFile 100 initParseState jFileA).2).1
      ∧ alGet ((parseFile 100 (parseFile 100 initParseState jFileA).2 jFileB).2).fileIDToInfo
            "f1"
          = some (alUnion (parseFile 100 initParseState jFileA).1
              (parseFileKeys 99 jFileB jFileB.keys []
                (parseFile 100 initParseState jFileA).2).1)
      ∧ (mergeFileFields "f1"
          (parseFileKeys 99 jFileB jFileB.keys []
            (parseFile 100 initParseState jFileA).2).1
          (parseFile 100 initParseState jFileA).1).2 = [])
    ∧ (alGet ((parseFile 100 (parseFile 100 initParseState jFileA).2 jFileC).2).fileIDToInfo
          "f1"
        = some (mergeFileFields "f1"
            (parseFileKeys 99 jFileC jFileC.keys []
              (parseFile 100 initParseState jFileA).2).1
            (parseFile 100 initParseState jFileA).1).1
      ∧ alGet (mergeFileFields "f1"
            (parseFileKeys 99 jFileC jFileC.keys []
              (parseFile 100 initParseState jFileA).2).1
            (parseFile 100 initParseState jFileA).1).1 "file_size" = some "10"
      ∧ (mergeFileFields "f1"
          (parseFileKeys 99 jFileC jFileC.keys []
            (parseFile 100 initParseState jFileA).2).1
          (parseFile 100 initParseState jFileA).1).2 ≠ []
      ∧ ((parseFile 100 (parseFile 100 initParseState jFileA).2 jFileC).2).logs
          = ((parseFileKeys 99 jFileC jFileC.keys []
              (parseFile 100 initParseState jFileA).2).2).logs
            ++ (mergeFileFields "f1"
                (parseFileKeys 99 jFileC jFileC.keys []
                  (parseFile 100 initParseState jFileA).2).1
                (parseFile 100 initParseState jFileA).1).2) := by
  constructor
  · exact (C3_file_merge_law 100 99 initParseState jFileA jFileB
      (parseFile 100 initParseState jFileA).1
      (parseFileKeys 99 jFileB jFileB.keys [] (parseFile 100 initParseState jFileA).2).1
      (parseFile 100 initParseState jFileA).2
      (parseFileKeys 99 jFileB jFileB.keys [] (parseFile 100 initParseState jFileA).2).2
      "f1" rfl (by decide) rfl (by decide) (by decide) (by decide)).1 (by decide)
  · exact (C3_file_merge_law 100 99 initParseState jFileA jFileC
      (parseFile 100 initParseState jFileA).1
      (parseFileKeys 99 jFileC jFileC.keys [] (parseFile 100 initParseState jFileA).2).1
      (parseFile 100 initParseState jFileA).2
      (parseFileKeys 99 jFileC jFileC.keys [] (parseFile 100 initParseState jFileA).2).2
      "f1" rfl (by decide) rfl (by decide) (by decide) (by decide)).2
      "file_size" "10" "11" (by decide) (by decide) (by decide)

/-! ## Membership-change identity (C10) -/

theorem oldPrefix_ne_id (s : String) : ("old_chat_member_" ++ s) ≠ "id" := by
  intro h
  have hl := congrArg String.length h
  rw [String.length_append] at hl
  rw [show ("old_chat_member_" : String).length = 16 from rfl,
      show ("id" : String).length = 2 from rfl] at hl
  omega

theorem newPrefix_ne_id (s : String) : ("new_chat_member_" ++ s) ≠ "id" := by
  intro h
  have hl := congrArg String.length h
  rw [String.length_append] at hl
  rw [show ("new_chat_member_" : String).length = 16 from rfl,
      show ("id" : String).length = 2 from rfl] at hl
  omega

theorem alGet_alSetPrefixed_id (acc : SMap) (pre : String) (entries : SMap)
    (hpre : ∀ s, (pre ++ s) ≠ "id") :
    alGet (alSetPrefixed acc pre entries) "id" = alGet acc "id" := by
  induction entries generalizing acc with
  | nil => rfl
  | cons kv rest ih =>
    show alGet (alSetPrefixed (alSet acc (pre ++ kv.1) kv.2) pre rest) "id" = alGet acc "id"
    rw [ih (alSet acc (pre ++ kv.1) kv.2)]
    exact alGet_alSet_ne acc (pre ++ kv.1) "id" kv.2 (hpre kv.1)

/-- Through the key loop of `Parse_MyChatMember`, the `id` field is
written exactly by the `date` branch (with the raw epoch value of the
payload's `date`), and by nothing else. -/
theorem parseMyChatMemberKeys_id (j : Json) (keys : List String) (acc : SMap)
    (ps : ParseState) (acc' : SMap) (ps' : ParseState)
    (h : parseMyChatMemberKeys j keys acc ps = (some acc', ps')) :
    alGet acc' "id" = if "date" ∈ keys
      then some (intToStr ((j.getKey "date").toInteger))
      else alGet acc "id" := by
  induction keys generalizing acc ps with
  | nil =>
    rw [parseMyChatMemberKeys] at h
    rw [Prod.mk.injEq] at h
    obtain ⟨h1, _⟩ := h
    obtain h1 := Option.some.inj h1
    subst h1
    simp
  | cons k ks ih =>
    by_cases hk1 : k = "chat"
    · subst hk1
      rcases hr : parseChat ps (j.getKey "chat") with ⟨ci, ps₀⟩
      cases hemp : ci.isEmpty with
      | true => simp [parseMyChatMemberKeys, hr, hemp] at h
      | false =>
        simp only [parseMyChatMemberKeys, hr, hemp] at h
        simp at h
        rw [ih _ _ h]
        have hne : ("date" ∈ "chat" :: ks) = ("date" ∈ ks) := by simp
        simp only [hne, alGet_alSet_ne acc "chat_id" "id" (alGetD ci "id") (by decide)]
    · by_cases hk2 : k = "date"
      · subst hk2
        simp only [parseMyChatMemberKeys] at h
        simp at h
        rw [ih _ _ h]
        rw [if_pos (List.mem_cons_self _ _)]
        by_cases hd : "date" ∈ ks
        · rw [if_pos hd]
        · rw [if_neg hd, alGet_alSet_eq]
      · by_cases hk3 : k = "from"
        · subst hk3
          rcases hr : parseUser ps (j.getKey "from") with ⟨ui, ps₀⟩
          cases hemp : ui.isEmpty with
          | true => simp [parseMyChatMemberKeys, hr, hemp] at h
          | false =>
            simp only [parseMyChatMemberKeys, hr, hemp] at h
            simp at h
            rw [ih _ _ h]
            have hne : ("date" ∈ "from" :: ks) = ("date" ∈ ks) := by simp
            simp only [hne, alGet_alSet_ne acc "from_id" "id" (alGetD ui "id") (by decide)]
        · by_cases hk4 : k = "old_chat_member"
          · subst hk4
            rcases hr : parseOldChatMember ps (j.getKey "old_chat_member") with ⟨oi, ps₀⟩
            cases hemp : oi.isEmpty with
            | true => simp [parseMyChatMemberKeys, hr, hemp] at h
            | false =>
              simp only [parseMyChatMemberKeys, hr, hemp] at h
              simp at h
              rw [ih _ _ h]
              have hne : ("date" ∈ "old_chat_member" :: ks) = ("date" ∈ ks) := by simp
              simp only [hne, alGet_alSetPrefixed_id acc "old_chat_member_" oi oldPrefix_ne_id]
          · by_cases hk5 : k = "new_chat_member"
            · subst hk5
              rcases hr : parseNewChatMember ps (j.getKey "new_chat_member") with ⟨ni, ps₀⟩
              cases hemp : ni.isEmpty with
              | true => simp [parseMyChatMemberKeys, hr, hemp] at h
              | false =>
                simp only [parseMyChatMemberKeys, hr, hemp] at h
                simp at h
                rw [ih _ _ h]
                have hne : ("date" ∈ "new_chat_member" :: ks) = ("date" ∈ ks) := by simp
                simp only [hne, alGet_alSetPrefixed_id acc "new_chat_member_" ni newPrefix_ne_id]
            · simp only [parseMyChatMemberKeys, hk1, hk2, hk3, hk4, hk5] at h
              simp [hk1, hk2, hk3, hk4, hk5] at h
              rw [ih _ _ h]
              have hne : ("date" ∈ k :: ks) = ("date" ∈ ks) := by
                simp [List.mem_cons, Ne.symm hk2]
              simp only [hne]

theorem List.filter_and_not (p : DbRow → Bool) (l : List DbRow) :
    l.filter (fun r => p r && !(p r)) = [] := by
  induction l with
  | nil => rfl
  | cons hd tl ih =>
    rw [List.filter_cons]
    rw [show (p hd && !(p hd)) = false by cases h : p hd <;> simp [h]]
    simpa using ih

/-- After `SaveInfoData`, the table rows for the record's id are exactly
one row per field of the record (full replace). -/
theorem dbRowsFor_saveInfoData (ps : ParseState) (table : String) (info : SMap)
    (idIsText : Bool) :
    dbRowsFor (saveInfoData ps table info idIsText).db table
      (if idIsText then alGetD info "id" else intToStr (strToInt (alGetD info "id")))
      = info.map (fun kv => DbRow.mk table
          (if idIsText then alGetD info "id" else intToStr (strToInt (alGetD info "id")))
          kv.1 kv.2 0) := by
  set idStr := if idIsText then alGetD info "id" else intToStr (strToInt (alGetD info "id"))
    with hid
  rw [saveInfoData, dbRowsFor]
  show List.filter _ (List.filter _ ps.db ++ _) = _
  rw [List.filter_append]
  rw [List.filter_filter]
  rw [show List.filter (fun r => (decide (r.table = table) && decide (r.id = idStr)) &&
      !(decide (r.table = table) && decide (r.id = idStr))) ps.db = [] from
    List.filter_and_not _ ps.db]
  rw [List.nil_append]
  apply List.filter_eq_self.mpr
  intro r hr
  obtain ⟨kv, _, rfl⟩ := List.mem_map.mp hr
  simp

/-- C10 part (a): a successfully normalized membership change carries the
epoch value of its `date` field as its record identifier, and is stored
under that identifier. -/
theorem parseMyChatMember_id (ps : ParseState) (j : Json) (info : SMap)
    (ps' : ParseState) (h : parseMyChatMember ps j = (info, ps')) (hne : info ≠ []) :
    alGet info "id" = some (intToStr ((j.getKey "date").toInteger))
    ∧ alGet ps'.myChatMemberIDToInfo ((j.getKey "date").toInteger) = some info := by
  rcases hr : parseMyChatMemberKeys j j.keys [] ps with ⟨o, ps₁⟩
  cases o with
  | none =>
    exfalso
    have heval : parseMyChatMember ps j = ([], ps₁) := by
      simp [parseMyChatMember, hr]
    have h' := heval.symm.trans h
    rw [Prod.mk.injEq] at h'
    exact hne h'.1.symm
  | some acc =>
    cases hid : alContains acc "id" with
    | false =>
      exfalso
      have heval : parseMyChatMember ps j
          = ([], psLog ps₁ "MyChatMember is missing an ID") := by
        simp [parseMyChatMember, hr, hid]
      have h' := heval.symm.trans h
      rw [Prod.mk.injEq] at h'
      exact hne h'.1.symm
    | true =>
      have htrack := parseMyChatMemberKeys_id j j.keys [] ps acc ps₁ hr
      have hdate : "date" ∈ j.keys := by
        by_contra hd
        rw [if_neg hd] at htrack
        rw [show alGet ([] : SMap) "id" = none from rfl] at htrack
        rw [alContains, htrack] at hid
        exact absurd hid (by decide)
      rw [if_pos hdate] at htrack
      have hgd : alGetD acc "id" = intToStr ((j.getKey "date").toInteger) := by
        simp [alGetD, htrack]
      have heval : parseMyChatMember ps j
          = (acc, saveInfoData { ps₁ with myChatMemberIDToInfo := alSet ps₁.myChatMemberIDToInfo (strToInt (alGetD acc "id")) acc } "my_chat_member_info" acc false) := by
        simp [parseMyChatMember, hr, hid]
      have h' := heval.symm.trans h
      rw [Prod.mk.injEq] at h'
      obtain ⟨h1, h2⟩ := h'
      subst h1
      constructor
      · exact htrack
      · rw [← h2]
        show alGet (alSet ps₁.myChatMemberIDToInfo (strToInt (alGetD acc "id")) acc)
          ((j.getKey "date").toInteger) = some acc
        rw [hgd, strToInt_intToStr]
        exact alGet_alSet_eq ..

/-- C10: a normalized membership change has no protocol-supplied id: its
record identifier is the epoch value of its `date` field; membership
changes are not deduplicated, so a second change carrying the same date
maps to the same identifier and overwrites the first both in the entity
store and in the persistence layer (whose rows for that id become exactly
the second record's rows). -/
theorem C10_my_chat_member_date_identity (ps : ParseState) (j1 j2 : Json)
    (info1 : SMap) (ps1 : ParseState) (info2 : SMap) (ps2 : ParseState) (d : Int)
    (h1 : parseMyChatMember ps j1 = (info1, ps1)) (hne1 : info1 ≠ [])
    (h2 : parseMyChatMember ps1 j2 = (info2, ps2)) (hne2 : info2 ≠ [])
    (hd1 : (j1.getKey "date").toInteger = d) (hd2 : (j2.getKey "date").toInteger = d) :
    alGet info1 "id" = some (intToStr d)
    ∧ alGet info2 "id" = some (intToStr d)
    ∧ alGet ps1.myChatMemberIDToInfo d = some info1
    ∧ alGet ps2.myChatMemberIDToInfo d = some info2
    ∧ dbRowsFor ps2.db "my_chat_member_info" (intToStr d)
        = info2.map (fun kv => DbRow.mk "my_chat_member_info" (intToStr d) kv.1 kv.2 0) := by
  obtain ⟨ha1, hb1⟩ := parseMyChatMember_id ps j1 info1 ps1 h1 hne1
  obtain ⟨ha2, hb2⟩ := parseMyChatMember_id ps1 j2 info2 ps2 h2 hne2
  rw [hd1] at ha1 hb1
  rw [hd2] at ha2 hb2
  refine ⟨ha1, ha2, hb1, hb2, ?_⟩
  rcases hr : parseMyChatMemberKeys j2 j2.keys [] ps1 with ⟨o, ps₁⟩
  cases o with
  | none =>
    exfalso
    have heval : parseMyChatMember ps1 j2 = ([], ps₁) := by
      simp [parseMyChatMember, hr]
    have h' := heval.symm.trans h2
    rw [Prod.mk.injEq] at h'
    exact hne2 h'.1.symm
  | some acc =>
    cases hid : alContains acc "id" with
    | false =>
      exfalso
      have heval : parseMyChatMember ps1 j2
          = ([], psLog ps₁ "MyChatMember is missing an ID") := by
        simp [parseMyChatMember, hr, hid]
      have h' := heval.symm.trans h2
      rw [Prod.mk.injEq] at h'
      exact hne2 h'.1.symm
    | true =>
      have heval : parseMyChatMember ps1 j2
          = (acc, saveInfoData { ps₁ with myChatMemberIDToInfo := alSet ps₁.myChatMemberIDToInfo (strToInt (alGetD acc "id")) acc } "my_chat_member_info" acc false) := by
        simp [parseMyChatMember, hr, hid]
      have h' := heval.symm.trans h2
      rw [Prod.mk.injEq] at h'
      obtain ⟨h1', h2'⟩ := h'
      subst h1'
      have hgd : alGetD acc "id" = intToStr d := by simp [alGetD, ha2]
      rw [← h2']
      rw [hgd, strToInt_intToStr]
      have hdb := dbRowsFor_saveInfoData
        { ps₁ with myChatMemberIDToInfo := alSet ps₁.myChatMemberIDToInfo d acc }
        "my_chat_member_info" acc false
      rw [if_neg (by decide)] at hdb
      rw [hgd, strToInt_intToStr] at hdb
      exact hdb

/-- C10 witness: two membership changes with the same date normalized in
sequence from a fresh state. -/
theorem C10_my_chat_member_date_identity_witness :
    (parseMyChatMember initParseState jMember1).1 ≠ []
    ∧ (parseMyChatMember (parseMyChatMember initParseState jMember1).2 jMember2).1 ≠ []
    ∧ (alGet (parseMyChatMember initParseState jMember1).1 "id"
        = some (intToStr 1737146726)
      ∧ alGet (parseMyChatMember (parseMyChatMember initParseState jMember1).2 jMember2).1
          "id" = some (intToStr 1737146726)
      ∧ alGet ((parseMyChatMember initParseState jMember1).2).myChatMemberIDToInfo
          1737146726 = some (parseMyChatMember initParseState jMember1).1
      ∧ alGet ((parseMyChatMember (parseMyChatMember initParseState jMember1).2
            jMember2).2).myChatMemberIDToInfo 1737146726
          = some (parseMyChatMember (parseMyChatMember initParseState jMember1).2
              jMember2).1
      ∧ dbRowsFor ((parseMyChatMember (parseMyChatMember initParseState jMember1).2
            jMember2).2).db "my_chat_member_info" (intToStr 1737146726)
          = ((parseMyChatMember (parseMyChatMember initParseState jMember1).2
              jMember2).1).map (fun kv => DbRow.mk "my_chat_member_info"
                (intToStr 1737146726) kv.1 kv.2 0)) := by
  refine ⟨by decide, by decide, ?_⟩
  exact C10_my_chat_member_date_identity initParseState jMember1 jMember2
    (parseMyChatMember initParseState jMember1).1
    (parseMyChatMember initParseState jMember1).2
    (parseMyChatMember (parseMyChatMember initParseState jMember1).2 jMember2).1
    (parseMyChatMember (parseMyChatMember initParseState jMember1).2 jMember2).2
    1737146726 rfl (by decide) rfl (by decide) (by decide) (by decide)

/-! ## Offset after an update batch (C1) -/

/-- Through the key loop of `Parse_Update`, the `id` field is written
exactly by the `update_id` branch, with the rendered `update_id` value. -/
theorem parseUpdateKeys_id (fuel : Nat) (j : Json) (keys : List String) (acc : SMap)
    (ps : ParseState) (acc' : SMap) (ps' : ParseState)
    (h : parseUpdateKeys fuel j keys acc ps = (some acc', ps')) :
    alGet acc' "id" = if "update_id" ∈ keys
      then some (intToStr ((j.getKey "update_id").toInteger))
      else alGet acc "id" := by
  induction keys generalizing acc ps with
  | nil =>
    rw [parseUpdateKeys] at h
    rw [Prod.mk.injEq] at h
    obtain ⟨h1, _⟩ := h
    obtain h1 := Option.some.inj h1
    subst h1
    simp
  | cons k ks ih =>
    by_cases hk1 : k = "channel_post"
    · subst hk1
      rcases hr : parseChannelPost fuel ps (j.getKey "channel_post") with ⟨ci, ps₀⟩
      cases hemp : ci.isEmpty with
      | true => simp [parseUpdateKeys, hr, hemp] at h
      | false =>
        simp only [parseUpdateKeys, hr, hemp] at h
        simp at h
        rw [ih _ _ h]
        have hne : ("update_id" ∈ "channel_post" :: ks) = ("update_id" ∈ ks) := by simp
        simp only [hne, alGet_alSet_ne _ "chat_id" "id" _ (by decide),
          alGet_alSet_ne _ "message_id" "id" _ (by decide),
          alGet_alSet_ne _ "type" "id" _ (by decide)]
    · by_cases hk2 : k = "edited_channel_post"
      · subst hk2
        rcases hr : parseChannelPost fuel ps (j.getKey "edited_channel_post") with ⟨ci, ps₀⟩
        cases hemp : ci.isEmpty with
        | true => simp [parseUpdateKeys, hr, hemp] at h
        | false =>
          simp only [parseUpdateKeys, hr, hemp] at h
          simp at h
          rw [ih _ _ h]
          have hne : ("update_id" ∈ "edited_channel_post" :: ks) = ("update_id" ∈ ks) := by
            simp
          simp only [hne, alGet_alSet_ne _ "chat_id" "id" _ (by decide),
            alGet_alSet_ne _ "message_id" "id" _ (by decide),
            alGet_alSet_ne _ "type" "id" _ (by decide)]
      · by_cases hk3 : k = "edited_message"
        · subst hk3
          rcases hr : parseMessage fuel ps (j.getKey "edited_message") with ⟨mi, ps₀⟩
          cases hemp : mi.isEmpty with
          | true => simp [parseUpdateKeys, hr, hemp] at h
          | false =>
            simp only [parseUpdateKeys, hr, hemp] at h
            simp at h
            rw [ih _ _ h]
            have hne : ("update_id" ∈ "edited_message" :: ks) = ("update_id" ∈ ks) := by
              simp
            simp only [hne, alGet_alSet_ne _ "chat_id" "id" _ (by decide),
              alGet_alSet_ne _ "message_id" "id" _ (by decide),
              alGet_alSet_ne _ "type" "id" _ (by decide)]
        · by_cases hk4 : k = "message"
          · subst hk4
            rcases hr : parseMessage fuel ps (j.getKey "message") with ⟨mi, ps₀⟩
            cases hemp : mi.isEmpty with
            | true => simp [parseUpdateKeys, hr, hemp] at h
            | false =>
              simp only [parseUpdateKeys, hr, hemp] at h
              simp at h
              rw [ih _ _ h]
              have hne : ("update_id" ∈ "message" :: ks) = ("update_id" ∈ ks) := by simp
              simp only [hne, alGet_alSet_ne _ "chat_id" "id" _ (by decide),
                alGet_alSet_ne _ "message_id" "id" _ (by decide),
                alGet_alSet_ne _ "type" "id" _ (by decide)]
          · by_cases hk5 : k = "my_chat_member"
            · subst hk5
              rcases hr : parseMyChatMember ps (j.getKey "my_chat_member") with ⟨mi, ps₀⟩
              cases hemp : mi.isEmpty with
              | true => simp [parseUpdateKeys, hr, hemp] at h
              | false =>
                simp only [parseUpdateKeys, hr, hemp] at h
                simp at h
                rw [ih _ _ h]
                have hne : ("update_id" ∈ "my_chat_member" :: ks) = ("update_id" ∈ ks) := by
                  simp
                simp only [hne, alGet_alSet_ne _ "chat_id" "id" _ (by decide),
                  alGet_alSet_ne _ "my_chat_member_id" "id" _ (by decide),
                  alGet_alSet_ne _ "type" "id" _ (by decide)]
            · by_cases hk6 : k = "update_id"
              · subst hk6
                simp only [parseUpdateKeys] at h
                simp at h
                rw [ih _ _ h]
                rw [if_pos (List.mem_cons_self _ _)]
                by_cases hd : "update_id" ∈ ks
                · rw [if_pos hd]
                · rw [if_neg hd, alGet_alSet_eq]
              · simp only [parseUpdateKeys, hk1, hk2, hk3, hk4, hk5, hk6] at h
                simp [hk1, hk2, hk3, hk4, hk5, hk6] at h
                rw [ih _ _ h]
                have hne : ("update_id" ∈ k :: ks) = ("update_id" ∈ ks) := by
                  simp [List.mem_cons, Ne.symm hk6]
                simp only [hne]

/-- `psLog` leaves the update store untouched. -/
theorem psLog_updStore (ps : ParseState) (m : String) :
    (psLog ps m).updateIDToInfo = ps.updateIDToInfo := rfl

/-- `psEmit` leaves the update store untouched. -/
theorem psEmit_updStore (ps : ParseState) (e : Event) :
    (psEmit ps e).updateIDToInfo = ps.updateIDToInfo := rfl

/-- `saveInfoData` writes only to the database model. -/
theorem saveInfoData_updStore (ps : ParseState) (t : String) (i : SMap) (b : Bool) :
    (saveInfoData ps t i b).updateIDToInfo = ps.updateIDToInfo := rfl

/-- The user key loop never writes the update store. -/
theorem parseUserKeys_updStore (j : Json) (keys : List String) : ∀ acc ps,
    ((parseUserKeys j keys acc ps).2).updateIDToInfo = ps.updateIDToInfo := by
  induction keys with
  | nil => intro acc ps; rfl
  | cons k ks ih =>
    intro acc ps
    simp only [parseUserKeys]
    split_ifs <;> rw [ih] <;> rfl

/-- `Parse_User` never writes the update store. -/
theorem parseUser_updStore (ps : ParseState) (j : Json) :
    ((parseUser ps j).2).updateIDToInfo = ps.updateIDToInfo := by
  simp only [parseUser]
  split_ifs <;>
    simp [psLog_updStore, saveInfoData_updStore, parseUserKeys_updStore]

/-- The chat key loop never writes the update store. -/
theorem parseChatKeys_updStore (j : Json) (keys : List String) : ∀ acc ps,
    ((parseChatKeys j keys acc ps).2).updateIDToInfo = ps.updateIDToInfo := by
  induction keys with
  | nil => intro acc ps; rfl
  | cons k ks ih =>
    intro acc ps
    simp only [parseChatKeys]
    split_ifs <;> rw [ih] <;> rfl

/-- `Parse_Chat` never writes the update store. -/
theorem parseChat_updStore (ps : ParseState) (j : Json) :
    ((parseChat ps j).2).updateIDToInfo = ps.updateIDToInfo := by
  simp only [parseChat]
  split_ifs <;>
    simp [psLog_updStore, saveInfoData_updStore, parseChatKeys_updStore]

/-- The button key loop never writes the update store. -/
theorem parseButtonKeys_updStore (j : Json) (keys : List String) : ∀ acc ps,
    ((parseButtonKeys j keys acc ps).2).updateIDToInfo = ps.updateIDToInfo := by
  induction keys with
  | nil => intro acc ps; rfl
  | cons k ks ih =>
    intro acc ps
    simp only [parseButtonKeys]
    split_ifs <;> rw [ih] <;> rfl

/-- `Parse_Button` never writes the update store. -/
theorem parseButton_updStore (ps : ParseState) (j : Json) :
    ((parseButton ps j).2).updateIDToInfo = ps.updateIDToInfo := by
  simp only [parseButton]
  simp [saveInfoData_updStore, parseButtonKeys_updStore]

/-- The button-list column loop never writes the update store. -/
theorem parseButtonListCols_updStore (rowName : String) (cells : List Json) :
    ∀ rowIdx colIdx acc ps,
    ((parseButtonListCols rowName cells rowIdx colIdx acc ps).2).updateIDToInfo
      = ps.updateIDToInfo := by
  induction cells with
  | nil => intro rowIdx colIdx acc ps; rfl
  | cons c cs ih =>
    intro rowIdx colIdx acc ps
    simp only [parseButtonListCols]
    split_ifs <;> simp [psLog_updStore, ih, parseButton_updStore]

/-- The button-list row loop never writes the update store. -/
theorem parseButtonListRows_updStore (rows : List Json) : ∀ rowIdx acc ps,
    ((parseButtonListRows rows rowIdx acc ps).2).updateIDToInfo
      = ps.updateIDToInfo := by
  induction rows with
  | nil => intro rowIdx acc ps; rfl
  | cons r rs ih =>
    intro rowIdx acc ps
    simp only [parseButtonListRows]
    split_ifs with hemp
    · rfl
    · rcases hc : parseButtonListCols ("row_" ++ natToStr rowIdx) r.toArr rowIdx 0
        (alSet acc ("row_" ++ natToStr rowIdx ++ "_num_cols") (natToStr r.toArr.length)) ps
        with ⟨oacc, ps₀⟩
      have hps₀ : ps₀.updateIDToInfo = ps.updateIDToInfo := by
        have := parseButtonListCols_updStore ("row_" ++ natToStr rowIdx) r.toArr rowIdx 0
          (alSet acc ("row_" ++ natToStr rowIdx ++ "_num_cols") (natToStr r.toArr.length)) ps
        rw [hc] at this
        exact this
      cases oacc with
      | none => simp [hc, hps₀]
      | some acc' => simp [hc, ih, hps₀]

/-- `Parse_ButtonList` never writes the update store. -/
theorem parseButtonList_updStore (ps : ParseState) (j : Json) :
    ((parseButtonList ps j).2).updateIDToInfo = ps.updateIDToInfo := by
  simp only [parseButtonList]
  split_ifs with hemp
  · rfl
  · rcases hc : parseButtonListRows (j.getKey "inline_keyboard").toArr 0
      (alSet [] "num_rows" (natToStr (j.getKey "inline_keyboard").toArr.length)) ps
      with ⟨oacc, ps₀⟩
    have hps₀ : ps₀.updateIDToInfo = ps.updateIDToInfo := by
      have := parseButtonListRows_updStore (j.getKey "inline_keyboard").toArr 0
        (alSet [] "num_rows" (natToStr (j.getKey "inline_keyboard").toArr.length)) ps
      rw [hc] at this
      exact this
    cases oacc with
    | none => simp [hc, hps₀]
    | some acc' => simp [hc, saveInfoData_updStore, hps₀]

/-- No normalizer in the file/message mutual block ever writes the update
store, at any fuel. -/
theorem fileMessage_updStore : ∀ fuel : Nat,
    (∀ j keys acc ps, ((parseFileKeys fuel j keys acc ps).2).updateIDToInfo
      = ps.updateIDToInfo)
    ∧ (∀ ps j, ((parseFile fuel ps j).2).updateIDToInfo = ps.updateIDToInfo)
    ∧ (∀ j keys acc ps, ((parseMessageKeys fuel j keys acc ps).2).updateIDToInfo
      = ps.updateIDToInfo)
    ∧ (∀ ps j, ((parseMessage fuel ps j).2).updateIDToInfo = ps.updateIDToInfo) := by
  intro fuel
  induction fuel with
  | zero =>
    refine ⟨?_, ?_, ?_, ?_⟩ <;> intros <;> rfl
  | succ n ih =>
    obtain ⟨ihfk, ihf, ihmk, ihm⟩ := ih
    refine ⟨?_, ?_, ?_, ?_⟩
    · intro j keys acc ps
      match keys with
      | [] => rfl
      | k :: ks =>
        simp only [parseFileKeys]
        by_cases hk1 : k = "duration"
        · rw [if_pos hk1]
          simp [ihfk, ihf, ihmk, ihm, psLog_updStore, psEmit_updStore, parseUser_updStore,
            parseChat_updStore, parseButtonList_updStore, saveInfoData_updStore,
            apply_ite (f := Prod.snd), apply_ite (f := ParseState.updateIDToInfo)]
        · rw [if_neg hk1]
          by_cases hk2 : k = "emoji"
          · rw [if_pos hk2]
            simp [ihfk, ihf, ihmk, ihm, psLog_updStore, psEmit_updStore, parseUser_updStore,
            parseChat_updStore, parseButtonList_updStore, saveInfoData_updStore,
            apply_ite (f := Prod.snd), apply_ite (f := ParseState.updateIDToInfo)]
          · rw [if_neg hk2]
            by_cases hk3 : k = "file_id"
            · rw [if_pos hk3]
              simp [ihfk, ihf, ihmk, ihm, psLog_updStore, psEmit_updStore, parseUser_updStore,
            parseChat_updStore, parseButtonList_updStore, saveInfoData_updStore,
            apply_ite (f := Prod.snd), apply_ite (f := ParseState.updateIDToInfo)]
            · rw [if_neg hk3]
              by_cases hk4 : k = "file_name"
              · rw [if_pos hk4]
                simp [ihfk, ihf, ihmk, ihm, psLog_updStore, psEmit_updStore, parseUser_updStore,
            parseChat_updStore, parseButtonList_updStore, saveInfoData_updStore,
            apply_ite (f := Prod.snd), apply_ite (f := ParseState.updateIDToInfo)]
              · rw [if_neg hk4]
                by_cases hk5 : k = "file_path"
                · rw [if_pos hk5]
                  simp [ihfk, ihf, ihmk, ihm, psLog_updStore, psEmit_updStore, parseUser_updStore,
            parseChat_updStore, parseButtonList_updStore, saveInfoData_updStore,
            apply_ite (f := Prod.snd), apply_ite (f := ParseState.updateIDToInfo)]
                · rw [if_neg hk5]
                  by_cases hk6 : k = "file_size"
                  · rw [if_pos hk6]
                    simp [ihfk, ihf, ihmk, ihm, psLog_updStore, psEmit_updStore, parseUser_updStore,
            parseChat_updStore, parseButtonList_updStore, saveInfoData_updStore,
            apply_ite (f := Prod.snd), apply_ite (f := ParseState.updateIDToInfo)]
                  · rw [if_neg hk6]
                    by_cases hk7 : k = "file_unique_id"
                    · rw [if_pos hk7]
                      simp [ihfk, ihf, ihmk, ihm, psLog_updStore, psEmit_updStore, parseUser_updStore,
            parseChat_updStore, parseButtonList_updStore, saveInfoData_updStore,
            apply_ite (f := Prod.snd), apply_ite (f := ParseState.updateIDToInfo)]
                    · rw [if_neg hk7]
                      by_cases hk8 : k = "height"
                      · rw [if_pos hk8]
                        simp [ihfk, ihf, ihmk, ihm, psLog_updStore, psEmit_updStore, parseUser_updStore,
            parseChat_updStore, parseButtonList_updStore, saveInfoData_updStore,
            apply_ite (f := Prod.snd), apply_ite (f := ParseState.updateIDToInfo)]
                      · rw [if_neg hk8]
                        by_cases hk9 : k = "is_animated"
                        · rw [if_pos hk9]
                          simp [ihfk, ihf, ihmk, ihm, psLog_updStore, psEmit_updStore, parseUser_updStore,
            parseChat_updStore, parseButtonList_updStore, saveInfoData_updStore,
            apply_ite (f := Prod.snd), apply_ite (f := ParseState.updateIDToInfo)]
                        · rw [if_neg hk9]
                          by_cases hk10 : k = "is_video"
                          · rw [if_pos hk10]
                            simp [ihfk, ihf, ihmk, ihm, psLog_updStore, psEmit_updStore, parseUser_updStore,
            parseChat_updStore, parseButtonList_updStore, saveInfoData_updStore,
            apply_ite (f := Prod.snd), apply_ite (f := ParseState.updateIDToInfo)]
                          · rw [if_neg hk10]
                            by_cases hk11 : k = "mime_type"
                            · rw [if_pos hk11]
                              simp [ihfk, ihf, ihmk, ihm, psLog_updStore, psEmit_updStore, parseUser_updStore,
            parseChat_updStore, parseButtonList_updStore, saveInfoData_updStore,
            apply_ite (f := Prod.snd), apply_ite (f := ParseState.updateIDToInfo)]
                            · rw [if_neg hk11]
                              by_cases hk12 : k = "premium_animation"
                              · rw [if_pos hk12]
                                simp [ihfk, ihf, ihmk, ihm, psLog_updStore, psEmit_updStore, parseUser_updStore,
            parseChat_updStore, parseButtonList_updStore, saveInfoData_updStore,
            apply_ite (f := Prod.snd), apply_ite (f := ParseState.updateIDToInfo)]
                              · rw [if_neg hk12]
                                by_cases hk13 : k = "set_name"
                                · rw [if_pos hk13]
                                  simp [ihfk, ihf, ihmk, ihm, psLog_updStore, psEmit_updStore, parseUser_updStore,
            parseChat_updStore, parseButtonList_updStore, saveInfoData_updStore,
            apply_ite (f := Prod.snd), apply_ite (f := ParseState.updateIDToInfo)]
                                · rw [if_neg hk13]
                                  by_cases hk14 : k = "thumb"
                                  · rw [if_pos hk14]
                                    simp [ihfk, ihf, ihmk, ihm, psLog_updStore, psEmit_updStore, parseUser_updStore,
            parseChat_updStore, parseButtonList_updStore, saveInfoData_updStore,
            apply_ite (f := Prod.snd), apply_ite (f := ParseState.updateIDToInfo)]
                                  · rw [if_neg hk14]
                                    by_cases hk15 : k = "thumbnail"
                                    · rw [if_pos hk15]
                                      simp [ihfk, ihf, ihmk, ihm, psLog_updStore, psEmit_updStore, parseUser_updStore,
            parseChat_updStore, parseButtonList_updStore, saveInfoData_updStore,
            apply_ite (f := Prod.snd), apply_ite (f := ParseState.updateIDToInfo)]
                                    · rw [if_neg hk15]
                                      by_cases hk16 : k = "type"
                                      · rw [if_pos hk16]
                                        simp [ihfk, ihf, ihmk, ihm, psLog_updStore, psEmit_updStore, parseUser_updStore,
            parseChat_updStore, parseButtonList_updStore, saveInfoData_updStore,
            apply_ite (f := Prod.snd), apply_ite (f := ParseState.updateIDToInfo)]
                                      · rw [if_neg hk16]
                                        by_cases hk17 : k = "width"
                                        · rw [if_pos hk17]
                                          simp [ihfk, ihf, ihmk, ihm, psLog_updStore, psEmit_updStore, parseUser_updStore,
            parseChat_updStore, parseButtonList_updStore, saveInfoData_updStore,
            apply_ite (f := Prod.snd), apply_ite (f := ParseState.updateIDToInfo)]
                                        · rw [if_neg hk17]
                                          simp [ihfk, ihf, ihmk, ihm, psLog_updStore, psEmit_updStore, parseUser_updStore,
            parseChat_updStore, parseButtonList_updStore, saveInfoData_updStore,
            apply_ite (f := Prod.snd), apply_ite (f := ParseState.updateIDToInfo)]
    · intro ps j
      simp only [parseFile]
      simp only [ihfk, saveInfoData_updStore]
    · intro j keys acc ps
      match keys with
      | [] => rfl
      | k :: ks =>
        simp only [parseMessageKeys]
        by_cases hk1 : k = "animation"
        · rw [if_pos hk1]
          simp [ihfk, ihf, ihmk, ihm, psLog_updStore, psEmit_updStore, parseUser_updStore,
            parseChat_updStore, parseButtonList_updStore, saveInfoData_updStore,
            apply_ite (f := Prod.snd), apply_ite (f := ParseState.updateIDToInfo)]
        · rw [if_neg hk1]
          by_cases hk2 : k = "caption"
          · rw [if_pos hk2]
            simp [ihfk, ihf, ihmk, ihm, psLog_updStore, psEmit_updStore, parseUser_updStore,
            parseChat_updStore, parseButtonList_updStore, saveInfoData_updStore,
            apply_ite (f := Prod.snd), apply_ite (f := ParseState.updateIDToInfo)]
          · rw [if_neg hk2]
            by_cases hk3 : k = "chat"
            · rw [if_pos hk3]
              simp [ihfk, ihf, ihmk, ihm, psLog_updStore, psEmit_updStore, parseUser_updStore,
            parseChat_updStore, parseButtonList_updStore, saveInfoData_updStore,
            apply_ite (f := Prod.snd), apply_ite (f := ParseState.updateIDToInfo)]
            · rw [if_neg hk3]
              by_cases hk4 : k = "date"
              · rw [if_pos hk4]
                simp [ihfk, ihf, ihmk, ihm, psLog_updStore, psEmit_updStore, parseUser_updStore,
            parseChat_updStore, parseButtonList_updStore, saveInfoData_updStore,
            apply_ite (f := Prod.snd), apply_ite (f := ParseState.updateIDToInfo)]
              · rw [if_neg hk4]
                by_cases hk5 : k = "document"
                · rw [if_pos hk5]
                  simp [ihfk, ihf, ihmk, ihm, psLog_updStore, psEmit_updStore, parseUser_updStore,
            parseChat_updStore, parseButtonList_updStore, saveInfoData_updStore,
            apply_ite (f := Prod.snd), apply_ite (f := ParseState.updateIDToInfo)]
                · rw [if_neg hk5]
                  by_cases hk6 : k = "edit_date"
                  · rw [if_pos hk6]
                    simp [ihfk, ihf, ihmk, ihm, psLog_updStore, psEmit_updStore, parseUser_updStore,
            parseChat_updStore, parseButtonList_updStore, saveInfoData_updStore,
            apply_ite (f := Prod.snd), apply_ite (f := ParseState.updateIDToInfo)]
                  · rw [if_neg hk6]
                    by_cases hk7 : k = "entities"
                    · rw [if_pos hk7]
                      simp [ihfk, ihf, ihmk, ihm, psLog_updStore, psEmit_updStore, parseUser_updStore,
            parseChat_updStore, parseButtonList_updStore, saveInfoData_updStore,
            apply_ite (f := Prod.snd), apply_ite (f := ParseState.updateIDToInfo)]
                    · rw [if_neg hk7]
                      by_cases hk8 : k = "forward_date"
                      · rw [if_pos hk8]
                        simp [ihfk, ihf, ihmk, ihm, psLog_updStore, psEmit_updStore, parseUser_updStore,
            parseChat_updStore, parseButtonList_updStore, saveInfoData_updStore,
            apply_ite (f := Prod.snd), apply_ite (f := ParseState.updateIDToInfo)]
                      · rw [if_neg hk8]
                        by_cases hk9 : k = "forward_from"
                        · rw [if_pos hk9]
                          simp [ihfk, ihf, ihmk, ihm, psLog_updStore, psEmit_updStore, parseUser_updStore,
            parseChat_updStore, parseButtonList_updStore, saveInfoData_updStore,
            apply_ite (f := Prod.snd), apply_ite (f := ParseState.updateIDToInfo)]
                        · rw [if_neg hk9]
                          by_cases hk10 : k = "forward_from_chat"
                          · rw [if_pos hk10]
                            simp [ihfk, ihf, ihmk, ihm, psLog_updStore, psEmit_updStore, parseUser_updStore,
            parseChat_updStore, parseButtonList_updStore, saveInfoData_updStore,
            apply_ite (f := Prod.snd), apply_ite (f := ParseState.updateIDToInfo)]
                          · rw [if_neg hk10]
                            by_cases hk11 : k = "forward_from_message_id"
                            · rw [if_pos hk11]
                              simp [ihfk, ihf, ihmk, ihm, psLog_updStore, psEmit_updStore, parseUser_updStore,
            parseChat_updStore, parseButtonList_updStore, saveInfoData_updStore,
            apply_ite (f := Prod.snd), apply_ite (f := ParseState.updateIDToInfo)]
                            · rw [if_neg hk11]
                              by_cases hk12 : k = "forward_origin"
                              · rw [if_pos hk12]
                                simp [ihfk, ihf, ihmk, ihm, psLog_updStore, psEmit_updStore, parseUser_updStore,
            parseChat_updStore, parseButtonList_updStore, saveInfoData_updStore,
            apply_ite (f := Prod.snd), apply_ite (f := ParseState.updateIDToInfo)]
                              · rw [if_neg hk12]
                                by_cases hk13 : k = "forward_sender_name"
                                · rw [if_pos hk13]
                                  simp [ihfk, ihf, ihmk, ihm, psLog_updStore, psEmit_updStore, parseUser_updStore,
            parseChat_updStore, parseButtonList_updStore, saveInfoData_updStore,
            apply_ite (f := Prod.snd), apply_ite (f := ParseState.updateIDToInfo)]
                                · rw [if_neg hk13]
                                  by_cases hk14 : k = "forward_signature"
                                  · rw [if_pos hk14]
                                    simp [ihfk, ihf, ihmk, ihm, psLog_updStore, psEmit_updStore, parseUser_updStore,
            parseChat_updStore, parseButtonList_updStore, saveInfoData_updStore,
            apply_ite (f := Prod.snd), apply_ite (f := ParseState.updateIDToInfo)]
                                  · rw [if_neg hk14]
                                    by_cases hk15 : k = "from"
                                    · rw [if_pos hk15]
                                      simp [ihfk, ihf, ihmk, ihm, psLog_updStore, psEmit_updStore, parseUser_updStore,
            parseChat_updStore, parseButtonList_updStore, saveInfoData_updStore,
            apply_ite (f := Prod.snd), apply_ite (f := ParseState.updateIDToInfo)]
                                    · rw [if_neg hk15]
                                      by_cases hk16 : k = "link_preview_options"
                                      · rw [if_pos hk16]
                                        simp [ihfk, ihf, ihmk, ihm, psLog_updStore, psEmit_updStore, parseUser_updStore,
            parseChat_updStore, parseButtonList_updStore, saveInfoData_updStore,
            apply_ite (f := Prod.snd), apply_ite (f := ParseState.updateIDToInfo)]
                                      · rw [if_neg hk16]
                                        by_cases hk17 : k = "message_id"
                                        · rw [if_pos hk17]
                                          simp [ihfk, ihf, ihmk, ihm, psLog_updStore, psEmit_updStore, parseUser_updStore,
            parseChat_updStore, parseButtonList_updStore, saveInfoData_updStore,
            apply_ite (f := Prod.snd), apply_ite (f := ParseState.updateIDToInfo)]
                                        · rw [if_neg hk17]
                                          by_cases hk18 : k = "message_thread_id"
                                          · rw [if_pos hk18]
                                            simp [ihfk, ihf, ihmk, ihm, psLog_updStore, psEmit_updStore, parseUser_updStore,
            parseChat_updStore, parseButtonList_updStore, saveInfoData_updStore,
            apply_ite (f := Prod.snd), apply_ite (f := ParseState.updateIDToInfo)]
                                          · rw [if_neg hk18]
                                            by_cases hk19 : k = "new_chat_member"
                                            · rw [if_pos hk19]
                                              simp [ihfk, ihf, ihmk, ihm, psLog_updStore, psEmit_updStore, parseUser_updStore,
            parseChat_updStore, parseButtonList_updStore, saveInfoData_updStore,
            apply_ite (f := Prod.snd), apply_ite (f := ParseState.updateIDToInfo)]
                                            · rw [if_neg hk19]
                                              by_cases hk20 : k = "new_chat_photo"
                                              · rw [if_pos hk20]
                                                simp [ihfk, ihf, ihmk, ihm, psLog_updStore, psEmit_updStore, parseUser_updStore,
            parseChat_updStore, parseButtonList_updStore, saveInfoData_updStore,
            apply_ite (f := Prod.snd), apply_ite (f := ParseState.updateIDToInfo)]
                                              · rw [if_neg hk20]
                                                by_cases hk21 : k = "new_chat_members"
                                                · rw [if_pos hk21]
                                                  simp [ihfk, ihf, ihmk, ihm, psLog_updStore, psEmit_updStore, parseUser_updStore,
            parseChat_updStore, parseButtonList_updStore, saveInfoData_updStore,
            apply_ite (f := Prod.snd), apply_ite (f := ParseState.updateIDToInfo)]
                                                · rw [if_neg hk21]
                                                  by_cases hk22 : k = "new_chat_participant"
                                                  · rw [if_pos hk22]
                                                    simp [ihfk, ihf, ihmk, ihm, psLog_updStore, psEmit_updStore, parseUser_updStore,
            parseChat_updStore, parseButtonList_updStore, saveInfoData_updStore,
            apply_ite (f := Prod.snd), apply_ite (f := ParseState.updateIDToInfo)]
                                                  · rw [if_neg hk22]
                                                    by_cases hk23 : k = "new_chat_title"
                                                    · rw [if_pos hk23]
                                                      simp [ihfk, ihf, ihmk, ihm, psLog_updStore, psEmit_updStore, parseUser_updStore,
            parseChat_updStore, parseButtonList_updStore, saveInfoData_updStore,
            apply_ite (f := Prod.snd), apply_ite (f := ParseState.updateIDToInfo)]
                                                    · rw [if_neg hk23]
                                                      by_cases hk24 : k = "photo"
                                                      · rw [if_pos hk24]
                                                        simp [ihfk, ihf, ihmk, ihm, psLog_updStore, psEmit_updStore, parseUser_updStore,
            parseChat_updStore, parseButtonList_updStore, saveInfoData_updStore,
            apply_ite (f := Prod.snd), apply_ite (f := ParseState.updateIDToInfo)]
                                                      · rw [if_neg hk24]
                                                        by_cases hk25 : k = "reply_markup"
                                                        · rw [if_pos hk25]
                                                          simp [ihfk, ihf, ihmk, ihm, psLog_updStore, psEmit_updStore, parseUser_updStore,
            parseChat_updStore, parseButtonList_updStore, saveInfoData_updStore,
            apply_ite (f := Prod.snd), apply_ite (f := ParseState.updateIDToInfo)]
                                                        · rw [if_neg hk25]
                                                          by_cases hk26 : k = "reply_to_message"
                                                          · rw [if_pos hk26]
                                                            simp [ihfk, ihf, ihmk, ihm, psLog_updStore, psEmit_updStore, parseUser_updStore,
            parseChat_updStore, parseButtonList_updStore, saveInfoData_updStore,
            apply_ite (f := Prod.snd), apply_ite (f := ParseState.updateIDToInfo)]
                                                          · rw [if_neg hk26]
                                                            by_cases hk27 : k = "sender_chat"
                                                            · rw [if_pos hk27]
                                                              simp [ihfk, ihf, ihmk, ihm, psLog_updStore, psEmit_updStore, parseUser_updStore,
            parseChat_updStore, parseButtonList_updStore, saveInfoData_updStore,
            apply_ite (f := Prod.snd), apply_ite (f := ParseState.updateIDToInfo)]
                                                            · rw [if_neg hk27]
                                                              by_cases hk28 : k = "sticker"
                                                              · rw [if_pos hk28]
                                                                simp [ihfk, ihf, ihmk, ihm, psLog_updStore, psEmit_updStore, parseUser_updStore,
            parseChat_updStore, parseButtonList_updStore, saveInfoData_updStore,
            apply_ite (f := Prod.snd), apply_ite (f := ParseState.updateIDToInfo)]
                                                              · rw [if_neg hk28]
                                                                by_cases hk29 : k = "text"
                                                                · rw [if_pos hk29]
                                                                  simp [ihfk, ihf, ihmk, ihm, psLog_updStore, psEmit_updStore, parseUser_updStore,
            parseChat_updStore, parseButtonList_updStore, saveInfoData_updStore,
            apply_ite (f := Prod.snd), apply_ite (f := ParseState.updateIDToInfo)]
                                                                · rw [if_neg hk29]
                                                                  simp [ihfk, ihf, ihmk, ihm, psLog_updStore, psEmit_updStore, parseUser_updStore,
            parseChat_updStore, parseButtonList_updStore, saveInfoData_updStore,
            apply_ite (f := Prod.snd), apply_ite (f := ParseState.updateIDToInfo)]
    · intro ps j
      simp only [parseMessage]
      split_ifs with hdup
      · rfl
      · rcases hk : parseMessageKeys n j j.keys [] ps with ⟨oacc, ps₀⟩
        have hps₀ : ps₀.updateIDToInfo = ps.updateIDToInfo := by
          have := ihmk j j.keys [] ps
          rw [hk] at this
          exact this
        cases oacc with
        | none => simp only [hk]; exact hps₀
        | some info =>
          simp only [hk]
          split_ifs <;>
            simp only [psLog_updStore, psEmit_updStore, saveInfoData_updStore, hps₀]

/-- `Parse_File` never writes the update store. -/
theorem parseFile_updStore (fuel : Nat) (ps : ParseState) (j : Json) :
    ((parseFile fuel ps j).2).updateIDToInfo = ps.updateIDToInfo :=
  (fileMessage_updStore fuel).2.1 ps j

/-- `Parse_Message` never writes the update store. -/
theorem parseMessage_updStore (fuel : Nat) (ps : ParseState) (j : Json) :
    ((parseMessage fuel ps j).2).updateIDToInfo = ps.updateIDToInfo :=
  (fileMessage_updStore fuel).2.2.2 ps j

/-- The old-chat-member key loop never writes the update store. -/
theorem parseOldChatMemberKeys_updStore (j : Json) (keys : List String) : ∀ acc ps,
    ((parseOldChatMemberKeys j keys acc ps).2).updateIDToInfo = ps.updateIDToInfo := by
  induction keys with
  | nil => intro acc ps; rfl
  | cons k ks ih =>
    intro acc ps
    simp only [parseOldChatMemberKeys]
    by_cases hk1 : k = "user"
    · rw [if_pos hk1]
      simp [ih, parseUser_updStore, psLog_updStore,
        apply_ite (f := Prod.snd), apply_ite (f := ParseState.updateIDToInfo)]
    · rw [if_neg hk1]
      by_cases hk2 : k = "status"
      · rw [if_pos hk2, ih]
      · rw [if_neg hk2, ih]
        rfl

/-- `Parse_MyChatMember_OldChatMember` never writes the update store. -/
theorem parseOldChatMember_updStore (ps : ParseState) (j : Json) :
    ((parseOldChatMember ps j).2).updateIDToInfo = ps.updateIDToInfo := by
  simp only [parseOldChatMember]
  rcases hk : parseOldChatMemberKeys j j.keys [] ps with ⟨oacc, ps₀⟩
  have hps₀ : ps₀.updateIDToInfo = ps.updateIDToInfo := by
    have := parseOldChatMemberKeys_updStore j j.keys [] ps
    rw [hk] at this
    exact this
  cases oacc <;> simp [hps₀]

/-- The new-chat-member key loop never writes the update store. -/
theorem parseNewChatMemberKeys_updStore (j : Json) (keys : List String) : ∀ acc ps,
    ((parseNewChatMemberKeys j keys acc ps).2).updateIDToInfo = ps.updateIDToInfo := by
  induction keys with
  | nil => intro acc ps; rfl
  | cons k ks ih =>
    intro acc ps
    simp only [parseNewChatMemberKeys]
    by_cases hk1 : k = "user"
    · rw [if_pos hk1]
      simp [ih, parseUser_updStore, psLog_updStore,
        apply_ite (f := Prod.snd), apply_ite (f := ParseState.updateIDToInfo)]
    · rw [if_neg hk1]
      by_cases hk2 : k = "status"
      · rw [if_pos hk2, ih]
      · rw [if_neg hk2]
        by_cases hk3 : k = "until_date"
        · rw [if_pos hk3, ih]
        · rw [if_neg hk3]
          by_cases hk4 : k ∈ newChatMemberFlagKeys
          · rw [if_pos hk4, ih]
          · rw [if_neg hk4, ih]
            rfl

/-- `Parse_MyChatMember_NewChatMember` never writes the update store. -/
theorem parseNewChatMember_updStore (ps : ParseState) (j : Json) :
    ((parseNewChatMember ps j).2).updateIDToInfo = ps.updateIDToInfo := by
  simp only [parseNewChatMember]
  rcases hk : parseNewChatMemberKeys j j.keys [] ps with ⟨oacc, ps₀⟩
  have hps₀ : ps₀.updateIDToInfo = ps.updateIDToInfo := by
    have := parseNewChatMemberKeys_updStore j j.keys [] ps
    rw [hk] at this
    exact this
  cases oacc <;> simp [hps₀]

/-- The my-chat-member key loop never writes the update store. -/
theorem parseMyChatMemberKeys_updStore (j : Json) (keys : List String) : ∀ acc ps,
    ((parseMyChatMemberKeys j keys acc ps).2).updateIDToInfo = ps.updateIDToInfo := by
  induction keys with
  | nil => intro acc ps; rfl
  | cons k ks ih =>
    intro acc ps
    simp only [parseMyChatMemberKeys]
    by_cases hk1 : k = "chat"
    · rw [if_pos hk1]
      simp [ih, parseChat_updStore, psLog_updStore,
        apply_ite (f := Prod.snd), apply_ite (f := ParseState.updateIDToInfo)]
    · rw [if_neg hk1]
      by_cases hk2 : k = "date"
      · rw [if_pos hk2, ih]
      · rw [if_neg hk2]
        by_cases hk3 : k = "from"
        · rw [if_pos hk3]
          simp [ih, parseUser_updStore, psLog_updStore,
            apply_ite (f := Prod.snd), apply_ite (f := ParseState.updateIDToInfo)]
        · rw [if_neg hk3]
          by_cases hk4 : k = "old_chat_member"
          · rw [if_pos hk4]
            simp [ih, parseOldChatMember_updStore, psLog_updStore,
              apply_ite (f := Prod.snd), apply_ite (f := ParseState.updateIDToInfo)]
          · rw [if_neg hk4]
            by_cases hk5 : k = "new_chat_member"
            · rw [if_pos hk5]
              simp [ih, parseNewChatMember_updStore, psLog_updStore,
                apply_ite (f := Prod.snd), apply_ite (f := ParseState.updateIDToInfo)]
            · rw [if_neg hk5, ih]
              rfl

/-- `Parse_MyChatMember` never writes the update store. -/
theorem parseMyChatMember_updStore (ps : ParseState) (j : Json) :
    ((parseMyChatMember ps j).2).updateIDToInfo = ps.updateIDToInfo := by
  simp only [parseMyChatMember]
  rcases hk : parseMyChatMemberKeys j j.keys [] ps with ⟨oacc, ps₀⟩
  have hps₀ : ps₀.updateIDToInfo = ps.updateIDToInfo := by
    have := parseMyChatMemberKeys_updStore j j.keys [] ps
    rw [hk] at this
    exact this
  cases oacc with
  | none => simp [hps₀]
  | some info =>
    simp only
    split_ifs <;> simp [psLog_updStore, saveInfoData_updStore, hps₀]

/-- The channel-post key loop never writes the update store. -/
theorem parseChannelPostKeys_updStore (fuel : Nat) (j : Json) (keys : List String) :
    ∀ acc ps,
    ((parseChannelPostKeys fuel j keys acc ps).2).updateIDToInfo = ps.updateIDToInfo := by
  induction keys with
  | nil => intro acc ps; rfl
  | cons k ks ih =>
    intro acc ps
    simp only [parseChannelPostKeys]
    by_cases hk1 : k = "caption"
    · rw [if_pos hk1, ih]
    · rw [if_neg hk1]
      by_cases hk2 : k = "caption_entities"
      · rw [if_pos hk2, ih]
      · rw [if_neg hk2]
        by_cases hk3 : k = "chat"
        · rw [if_pos hk3]
          simp [ih, parseChat_updStore,
            apply_ite (f := Prod.snd), apply_ite (f := ParseState.updateIDToInfo)]
        · rw [if_neg hk3]
          by_cases hk4 : k = "date"
          · rw [if_pos hk4, ih]
          · rw [if_neg hk4]
            by_cases hk5 : k = "document"
            · rw [if_pos hk5]
              simp [ih, parseFile_updStore,
                apply_ite (f := Prod.snd), apply_ite (f := ParseState.updateIDToInfo)]
            · rw [if_neg hk5]
              by_cases hk6 : k = "entities"
              · rw [if_pos hk6, ih]
              · rw [if_neg hk6]
                by_cases hk7 : k = "media_group_id"
                · rw [if_pos hk7, ih]
                · rw [if_neg hk7]
                  by_cases hk8 : k = "message_id"
                  · rw [if_pos hk8, ih]
                  · rw [if_neg hk8]
                    by_cases hk9 : k = "photo"
                    · rw [if_pos hk9]
                      simp [ih, parseFile_updStore, psLog_updStore,
                        apply_ite (f := Prod.snd),
                        apply_ite (f := ParseState.updateIDToInfo)]
                    · rw [if_neg hk9]
                      by_cases hk10 : k = "sender_chat"
                      · rw [if_pos hk10]
                        simp [ih, parseChat_updStore,
                          apply_ite (f := Prod.snd),
                          apply_ite (f := ParseState.updateIDToInfo)]
                      · rw [if_neg hk10]
                        by_cases hk11 : k = "text"
                        · rw [if_pos hk11, ih]
                        · rw [if_neg hk11, ih]
                          rfl

/-- `Parse_ChannelPost` never writes the update store. -/
theorem parseChannelPost_updStore (fuel : Nat) (ps : ParseState) (j : Json) :
    ((parseChannelPost fuel ps j).2).updateIDToInfo = ps.updateIDToInfo := by
  simp only [parseChannelPost]
  split_ifs with hdup
  · rfl
  · rcases hk : parseChannelPostKeys fuel j j.keys [] ps with ⟨oacc, ps₀⟩
    have hps₀ : ps₀.updateIDToInfo = ps.updateIDToInfo := by
      have := parseChannelPostKeys_updStore fuel j j.keys [] ps
      rw [hk] at this
      exact this
    cases oacc with
    | none => simp [hps₀]
    | some info =>
      simp only
      split_ifs <;> simp [psLog_updStore, psEmit_updStore, saveInfoData_updStore, hps₀]

/-- The update key loop never writes the update store: only the wrapper
`parseUpdate` itself inserts into `m_UpdateIDToInfo`. -/
theorem parseUpdateKeys_updStore (fuel : Nat) (j : Json) (keys : List String) :
    ∀ acc ps,
    ((parseUpdateKeys fuel j keys acc ps).2).updateIDToInfo = ps.updateIDToInfo := by
  induction keys with
  | nil => intro acc ps; rfl
  | cons k ks ih =>
    intro acc ps
    simp only [parseUpdateKeys]
    by_cases hk1 : k = "channel_post"
    · rw [if_pos hk1]
      simp [ih, parseChannelPost_updStore, psLog_updStore,
        apply_ite (f := Prod.snd), apply_ite (f := ParseState.updateIDToInfo)]
    · rw [if_neg hk1]
      by_cases hk2 : k = "edited_channel_post"
      · rw [if_pos hk2]
        simp [ih, parseChannelPost_updStore, psLog_updStore,
          apply_ite (f := Prod.snd), apply_ite (f := ParseState.updateIDToInfo)]
      · rw [if_neg hk2]
        by_cases hk3 : k = "edited_message"
        · rw [if_pos hk3]
          simp [ih, parseMessage_updStore, psLog_updStore,
            apply_ite (f := Prod.snd), apply_ite (f := ParseState.updateIDToInfo)]
        · rw [if_neg hk3]
          by_cases hk4 : k = "message"
          · rw [if_pos hk4]
            simp [ih, parseMessage_updStore, psLog_updStore,
              apply_ite (f := Prod.snd), apply_ite (f := ParseState.updateIDToInfo)]
          · rw [if_neg hk4]
            by_cases hk5 : k = "my_chat_member"
            · rw [if_pos hk5]
              simp [ih, parseMyChatMember_updStore, psLog_updStore,
                apply_ite (f := Prod.snd), apply_ite (f := ParseState.updateIDToInfo)]
            · rw [if_neg hk5]
              by_cases hk6 : k = "update_id"
              · rw [if_pos hk6, ih]
              · rw [if_neg hk6, ih]
                rfl

/-- The update-store invariant only depends on the store component. -/
theorem UpdateStoreInv_of_eq (ps₁ ps₂ : ParseState)
    (h : ps₂.updateIDToInfo = ps₁.updateIDToInfo) (hinv : UpdateStoreInv ps₁) :
    UpdateStoreInv ps₂ := by
  intro k info hk
  rw [h] at hk
  exact hinv k info hk

/-- A successful `Parse_Update` returns a record whose `id` field is the
rendered `update_id` of the payload (both on the fresh-parse path and on
the dedupe path, via the store invariant), and preserves the store
invariant. -/
theorem parseUpdate_id (fuel : Nat) (ps : ParseState) (j : Json) (info : SMap)
    (ps' : ParseState) (hinv : UpdateStoreInv ps)
    (h : parseUpdate fuel ps j = (info, ps')) (hne : info.isEmpty = false) :
    alGet info "id" = some (intToStr ((j.getKey "update_id").toInteger))
    ∧ UpdateStoreInv ps' := by
  cases hc : alContains ps.updateIDToInfo ((j.getKey "update_id").toInteger) with
  | true =>
    have heval : parseUpdate fuel ps j
        = ((alGet ps.updateIDToInfo ((j.getKey "update_id").toInteger)).getD [], ps) := by
      simp [parseUpdate, hc]
    have h' := heval.symm.trans h
    rw [Prod.mk.injEq] at h'
    obtain ⟨h1, h2⟩ := h'
    rcases hs : alGet ps.updateIDToInfo ((j.getKey "update_id").toInteger) with _ | stored
    · rw [alContains, hs] at hc
      exact absurd hc (by simp)
    · rw [hs] at h1
      simp only [Option.getD_some] at h1
      subst h1
      subst h2
      exact ⟨hinv _ stored hs, hinv⟩
  | false =>
    rcases hk : parseUpdateKeys fuel j j.keys [] ps with ⟨oacc, ps₀⟩
    have hps₀ : ps₀.updateIDToInfo = ps.updateIDToInfo := by
      have := parseUpdateKeys_updStore fuel j j.keys [] ps
      rw [hk] at this
      exact this
    cases oacc with
    | none =>
      have heval : parseUpdate fuel ps j = ([], ps₀) := by
        simp [parseUpdate, hc, hk]
      have h' := heval.symm.trans h
      rw [Prod.mk.injEq] at h'
      obtain ⟨h1, _⟩ := h'
      rw [← h1] at hne
      exact absurd hne (by simp)
    | some acc =>
      cases hcid : alContains acc "id" with
      | false =>
        have heval : parseUpdate fuel ps j = ([], psLog ps₀ "Update is missing an ID") := by
          simp [parseUpdate, hc, hk, hcid]
        have h' := heval.symm.trans h
        rw [Prod.mk.injEq] at h'
        obtain ⟨h1, _⟩ := h'
        rw [← h1] at hne
        exact absurd hne (by simp)
      | true =>
        have heval : parseUpdate fuel ps j = (acc, saveInfoData { ps₀ with updateIDToInfo := alSet ps₀.updateIDToInfo ((j.getKey "update_id").toInteger) acc } "update_info" acc false) := by
          simp [parseUpdate, hc, hk, hcid]
        have h' := heval.symm.trans h
        rw [Prod.mk.injEq] at h'
        obtain ⟨h1, h2⟩ := h'
        subst h1
        have hid : alGet acc "id"
            = some (intToStr ((j.getKey "update_id").toInteger)) := by
          have := parseUpdateKeys_id fuel j j.keys [] ps _ _ hk
          by_cases hmem : "update_id" ∈ j.keys
          · rw [if_pos hmem] at this
            exact this
          · rw [if_neg hmem] at this
            rw [alContains, this] at hcid
            exact absurd hcid (by simp [alGet])
        refine ⟨hid, ?_⟩
        intro k rec hrec
        have hstore : ps'.updateIDToInfo
            = alSet ps.updateIDToInfo ((j.getKey "update_id").toInteger) acc := by
          rw [← h2, saveInfoData_updStore]
          simp [hps₀]
        rw [hstore] at hrec
        by_cases hkk : k = (j.getKey "update_id").toInteger
        · subst hkk
          rw [alGet_alSet_eq] at hrec
          obtain hrec := Option.some.inj hrec
          subst hrec
          exact hid
        · rw [alGet_alSet_ne _ _ _ _ (fun hh => hkk hh.symm)] at hrec
          exact hinv k rec hrec

/-- C1 (amended): after `Parse_UpdateArray` processes a batch successfully,
`m_Offset` equals the `update_id` of the LAST update of the batch plus one
(not the maximum id), and the offset is marked as set — the loop assigns
`m_Offset = update_id + 1` for every update in array order, so the final
assignment is the last update's.  The hypothesis is the store invariant
that every stored update record carries its store key as its `id` field,
which holds initially (empty store) and is preserved by parsing. -/
theorem C1_amended_offset_tracks_last_update (fuel : Nat) (us : List Json) :
    ∀ (st : CommsState) (lastId : Int),
    UpdateStoreInv st.ps →
    (us.map (fun u => (u.getKey "update_id").toInteger)).getLast? = some lastId →
    (parseUpdateArray fuel st us).1 = true →
    (parseUpdateArray fuel st us).2.offset = lastId + 1
    ∧ (parseUpdateArray fuel st us).2.offsetSet = true := by
  induction us with
  | nil =>
    intro st lastId hinv hlast hok
    exact absurd hlast (by simp)
  | cons u rest ih =>
    intro st lastId hinv hlast hok
    rcases hr : parseUpdate fuel st.ps u with ⟨info, ps'⟩
    cases hemp : info.isEmpty with
    | true =>
      have heval : parseUpdateArray fuel st (u :: rest) = (false, csLog { st with ps := ps' } "Update could not be parsed.") := by
        simp [parseUpdateArray, hr, hemp]
      rw [heval] at hok
      exact absurd hok (by simp)
    | false =>
      obtain ⟨hid, hinv'⟩ := parseUpdate_id fuel st.ps u info ps' hinv hr hemp
      have hsid : strToInt (alGetD info "id") = (u.getKey "update_id").toInteger := by
        rw [alGetD, hid]
        simp [strToInt_intToStr]
      have heval : parseUpdateArray fuel st (u :: rest) = parseUpdateArray fuel (csEmit { st with ps := ps', offset := (u.getKey "update_id").toInteger + 1, offsetSet := true } (.UpdateReceived (strToInt (alGetD info "chat_id")) ((u.getKey "update_id").toInteger))) rest := by
        simp [parseUpdateArray, hr, hemp, hsid]
      cases rest with
      | nil =>
        rw [heval] at hok ⊢
        have hu : (u.getKey "update_id").toInteger = lastId := by
          simpa using hlast
        rw [parseUpdateArray]
        constructor
        · simp [csEmit, hu]
        · rfl
      | cons v vs =>
        rw [heval] at hok ⊢
        have hlast' : ((v :: vs).map (fun w => (w.getKey "update_id").toInteger)).getLast?
            = some lastId := by
          simpa [List.getLast?_cons_cons] using hlast
        exact ih _ lastId (UpdateStoreInv_of_eq ps' _ rfl hinv') hlast' hok

/-- Witness for C1 (amended): the batch with ids 5, 6, 9 parses from the
initial state and leaves the offset at 10 with the offset flag set. -/
theorem C1_amended_offset_tracks_last_update_witness :
    UpdateStoreInv initComms.ps
    ∧ ([jUpd5, jUpd6, jUpd9].map
        (fun u => (u.getKey "update_id").toInteger)).getLast? = some 9
    ∧ (parseUpdateArray 100 initComms [jUpd5, jUpd6, jUpd9]).1 = true
    ∧ (parseUpdateArray 100 initComms [jUpd5, jUpd6, jUpd9]).2.offset = 9 + 1
    ∧ (parseUpdateArray 100 initComms [jUpd5, jUpd6, jUpd9]).2.offsetSet = true := by
  have hinv : UpdateStoreInv initComms.ps := by
    intro k info h
    simp [initComms, initParseState, alGet] at h
  have hlast : ([jUpd5, jUpd6, jUpd9].map
      (fun u => (u.getKey "update_id").toInteger)).getLast? = some 9 := by rfl
  have hok : (parseUpdateArray 100 initComms [jUpd5, jUpd6, jUpd9]).1 = true := by rfl
  exact ⟨hinv, hlast, hok,
    (C1_amended_offset_tracks_last_update 100 [jUpd5, jUpd6, jUpd9] initComms 9
      hinv hlast hok).1,
    (C1_amended_offset_tracks_last_update 100 [jUpd5, jUpd6, jUpd9] initComms 9
      hinv hlast hok).2⟩

/-! ## The stuck sticker-set info pipeline (C9) -/

/-- Appending a request that is not `getStickerSet` leaves the
`getStickerSet` count unchanged. -/
theorem countStickerSetRequests_append (rs : List Request) (r : Request)
    (h : (match r with | .getStickerSet _ => true | _ => false) = false) :
    countStickerSetRequests (rs ++ [r]) = countStickerSetRequests rs := by
  simp [countStickerSetRequests, List.filter_append, h]

/-- `Parse_UpdateArray` never touches the sticker-set info machinery and
issues no request. -/
theorem parseUpdateArray_ssFrame (fuel : Nat) (us : List Json) : ∀ st : CommsState,
    (parseUpdateArray fuel st us).2.stickerSetInfoBeingDownloaded
      = st.stickerSetInfoBeingDownloaded
    ∧ (parseUpdateArray fuel st us).2.inflightStickerSetInfo = st.inflightStickerSetInfo
    ∧ (parseUpdateArray fuel st us).2.requests = st.requests := by
  induction us with
  | nil => intro st; exact ⟨rfl, rfl, rfl⟩
  | cons u rest ih =>
    intro st
    rcases hr : parseUpdate fuel st.ps u with ⟨info, ps'⟩
    cases hemp : info.isEmpty with
    | true =>
      have heval : parseUpdateArray fuel st (u :: rest) = (false, csLog { st with ps := ps' } "Update could not be parsed.") := by
        simp [parseUpdateArray, hr, hemp]
      rw [heval]
      exact ⟨rfl, rfl, rfl⟩
    | false =>
      have heval : parseUpdateArray fuel st (u :: rest) = parseUpdateArray fuel (csEmit { st with ps := ps', offset := strToInt (alGetD info "id") + 1, offsetSet := true } (.UpdateReceived (strToInt (alGetD info "chat_id")) (strToInt (alGetD info "id")))) rest := by
        simp [parseUpdateArray, hr, hemp]
      rw [heval]
      obtain ⟨h1, h2, h3⟩ := ih (csEmit { st with ps := ps', offset := strToInt (alGetD info "id") + 1, offsetSet := true } (.UpdateReceived (strToInt (alGetD info "chat_id")) (strToInt (alGetD info "id"))))
      exact ⟨h1.trans rfl, h2.trans rfl, h3.trans rfl⟩

/-- A response that is not sticker-related (in the sense of the
`Parse_Response` dispatch) leaves the sticker-set info marker, the
in-flight counter and the issued `getStickerSet` count unchanged. -/
theorem parseResponse_ssFrame (fuel : Nat) (st : CommsState) (j : Json)
    (hrel : respStickerRelated j = false) :
    (parseResponse fuel st j).2.stickerSetInfoBeingDownloaded
      = st.stickerSetInfoBeingDownloaded
    ∧ (parseResponse fuel st j).2.inflightStickerSetInfo = st.inflightStickerSetInfo
    ∧ countStickerSetRequests (parseResponse fuel st j).2.requests
      = countStickerSetRequests st.requests := by
  simp only [parseResponse]
  split_ifs with h1 h2 h3 h4 h5 h6 h7 h8 h9 h10
  all_goals try exact ⟨rfl, rfl, rfl⟩
  · exfalso
    simp only [respStickerRelated] at hrel
    rw [if_neg h1, if_pos h2] at hrel
    rw [h3] at hrel
    exact Bool.noConfusion hrel
  · refine ⟨(parseUpdateArray_ssFrame fuel _ _).1.trans rfl,
      (parseUpdateArray_ssFrame fuel _ _).2.1.trans rfl, ?_⟩
    rw [(parseUpdateArray_ssFrame fuel _ _).2.2]
  · refine ⟨rfl, rfl, ?_⟩
    simp only [downloadFilePath, csRequest]
    exact countStickerSetRequests_append _ _ rfl
  · exfalso
    simp only [respStickerRelated] at hrel
    rw [if_neg h1, if_neg h2, if_neg h4, if_neg h5, if_neg h6, if_neg h7] at hrel
    rw [h9] at hrel
    exact Bool.noConfusion hrel

/-- One valid comms step from a state whose sticker-set info marker is
stuck (nonempty) with nothing in flight keeps the marker, keeps the
in-flight counter at zero, and issues no further `getStickerSet`
request. -/
theorem cstep_ssPreserve (fuel : Nat) (st : CommsState) (e : CEvent)
    (hm : st.stickerSetInfoBeingDownloaded ≠ "")
    (hin : st.inflightStickerSetInfo = 0)
    (hv : cValid st e) :
    (cstep fuel st e).stickerSetInfoBeingDownloaded = st.stickerSetInfoBeingDownloaded
    ∧ (cstep fuel st e).inflightStickerSetInfo = 0
    ∧ countStickerSetRequests (cstep fuel st e).requests
      = countStickerSetRequests st.requests := by
  cases e with
  | tickStickerSetInfo =>
    have hid : (periodicDownloadStickerSetInfo st).1 = st := by
      simp [periodicDownloadStickerSetInfo, hm]
    refine ⟨?_, ?_, ?_⟩ <;>
      rw [show cstep fuel st CEvent.tickStickerSetInfo
        = (periodicDownloadStickerSetInfo st).1 from rfl, hid]
    exact hin
  | tickDownloadFiles =>
    have hstep : cstep fuel st CEvent.tickDownloadFiles = (periodicDownloadFiles st).1 :=
      rfl
    cases hq : st.downloadQueue with
    | nil =>
      have hid : (periodicDownloadFiles st).1 = st := by
        simp [periodicDownloadFiles, hq]
      refine ⟨?_, ?_, ?_⟩ <;> rw [hstep, hid]
      exact hin
    | cons f rest =>
      have hid : (periodicDownloadFiles st).1
          = csRequest { st with downloadQueue := rest } (.getFile f) := by
        simp [periodicDownloadFiles, hq]
      refine ⟨?_, ?_, ?_⟩ <;> rw [hstep, hid]
      · rfl
      · exact hin
      · show countStickerSetRequests (st.requests ++ [Request.getFile f])
          = countStickerSetRequests st.requests
        exact countStickerSetRequests_append st.requests (Request.getFile f) rfl
  | tickWatchUpdates =>
    have hstep : cstep fuel st CEvent.tickWatchUpdates = (periodicWatchForUpdates st).1 :=
      rfl
    cases hrun : st.isRunning with
    | false =>
      have hid : (periodicWatchForUpdates st).1 = st := by
        simp [periodicWatchForUpdates, hrun]
      refine ⟨?_, ?_, ?_⟩ <;> rw [hstep, hid]
      exact hin
    | true =>
      have hid : (periodicWatchForUpdates st).1
          = csRequest st (.getUpdates (if st.offsetSet then some st.offset else none)) := by
        simp [periodicWatchForUpdates, checkForUpdates, hrun]
      refine ⟨?_, ?_, ?_⟩ <;> rw [hstep, hid]
      · rfl
      · exact hin
      · show countStickerSetRequests
            (st.requests ++ [Request.getUpdates (if st.offsetSet then some st.offset else none)])
          = countStickerSetRequests st.requests
        exact countStickerSetRequests_append st.requests
          (Request.getUpdates (if st.offsetSet then some st.offset else none)) rfl
  | reqStickerSetInfo name =>
    exact ⟨rfl, hin, rfl⟩
  | reqDownloadFile fileId =>
    have hstep : cstep fuel st (CEvent.reqDownloadFile fileId) = downloadFile st fileId :=
      rfl
    cases hd : hasFileBeenDownloaded st fileId with
    | true =>
      have hid : downloadFile st fileId = csEmit st (.FileDownloaded fileId) := by
        simp [downloadFile, hd]
      refine ⟨?_, ?_, ?_⟩ <;> rw [hstep, hid]
      · rfl
      · exact hin
      · rfl
    | false =>
      have hid : downloadFile st fileId = { st with downloadQueue := st.downloadQueue ++ [fileId] } := by
        simp [downloadFile, hd]
      refine ⟨?_, ?_, ?_⟩ <;> rw [hstep, hid]
      exact hin
  | response j =>
    cases hrel : respStickerRelated j with
    | true =>
      have hlt : 0 < st.inflightStickerSetInfo := hv hrel
      rw [hin] at hlt
      exact absurd hlt (by simp)
    | false =>
      have hstep : cstep fuel st (.response j) = (parseResponse fuel st j).2 := by
        simp [cstep, hrel]
      rw [hstep]
      obtain ⟨h1, h2, h3⟩ := parseResponse_ssFrame fuel st j hrel
      exact ⟨h1, h2.trans hin, h3⟩
  | binary path hasData =>
    have hstep : cstep fuel st (.binary path hasData) = (saveFile st path hasData).2 :=
      rfl
    cases hasData with
    | false =>
      refine ⟨?_, ?_, ?_⟩ <;> rw [hstep]
      · rfl
      · exact hin
      · rfl
    | true =>
      refine ⟨?_, ?_, ?_⟩ <;> rw [hstep]
      · rfl
      · exact hin
      · rfl

/-- A whole valid trace from a stuck state keeps the marker, keeps the
in-flight counter at zero, and never issues another `getStickerSet`
request. -/
theorem crun_ssPreserve (fuel : Nat) (tr : List CEvent) : ∀ st : CommsState,
    st.stickerSetInfoBeingDownloaded ≠ "" →
    st.inflightStickerSetInfo = 0 →
    cValidTrace fuel st tr →
    (crun fuel st tr).stickerSetInfoBeingDownloaded = st.stickerSetInfoBeingDownloaded
    ∧ (crun fuel st tr).inflightStickerSetInfo = 0
    ∧ countStickerSetRequests (crun fuel st tr).requests
      = countStickerSetRequests st.requests := by
  induction tr with
  | nil =>
    intro st hm hin htr
    exact ⟨rfl, hin, rfl⟩
  | cons e rest ih =>
    intro st hm hin htr
    obtain ⟨hv, htr'⟩ := htr
    obtain ⟨h1, h2, h3⟩ := cstep_ssPreserve fuel st e hm hin hv
    have hm' : (cstep fuel st e).stickerSetInfoBeingDownloaded ≠ "" := by
      rw [h1]
      exact hm
    obtain ⟨g1, g2, g3⟩ := ih (cstep fuel st e) hm' h2 htr'
    exact ⟨g1.trans h1, g2, g3.trans h3⟩

/-- C9: a sticker-set info payload whose name is already in the entity
store makes `Parse_StickerSet` return the stored record with the comms
state completely unchanged — in particular no `StickerSetInfoReceived`
emission and no clearing of `m_StickerSetInfoBeingDownloaded`; and from
any state whose marker is nonempty with no `getStickerSet` request in
flight, every valid continuation trace keeps the marker exactly as it is
(hence nonempty forever) and never issues another `getStickerSet`
request, so the queued names behind it are never served. -/
theorem C9_known_stickerset_stalls_info_pipeline
    (fuel : Nat) (st : CommsState) (j : Json) (tr : List CEvent)
    (hknown : alContains st.stickerSetNameToInfo ((j.getKey "name").toStr) = true)
    (hm : st.stickerSetInfoBeingDownloaded ≠ "")
    (hin : st.inflightStickerSetInfo = 0)
    (htr : cValidTrace fuel st tr) :
    parseStickerSet fuel st j
      = ((alGet st.stickerSetNameToInfo ((j.getKey "name").toStr)).getD [], st)
    ∧ (crun fuel st tr).stickerSetInfoBeingDownloaded
      = st.stickerSetInfoBeingDownloaded
    ∧ (crun fuel st tr).inflightStickerSetInfo = 0
    ∧ countStickerSetRequests (crun fuel st tr).requests
      = countStickerSetRequests st.requests := by
  refine ⟨?_, crun_ssPreserve fuel tr st hm hin htr⟩
  simp [parseStickerSet, hknown]

/-- Witness for C9: with `foo` already stored, the marker stuck at `foo`
and `bar` still queued, the `foo` info payload is swallowed without any
state change, and the probing trace (which ticks the info download three
times, queues another name, and delivers unrelated responses) leaves the
marker at `foo` and issues no `getStickerSet` request at all. -/
theorem C9_known_stickerset_stalls_info_pipeline_witness :
    alContains stFooKnown.stickerSetNameToInfo ((jSetFoo.getKey "name").toStr) = true
    ∧ stFooKnown.stickerSetInfoBeingDownloaded ≠ ""
    ∧ stFooKnown.inflightStickerSetInfo = 0
    ∧ parseStickerSet 100 stFooKnown jSetFoo
      = ((alGet stFooKnown.stickerSetNameToInfo ((jSetFoo.getKey "name").toStr)).getD [],
        stFooKnown)
    ∧ (crun 100 stFooKnown c9trace).stickerSetInfoBeingDownloaded = "foo"
    ∧ countStickerSetRequests (crun 100 stFooKnown c9trace).requests
      = countStickerSetRequests stFooKnown.requests := by
  have hknown : alContains stFooKnown.stickerSetNameToInfo
      ((jSetFoo.getKey "name").toStr) = true := by rfl
  have hm : stFooKnown.stickerSetInfoBeingDownloaded ≠ "" := by decide
  have hin : stFooKnown.inflightStickerSetInfo = 0 := rfl
  have htr : cValidTrace 100 stFooKnown c9trace := by
    refine ⟨trivial, trivial, trivial, trivial, trivial, ?_, trivial, trivial, trivial⟩
    intro hx
    exact absurd hx (by decide)
  obtain ⟨h1, h2, h3, h4⟩ := C9_known_stickerset_stalls_info_pipeline
    100 stFooKnown jSetFoo c9trace hknown hm hin htr
  exact ⟨hknown, hm, hin, h1, h2.trans rfl, h4⟩
